import Mathlib

/-!
# Cinema booking core: seat inventory and booking workflow

A shallow embedding of `BookingService.cpp` / `BookingService.h`, of the scheduling and
ranking part of `ShowtimeService.cpp` / `ShowtimeService.h`, of the refund path of
`PaymentService.cpp` / `PaymentService.h` and of the search of `MovieService.cpp` /
`MovieService.h`.

Conventions of the embedding

* C++ `int` and `time_t` values are integers (`Int`).  The `int` results that a caller can
  push out of the 32-bit range, the product `holdTimeMinutes * 60` and the difference
  `seats_total - seats_available`, are wrapped to 32 bits (`wrapInt32`); the id counters
  are assumed to stay in range.
* `double` values are exact rationals (`Rat`).
* `time(0)` is an explicit argument `now` of every operation that reads the
  clock; one operation sees one clock value.
* `rand()` is an explicit argument `rnd`: `rnd i` is the value of the `i`-th
  call made by the operation.
* `std::map<int, vector<Seat>>` is a function `Int → Option (List Seat)`;
  `find(k) == end()` is `none`, and `operator[]` on an absent key yields the
  empty vector and stores it.
* A `std::string` is a `String`; one C++ `char` is one character.
* A `Payment*` is an address (`Nat`) into an object store `Nat → Payment` that is passed
  along with the service.
* The library algorithms `std::make_heap`, `std::sort_heap` and `std::sort` are not code of
  the repository: the heap algorithms are modelled by the textbook sift-down construction,
  and `std::sort` is an argument of the search, with a stable instance next to it.
* A division by zero is a failure (`none`) of the operation that performs it.
* Console output is dropped; a `bool` result is returned next to the new state.
-/

namespace BookingCore

/-! ## Data model -/

/-- Seat record (`class Seat`). -/
structure Seat where
  seat_id : String
  row : String
  number : Int
  type : String
  status : String
  hold_expires_at : Int
  order_id : Int
  price_multiplier : Rat
deriving DecidableEq

/-- Order record (`class Order`). -/
structure Order where
  id : Int
  staff_id : Int
  showtime_id : Int
  seat_ids : List String
  subtotal : Rat
  tax : Rat
  discount : Rat
  total_amount : Rat
  payment_status : String
  customer_name : String
  customer_phone : String
  created_at : Int
  updated_at : Int
deriving DecidableEq

/-- Ticket record (`class Ticket`). -/
structure Ticket where
  ticket_id : String
  order_id : Int
  showtime_id : Int
  seat_id : String
  movie_title : String
  auditorium_name : String
  show_time : Int
  price : Rat
  status : String
  issued_at : Int
deriving DecidableEq

/-- The private members of `class BookingService`. -/
structure BookingService where
  orders : List Order
  tickets : List Ticket
  showtimeSeats : Int → Option (List Seat)
  nextOrderId : Int
  nextTicketId : Int

/-! ## Machine arithmetic and text helpers -/

/-- Two's-complement reduction of an integer to the range of a 32-bit `int`. -/
def wrapInt32 (x : Int) : Int := (x + 2147483648) % 4294967296 - 2147483648

/-- Output of `setfill('0') << setw(w) << text`: fill characters go to the left. -/
def padZero (w : Nat) (text : String) : String :=
  String.mk (List.replicate (w - text.length) '0') ++ text

/-- Characters that `isspace` accepts in the "C" locale. -/
def isSpaceChar (c : Char) : Bool :=
  c == ' ' || c == '\t' || c == '\n' || c == '\x0b' || c == '\x0c' || c == '\r'

/-- Value of a leading run of decimal digits, with the number of digits read. -/
def readDigits : List Char → Nat → Nat → Nat × Nat
  | [], acc, cnt => (acc, cnt)
  | c :: cs, acc, cnt =>
    if c.isDigit then readDigits cs (acc * 10 + (c.toNat - 48)) (cnt + 1) else (acc, cnt)

/-- Model of `std::stoi` in base 10: leading blanks, an optional sign, digits.
`none` stands for a thrown `invalid_argument` or `out_of_range`. -/
def stoi (text : String) : Option Int :=
  let body := text.toList.dropWhile isSpaceChar
  let (neg, digits) :=
    match body with
    | '-' :: cs => (true, cs)
    | '+' :: cs => (false, cs)
    | cs => (false, cs)
  let (value, cnt) := readDigits digits 0 0
  if cnt = 0 then none
  else
    let v : Int := if neg then -(value : Int) else (value : Int)
    if v < -2147483648 ∨ 2147483647 < v then none else some v

/-! ## Seat -/

/-- Effect of `Seat::setSeatId` on the pair `(row, number)`. -/
def Seat.setSeatId (s : Seat) (newSeatId : String) : Seat :=
  if newSeatId.isEmpty then { s with seat_id := newSeatId }
  else
    { s with
      seat_id := newSeatId
      row := newSeatId.take 1
      number := (stoi (newSeatId.drop 1)).getD 0 }

/-- Constructor `Seat::Seat(seatId, seatType)`.  For an empty id the source leaves `number`
without a value; it is 0 here. -/
def Seat.new (seatId : String) (seatType : String) : Seat :=
  let s : Seat :=
    Seat.setSeatId
      { seat_id := seatId, row := "", number := 0, type := seatType, status := "available",
        hold_expires_at := 0, order_id := 0, price_multiplier := 1 }
      seatId
  if s.type = "VIP" then { s with price_multiplier := 3 / 2 }
  else if s.type = "Couple" then { s with price_multiplier := 13 / 10 }
  else if s.type = "Premium" then { s with price_multiplier := 9 / 5 }
  else s

/-- Method `Seat::isAvailable`. -/
def Seat.isAvailable (s : Seat) : Bool := s.status == "available"

/-- Method `Seat::isHoldExpired`, at clock value `now`. -/
def Seat.isHoldExpired (s : Seat) (now : Int) : Bool :=
  s.status == "held" && decide (now > s.hold_expires_at)

/-- Method `Seat::isHeld`, at clock value `now`. -/
def Seat.isHeld (s : Seat) (now : Int) : Bool :=
  s.status == "held" && !s.isHoldExpired now

/-- Method `Seat::isSold`. -/
def Seat.isSold (s : Seat) : Bool := s.status == "sold"

/-! ## Order and Ticket -/

/-- Constructor `Order::Order(staffId, showtimeId, seatIds)` at clock value `now`. -/
def Order.new (staffId showtimeId : Int) (seatIds : List String) (now : Int) : Order :=
  { id := 0, staff_id := staffId, showtime_id := showtimeId, seat_ids := seatIds,
    subtotal := 0, tax := 0, discount := 0, total_amount := 0, payment_status := "pending",
    customer_name := "", customer_phone := "", created_at := now, updated_at := now }

/-- Method `Order::isValid`. -/
def Order.isValid (o : Order) : Bool :=
  decide (o.staff_id > 0) && decide (o.showtime_id > 0) && !o.seat_ids.isEmpty
    && decide (o.total_amount ≥ 0)

/-- Method `Order::setPaymentStatus`: also stamps `updated_at`. -/
def Order.setPaymentStatus (o : Order) (newStatus : String) (now : Int) : Order :=
  { o with payment_status := newStatus, updated_at := now }

/-- Method `Ticket::generateTicketId` with `r` the value of `rand()`. -/
def generateTicketId (orderId : Int) (r : Nat) : String :=
  "TKT" ++ padZero 6 (toString (wrapInt32 (orderId * 1000 + (r : Int) % 1000)))

/-- The ticket built by one round of the loop of `issueTickets`. -/
def Ticket.issue (orderId showtimeId : Int) (seatId : String) (now : Int) (r : Nat) : Ticket :=
  { ticket_id := generateTicketId orderId r
    order_id := orderId
    showtime_id := showtimeId
    seat_id := seatId
    movie_title := "Sample Movie"
    auditorium_name := "Theater 1"
    show_time := now + 3600
    price := 12
    status := "valid"
    issued_at := now }

/-! ## Loops over a seat vector -/

/-- Inner loop `for (Seat& seat : seats) if (p seat) { seat = f seat; break; }`. -/
def updateFirst (p : Seat → Bool) (f : Seat → Seat) : List Seat → List Seat
  | [] => []
  | s :: rest => if p s then f s :: rest else s :: updateFirst p f rest

/-- The first seat of the vector carrying the id, as the inner loops find it. -/
def findSeat : List Seat → String → Option Seat
  | [], _ => none
  | s :: rest, seatId => if s.seat_id == seatId then some s else findSeat rest seatId

/-- The two nested loops of `validateSeatSelection`. -/
def validateLoop (seats : List Seat) : List String → Bool
  | [] => true
  | seatId :: rest =>
    match findSeat seats seatId with
    | none => false
    | some seat => if !seat.isAvailable then false else validateLoop seats rest

/-- Assignment to one entry of the seat map. -/
def setSeats (m : Int → Option (List Seat)) (k : Int) (v : List Seat) :
    Int → Option (List Seat) :=
  fun j => if j = k then some v else m j

/-- What `showtimeSeats[k]` refers to: the stored vector, or a fresh empty one. -/
def seatsAt (m : Int → Option (List Seat)) (k : Int) : List Seat := (m k).getD []

/-- Seat mutation of `holdSeats`. -/
def Seat.hold (holdExpiry : Int) (s : Seat) : Seat :=
  { s with status := "held", hold_expires_at := holdExpiry }

/-- Seat mutation of `releaseHeldSeats` and `releaseExpiredHolds`. -/
def Seat.release (s : Seat) : Seat :=
  { s with status := "available", hold_expires_at := 0, order_id := 0 }

/-- Seat mutation of `confirmBooking`. -/
def Seat.sell (orderId : Int) (s : Seat) : Seat :=
  { s with status := "sold", order_id := orderId }

/-- Nested loops of `holdSeats`. -/
def holdLoop (holdExpiry : Int) (seats : List Seat) : List String → List Seat
  | [] => seats
  | seatId :: rest =>
    holdLoop holdExpiry (updateFirst (fun s => s.seat_id == seatId) (Seat.hold holdExpiry) seats) rest

/-- Nested loops of `releaseHeldSeats`. -/
def releaseLoop (seats : List Seat) : List String → List Seat
  | [] => seats
  | seatId :: rest =>
    releaseLoop
      (updateFirst (fun s => s.seat_id == seatId && s.status == "held") Seat.release seats) rest

/-- Nested loops of `confirmBooking`. -/
def sellLoop (orderId : Int) (seats : List Seat) : List String → List Seat
  | [] => seats
  | seatId :: rest =>
    sellLoop orderId (updateFirst (fun s => s.seat_id == seatId) (Seat.sell orderId) seats) rest

/-! ## BookingService -/

/-- Generation of one row of `initializeSeatsForShowtime`: seats `seatNum .. 10`
of row `row`, appended to `seats` while fewer than `totalSeats` are stored. -/
def initRow (rows totalSeats : Int) (row : Nat) : Nat → Nat → List Seat → List Seat
  | 0, _, seats => seats
  | fuel + 1, seatNum, seats =>
    if seatNum ≤ 10 ∧ (seats.length : Int) < totalSeats then
      let rowLetter := Char.ofNat ((65 + row) % 256)
      let seatId := String.singleton rowLetter ++ padZero 2 (toString seatNum)
      let seatType :=
        if (row : Int) ≥ rows - 2 then "VIP"
        else if seatNum = 5 ∨ seatNum = 6 then "Couple"
        else "Standard"
      initRow rows totalSeats row fuel (seatNum + 1) (seats ++ [Seat.new seatId seatType])
    else seats

/-- Outer loop of `initializeSeatsForShowtime` over rows `row .. rows - 1`. -/
def initRows (rows totalSeats : Int) : Nat → Nat → List Seat → List Seat
  | 0, _, seats => seats
  | fuel + 1, row, seats =>
    if (row : Int) < rows then
      initRows rows totalSeats fuel (row + 1) (initRow rows totalSeats row 10 1 seats)
    else seats

/-- Method `BookingService::initializeSeatsForShowtime`. -/
def initializeSeatsForShowtime (bs : BookingService) (showtimeId totalSeats : Int) :
    BookingService :=
  let seatsPerRow : Int := 10
  let rows := Int.tdiv (totalSeats + seatsPerRow - 1) seatsPerRow
  { bs with
    showtimeSeats := setSeats bs.showtimeSeats showtimeId
      (initRows rows totalSeats rows.toNat 0 []) }

/-- Constructor `BookingService::BookingService()`. -/
def BookingService.init : BookingService :=
  initializeSeatsForShowtime
    (initializeSeatsForShowtime
      { orders := [], tickets := [], showtimeSeats := fun _ => none,
        nextOrderId := 1, nextTicketId := 1 }
      1 100)
    2 150

/-- Method `BookingService::validateSeatSelection`. -/
def validateSeatSelection (bs : BookingService) (showtimeId : Int) (seatIds : List String) :
    Bool :=
  if seatIds.isEmpty then false
  else
    match bs.showtimeSeats showtimeId with
    | none => false
    | some seats => validateLoop seats seatIds

/-- Method `BookingService::getSeatsForShowtime`. -/
def getSeatsForShowtime (bs : BookingService) (showtimeId : Int) : List Seat × BookingService :=
  let bs1 :=
    if (bs.showtimeSeats showtimeId).isNone then initializeSeatsForShowtime bs showtimeId 100
    else bs
  (seatsAt bs1.showtimeSeats showtimeId,
    { bs1 with
      showtimeSeats := setSeats bs1.showtimeSeats showtimeId (seatsAt bs1.showtimeSeats showtimeId) })

/-- Method `BookingService::holdSeats` at clock value `now`. -/
def holdSeats (bs : BookingService) (showtimeId : Int) (seatIds : List String)
    (holdTimeMinutes : Int) (now : Int) : Bool × BookingService :=
  if !validateSeatSelection bs showtimeId seatIds then (false, bs)
  else
    let seats := seatsAt bs.showtimeSeats showtimeId
    let holdExpiry := now + wrapInt32 (holdTimeMinutes * 60)
    (true, { bs with
      showtimeSeats := setSeats bs.showtimeSeats showtimeId (holdLoop holdExpiry seats seatIds) })

/-- Method `BookingService::releaseHeldSeats`. -/
def releaseHeldSeats (bs : BookingService) (showtimeId : Int) (seatIds : List String) :
    Bool × BookingService :=
  match bs.showtimeSeats showtimeId with
  | none => (false, bs)
  | some seats =>
    (true, { bs with
      showtimeSeats := setSeats bs.showtimeSeats showtimeId (releaseLoop seats seatIds) })

/-- Method `BookingService::releaseExpiredHolds` at clock value `now`. -/
def releaseExpiredHolds (bs : BookingService) (now : Int) : BookingService :=
  { bs with
    showtimeSeats := fun k =>
      (bs.showtimeSeats k).map
        (List.map (fun seat => if seat.isHoldExpired now then seat.release else seat)) }

/-- Method `BookingService::areSeatsAvailable`. -/
def areSeatsAvailable (bs : BookingService) (showtimeId : Int) (seatIds : List String) : Bool :=
  validateSeatSelection bs showtimeId seatIds

/-- Method `BookingService::findOrderById`: the first order with the id. -/
def findOrderById : List Order → Int → Option Order
  | [], _ => none
  | o :: rest, orderId => if o.id = orderId then some o else findOrderById rest orderId

/-- A write through the pointer returned by `findOrderById`. -/
def modifyOrder (f : Order → Order) : List Order → Int → List Order
  | [], _ => []
  | o :: rest, orderId =>
    if o.id = orderId then f o :: rest else o :: modifyOrder f rest orderId

/-- Method `BookingService::createOrder`. -/
def createOrder (bs : BookingService) (order : Order) : Bool × BookingService :=
  if !order.isValid then (false, bs)
  else if !validateSeatSelection bs order.showtime_id order.seat_ids then (false, bs)
  else
    (true, { bs with
      orders := bs.orders ++ [{ order with id := bs.nextOrderId }]
      nextOrderId := bs.nextOrderId + 1 })

/-- Method `BookingService::updateOrder`. -/
def updateOrder (bs : BookingService) (orderId : Int) (updatedOrder : Order) :
    Bool × BookingService :=
  match findOrderById bs.orders orderId with
  | none => (false, bs)
  | some _ =>
    if !updatedOrder.isValid then (false, bs)
    else
      (true, { bs with
        orders := modifyOrder (fun _ => { updatedOrder with id := orderId }) bs.orders orderId })

/-- The loop of `issueTickets`; `i` counts the calls of `rand()` made so far. -/
def issueLoop (orderId showtimeId : Int) (now : Int) (rnd : Nat → Nat) :
    List String → Nat → List Ticket → List Ticket
  | [], _, tickets => tickets
  | seatId :: rest, i, tickets =>
    issueLoop orderId showtimeId now rnd rest (i + 1)
      (tickets ++ [Ticket.issue orderId showtimeId seatId now (rnd i)])

/-- Method `BookingService::issueTickets`. -/
def issueTickets (bs : BookingService) (orderId : Int) (now : Int) (rnd : Nat → Nat) :
    Bool × BookingService :=
  match findOrderById bs.orders orderId with
  | none => (false, bs)
  | some order =>
    (true, { bs with
      tickets := issueLoop orderId order.showtime_id now rnd order.seat_ids 0 bs.tickets })

/-- Method `BookingService::confirmBooking`. -/
def confirmBooking (bs : BookingService) (orderId : Int) (now : Int) (rnd : Nat → Nat) :
    Bool × BookingService :=
  match findOrderById bs.orders orderId with
  | none => (false, bs)
  | some order =>
    let seats := seatsAt bs.showtimeSeats order.showtime_id
    let bs1 : BookingService :=
      { bs with
        showtimeSeats :=
          setSeats bs.showtimeSeats order.showtime_id (sellLoop orderId seats order.seat_ids) }
    let bs2 : BookingService :=
      { bs1 with
        orders := modifyOrder (fun o => o.setPaymentStatus "paid" now) bs1.orders orderId }
    (true, (issueTickets bs2 orderId now rnd).2)

/-- Method `BookingService::cancelBooking`. -/
def cancelBooking (bs : BookingService) (orderId : Int) (now : Int) : Bool × BookingService :=
  match findOrderById bs.orders orderId with
  | none => (false, bs)
  | some order =>
    let bs1 := (releaseHeldSeats bs order.showtime_id order.seat_ids).2
    (true, { bs1 with
      orders := modifyOrder (fun o => o.setPaymentStatus "canceled" now) bs1.orders orderId })

/-- Method `BookingService::exchangeTicket`; the hold uses the default five minutes. -/
def exchangeTicket (bs : BookingService) (orderId : Int) (newShowtimeId : Int)
    (newSeatIds : List String) (now : Int) : Bool × BookingService :=
  match findOrderById bs.orders orderId with
  | none => (false, bs)
  | some order =>
    if !validateSeatSelection bs newShowtimeId newSeatIds then (false, bs)
    else
      let bs1 := (releaseHeldSeats bs order.showtime_id order.seat_ids).2
      let held := holdSeats bs1 newShowtimeId newSeatIds 5 now
      if !held.1 then (false, held.2)
      else
        (true, { held.2 with
          orders :=
            modifyOrder (fun o => { o with showtime_id := newShowtimeId, seat_ids := newSeatIds })
              held.2.orders orderId })

/-- Method `BookingService::refundTicket`. -/
def refundTicket (bs : BookingService) (orderId : Int) (now : Int) : Bool × BookingService :=
  match findOrderById bs.orders orderId with
  | none => (false, bs)
  | some order =>
    let bs1 := (releaseHeldSeats bs order.showtime_id order.seat_ids).2
    (true, { bs1 with
      orders := modifyOrder (fun o => o.setPaymentStatus "refunded" now) bs1.orders orderId
      tickets :=
        bs1.tickets.map
          (fun ticket => if ticket.order_id = orderId then { ticket with status := "canceled" }
            else ticket) })

/-- Method `BookingService::getTicketsByOrder`. -/
def getTicketsByOrder (bs : BookingService) (orderId : Int) : List Ticket :=
  bs.tickets.filter (fun ticket => ticket.order_id == orderId)

/-! ## Operation sequences -/

/-- A call of a state-changing public method, with the clock and `rand()` values it reads. -/
inductive Op where
  | createOrder (order : Order)
  | updateOrder (orderId : Int) (updatedOrder : Order)
  | holdSeats (showtimeId : Int) (seatIds : List String) (holdTimeMinutes : Int) (now : Int)
  | releaseHeldSeats (showtimeId : Int) (seatIds : List String)
  | releaseExpiredHolds (now : Int)
  | confirmBooking (orderId : Int) (now : Int) (rnd : Nat → Nat)
  | cancelBooking (orderId : Int) (now : Int)
  | exchangeTicket (orderId : Int) (newShowtimeId : Int) (newSeatIds : List String) (now : Int)
  | refundTicket (orderId : Int) (now : Int)
  | issueTickets (orderId : Int) (now : Int) (rnd : Nat → Nat)
  | getSeatsForShowtime (showtimeId : Int)

/-- State after one call. -/
def Op.apply (bs : BookingService) : Op → BookingService
  | .createOrder order => (BookingCore.createOrder bs order).2
  | .updateOrder orderId updatedOrder => (BookingCore.updateOrder bs orderId updatedOrder).2
  | .holdSeats showtimeId seatIds holdTimeMinutes now =>
    (BookingCore.holdSeats bs showtimeId seatIds holdTimeMinutes now).2
  | .releaseHeldSeats showtimeId seatIds => (BookingCore.releaseHeldSeats bs showtimeId seatIds).2
  | .releaseExpiredHolds now => BookingCore.releaseExpiredHolds bs now
  | .confirmBooking orderId now rnd => (BookingCore.confirmBooking bs orderId now rnd).2
  | .cancelBooking orderId now => (BookingCore.cancelBooking bs orderId now).2
  | .exchangeTicket orderId newShowtimeId newSeatIds now =>
    (BookingCore.exchangeTicket bs orderId newShowtimeId newSeatIds now).2
  | .refundTicket orderId now => (BookingCore.refundTicket bs orderId now).2
  | .issueTickets orderId now rnd => (BookingCore.issueTickets bs orderId now rnd).2
  | .getSeatsForShowtime showtimeId => (BookingCore.getSeatsForShowtime bs showtimeId).2

/-- The booking workflow: create, hold, release, sweep, confirm, cancel, exchange, refund. -/
def Op.isWorkflow : Op → Bool
  | .createOrder _ => true
  | .holdSeats _ _ _ _ => true
  | .releaseHeldSeats _ _ => true
  | .releaseExpiredHolds _ => true
  | .confirmBooking _ _ _ => true
  | .cancelBooking _ _ => true
  | .exchangeTicket _ _ _ _ => true
  | .refundTicket _ _ => true
  | _ => false

/-- State after a sequence of calls, the first call first. -/
def run (bs : BookingService) (ops : List Op) : BookingService := ops.foldl Op.apply bs

/-- The stored orders that are pending or paid, are for the showtime, and list the seat. -/
def seatClaimants (bs : BookingService) (showtimeId : Int) (seatId : String) : List Order :=
  bs.orders.filter (fun o =>
    (o.payment_status == "pending" || o.payment_status == "paid")
      && o.showtime_id == showtimeId && o.seat_ids.contains seatId)

/-- The stored orders whose id is the owner recorded on the seat. -/
def seatOwners (bs : BookingService) (s : Seat) : List Order :=
  bs.orders.filter (fun o => o.id == s.order_id)

/-- Every sold seat of the map records an owner id that is in the list of ids. -/
def SoldOwned (ids : List Int) (m : Int → Option (List Seat)) : Prop :=
  ∀ k seats s, m k = some seats → s ∈ seats → s.status = "sold" → s.order_id ∈ ids

/-- Order-id bookkeeping of the service: stored ids are below the counter and pairwise
distinct, and the owner recorded on a sold seat is a stored id. -/
def OwnerInv (bs : BookingService) : Prop :=
  (∀ x ∈ bs.orders.map Order.id, x < bs.nextOrderId)
  ∧ (bs.orders.map Order.id).Nodup
  ∧ SoldOwned (bs.orders.map Order.id) bs.showtimeSeats

/-! ## Sample inputs -/

/-- Values of `rand()` used in the sample runs. -/
def sampleRand : Nat → Nat := fun i => 7 * i + 3

/-- The fresh service after `holdSeats(1, {A01, A02}, 5)` at clock value 0. -/
def heldA01A02 : BookingService := (holdSeats BookingService.init 1 ["A01", "A02"] 5 0).2

/-- The fresh service after an order for seat A01 of showtime 1 was created. -/
def orderedA01 : BookingService := (createOrder BookingService.init (Order.new 1 1 ["A01"] 0)).2

/-- Order 1 for seat A01 was created, then the seat was held for five minutes at clock 0. -/
def orderedHeldA01 : BookingService := (holdSeats orderedA01 1 ["A01"] 5 0).2

/-- Order 1 was created, its seat held at clock 0, and the booking confirmed at clock 10. -/
def confirmedA01 : BookingService := (confirmBooking orderedHeldA01 1 10 sampleRand).2

/-- Two orders for seat A01 of showtime 1 were created, then the seat was held at clock 0. -/
def twoOrdersHeldA01 : BookingService :=
  (holdSeats (createOrder orderedA01 (Order.new 2 1 ["A01"] 0)).2 1 ["A01"] 5 0).2

/-- What `releaseHeldSeats` does to one seat of an inventory with pairwise distinct ids:
a seat that is listed and has status held is reset, any other seat is kept. -/
def releaseIfListedHeld (seatIds : List String) (s : Seat) : Seat :=
  if s.seat_id ∈ seatIds ∧ s.status = "held" then s.release else s

/-- A property that holds for every seat stored in the seat map. -/
def AllSeats (P : Seat → Prop) (m : Int → Option (List Seat)) : Prop :=
  ∀ k seats s, m k = some seats → s ∈ seats → P s

/-- Holder field of a seat record: a sold seat carries a positive order id, a seat with any
other status carries none. -/
def Seat.HolderRecorded (s : Seat) : Prop :=
  (s.status = "sold" → 1 ≤ s.order_id) ∧ (s.status ≠ "sold" → s.order_id = 0)

/-- Bookkeeping behind the holder field: the id counter and the stored ids are positive and
every seat record satisfies `Seat.HolderRecorded`. -/
def HolderInv (bs : BookingService) : Prop :=
  1 ≤ bs.nextOrderId
  ∧ (∀ x ∈ bs.orders.map Order.id, 1 ≤ x)
  ∧ AllSeats Seat.HolderRecorded bs.showtimeSeats

/-- Every seat id listed by a stored order is the id of a seat of the order's showtime. -/
def OrderSeatsExist (bs : BookingService) : Prop :=
  ∀ o ∈ bs.orders, ∀ x ∈ o.seat_ids,
    x ∈ (seatsAt bs.showtimeSeats o.showtime_id).map Seat.seat_id

/-- Every showtime has the same sequence of seat ids in both seat maps. -/
def SameSeatIds (m m' : Int → Option (List Seat)) : Prop :=
  ∀ k, (seatsAt m' k).map Seat.seat_id = (seatsAt m k).map Seat.seat_id

/-! ## Showtime scheduling (`ShowtimeService.cpp`, `ShowtimeService.h`) -/

/-- Auditorium record (`class Auditorium`). -/
structure Auditorium where
  id : Int
  name : String
  seat_map_json : String
  capacity : Int
  format_support : List String
  room_type : String
deriving DecidableEq

/-- Showtime record (`class Showtime`). -/
structure Showtime where
  id : Int
  movie_version_id : Int
  auditorium_id : Int
  start_time : Int
  end_time : Int
  price_template_id : Int
  seats_total : Int
  seats_available : Int
  status : String
  hold_timeout_seconds : Int
  format : String
  base_price : Rat
deriving DecidableEq

/-- The private members of `class ShowtimeService`. -/
structure ShowtimeService where
  showtimes : List Showtime
  auditoriums : List Auditorium
  nextShowtimeId : Int
  nextAuditoriumId : Int
deriving DecidableEq

/-- Constructor `Auditorium::Auditorium(auditoriumId, auditoriumName, auditoriumCapacity)`. -/
def Auditorium.new (auditoriumId : Int) (auditoriumName : String) (auditoriumCapacity : Int) :
    Auditorium :=
  { id := auditoriumId, name := auditoriumName, seat_map_json := "",
    capacity := auditoriumCapacity, format_support := ["2D", "3D"], room_type := "Standard" }

/-- Constructor `Showtime::Showtime(movieVersionId, auditoriumId, startTime, endTime)`. -/
def Showtime.new (movieVersionId auditoriumId startTime endTime : Int) : Showtime :=
  { id := 0, movie_version_id := movieVersionId, auditorium_id := auditoriumId,
    start_time := startTime, end_time := endTime, price_template_id := 0,
    seats_total := 100, seats_available := 100, status := "scheduled",
    hold_timeout_seconds := 300, format := "2D", base_price := 10 }

/-- Constructor `ShowtimeService::ShowtimeService()` run at clock value `now`. -/
def ShowtimeService.init (now : Int) : ShowtimeService :=
  let tomorrow := now + 24 * 3600
  { showtimes :=
      [ { Showtime.new 1 1 (tomorrow + 3600) (tomorrow + 5400) with
          id := 1, format := "2D", base_price := 12, seats_total := 100, seats_available := 85 },
        { Showtime.new 1 2 (tomorrow + 7200) (tomorrow + 9600) with
          id := 2, format := "IMAX", base_price := 18, seats_total := 150,
          seats_available := 120 } ]
    auditoriums :=
      [ { Auditorium.new 1 "Theater 1" 100 with room_type := "Standard" },
        { Auditorium.new 2 "IMAX Theater" 150 with
          room_type := "IMAX", format_support := ["2D", "3D", "IMAX"] },
        { Auditorium.new 3 "4DX Theater" 80 with
          room_type := "4DX", format_support := ["2D", "3D", "4DX"] } ]
    nextShowtimeId := 3
    nextAuditoriumId := 4 }

/-- Guard of the loop of `checkTimeConflict`: the stored showtime is on the auditorium, is
not the excluded one and is not canceled. -/
def Showtime.countsFor (auditoriumId excludeShowtimeId : Int) (showtime : Showtime) : Bool :=
  decide (showtime.auditorium_id = auditoriumId) && decide (showtime.id ≠ excludeShowtimeId)
    && decide (showtime.status ≠ "canceled")

/-- Overlap test of `checkTimeConflict` against one stored showtime, with the 30-minute
buffer on both sides of the stored window. -/
def Showtime.overlapsBuffered (startTime endTime : Int) (showtime : Showtime) : Bool :=
  let bufferTime : Int := 30 * 60
  let existingStart := showtime.start_time - bufferTime
  let existingEnd := showtime.end_time + bufferTime
  decide ((startTime ≥ existingStart ∧ startTime < existingEnd)
    ∨ (endTime > existingStart ∧ endTime ≤ existingEnd)
    ∨ (startTime ≤ existingStart ∧ endTime ≥ existingEnd))

/-- The loop of `checkTimeConflict`: true at the first stored showtime that counts and
overlaps. -/
def checkTimeConflictLoop (auditoriumId startTime endTime excludeShowtimeId : Int) :
    List Showtime → Bool
  | [] => false
  | showtime :: rest =>
    if showtime.countsFor auditoriumId excludeShowtimeId then
      if showtime.overlapsBuffered startTime endTime then true
      else checkTimeConflictLoop auditoriumId startTime endTime excludeShowtimeId rest
    else checkTimeConflictLoop auditoriumId startTime endTime excludeShowtimeId rest

/-- Method `ShowtimeService::checkTimeConflict`. -/
def checkTimeConflict (svc : ShowtimeService) (auditoriumId startTime endTime : Int)
    (excludeShowtimeId : Int) : Bool :=
  checkTimeConflictLoop auditoriumId startTime endTime excludeShowtimeId svc.showtimes

/-- Method `ShowtimeService::hasConflict`: no showtime is excluded (the default `-1`). -/
def hasConflict (svc : ShowtimeService) (auditoriumId startTime endTime : Int) : Bool :=
  checkTimeConflict svc auditoriumId startTime endTime (-1)

/-- The overlap rule in the words of the design: some showtime on the auditorium, other than
the excluded one and not canceled, has its window, widened by 1800 seconds on both sides,
intersecting the candidate window as half-open intervals. -/
def bufferedOverlapSpec (showtimes : List Showtime) (auditoriumId startTime endTime : Int)
    (excludeShowtimeId : Int) : Bool :=
  showtimes.any (fun existing =>
    decide (existing.auditorium_id = auditoriumId ∧ existing.id ≠ excludeShowtimeId
      ∧ existing.status ≠ "canceled"
      ∧ startTime < existing.end_time + 1800 ∧ existing.start_time - 1800 < endTime))

/-- A service that stores exactly the given showtimes, next to the sample auditoriums. -/
def ShowtimeService.withShowtimes (showtimes : List Showtime) : ShowtimeService :=
  { ShowtimeService.init 0 with showtimes := showtimes }

/-- Showtime 1 on auditorium 1 from 10:00 to 12:00, in seconds of the day. -/
def morningShow : Showtime := { Showtime.new 1 1 36000 43200 with id := 1 }

/-! ## Showtime management (`ShowtimeService.cpp`) -/

/-- Method `Showtime::isValid`. -/
def Showtime.isValid (showtime : Showtime) : Bool :=
  decide (showtime.movie_version_id > 0) && decide (showtime.auditorium_id > 0)
    && decide (showtime.start_time > 0) && decide (showtime.end_time > showtime.start_time)
    && decide (showtime.seats_total > 0) && decide (showtime.base_price > 0)

/-- Method `Showtime::getOccupancyRate`. The difference of the two `int` fields is taken in
32 bits before the cast to `double`; the `double` arithmetic is read as exact. -/
def Showtime.getOccupancyRate (showtime : Showtime) : Rat :=
  if showtime.seats_total = 0 then 0
  else
    ((wrapInt32 (showtime.seats_total - showtime.seats_available) : Int) : Rat)
      / (showtime.seats_total : Rat) * 100

/-- Method `Auditorium::supportsFormat`. -/
def Auditorium.supportsFormat (aud : Auditorium) (format : String) : Bool :=
  aud.format_support.contains format

/-- The auditorium loop of `validateShowtime`: false when the first auditorium with the id
does not support the format, or when no auditorium has the id. -/
def validateAuditoriumLoop (showtime : Showtime) : List Auditorium → Bool
  | [] => false
  | aud :: rest =>
    if aud.id = showtime.auditorium_id then
      if !aud.supportsFormat showtime.format then false else true
    else validateAuditoriumLoop showtime rest

/-- Method `ShowtimeService::validateShowtime` at clock value `now`. -/
def validateShowtime (svc : ShowtimeService) (showtime : Showtime) (now : Int) : Bool :=
  if !showtime.isValid then false
  else if !validateAuditoriumLoop showtime svc.auditoriums then false
  else if showtime.start_time ≤ now then false
  else true

/-- Method `ShowtimeService::findAuditoriumById`: the first auditorium with the id. -/
def findAuditoriumById : List Auditorium → Int → Option Auditorium
  | [], _ => none
  | aud :: rest, auditoriumId =>
    if aud.id = auditoriumId then some aud else findAuditoriumById rest auditoriumId

/-- Method `ShowtimeService::findShowtimeById`: the first showtime with the id. -/
def findShowtimeById : List Showtime → Int → Option Showtime
  | [], _ => none
  | showtime :: rest, showtimeId =>
    if showtime.id = showtimeId then some showtime else findShowtimeById rest showtimeId

/-- A write through the pointer returned by `findShowtimeById`. -/
def modifyShowtime (f : Showtime → Showtime) : List Showtime → Int → List Showtime
  | [], _ => []
  | showtime :: rest, showtimeId =>
    if showtime.id = showtimeId then f showtime :: rest
    else showtime :: modifyShowtime f rest showtimeId

/-- Method `ShowtimeService::createAuditorium`. -/
def createAuditorium (svc : ShowtimeService) (auditorium : Auditorium) :
    Bool × ShowtimeService :=
  (true, { svc with
    auditoriums := svc.auditoriums ++ [{ auditorium with id := svc.nextAuditoriumId }]
    nextAuditoriumId := svc.nextAuditoriumId + 1 })

/-- Method `ShowtimeService::createShowtime` at clock value `now`. -/
def createShowtime (svc : ShowtimeService) (showtime : Showtime) (now : Int) :
    Bool × ShowtimeService :=
  if !validateShowtime svc showtime now then (false, svc)
  else if checkTimeConflict svc showtime.auditorium_id showtime.start_time showtime.end_time (-1)
  then (false, svc)
  else
    let newShowtime : Showtime := { showtime with id := svc.nextShowtimeId }
    let newShowtime : Showtime :=
      match findAuditoriumById svc.auditoriums showtime.auditorium_id with
      | some aud => { newShowtime with seats_total := aud.capacity, seats_available := aud.capacity }
      | none => newShowtime
    (true, { svc with
      showtimes := svc.showtimes ++ [newShowtime]
      nextShowtimeId := svc.nextShowtimeId + 1 })

/-- Method `ShowtimeService::updateShowtime` at clock value `now`. -/
def updateShowtime (svc : ShowtimeService) (showtimeId : Int) (updatedShowtime : Showtime)
    (now : Int) : Bool × ShowtimeService :=
  match findShowtimeById svc.showtimes showtimeId with
  | none => (false, svc)
  | some showtime =>
    if showtime.seats_available < showtime.seats_total then
      (true, { svc with
        showtimes :=
          modifyShowtime
            (fun st => { st with
              base_price := updatedShowtime.base_price, format := updatedShowtime.format })
            svc.showtimes showtimeId })
    else if !validateShowtime svc updatedShowtime now then (false, svc)
    else if checkTimeConflict svc updatedShowtime.auditorium_id updatedShowtime.start_time
        updatedShowtime.end_time showtimeId
    then (false, svc)
    else
      (true, { svc with
        showtimes :=
          modifyShowtime (fun _ => { updatedShowtime with id := showtimeId })
            svc.showtimes showtimeId })

/-- Method `ShowtimeService::cancelShowtime`. -/
def cancelShowtime (svc : ShowtimeService) (showtimeId : Int) : Bool × ShowtimeService :=
  match findShowtimeById svc.showtimes showtimeId with
  | none => (false, svc)
  | some _ =>
    (true, { svc with
      showtimes :=
        modifyShowtime (fun st => { st with status := "canceled" }) svc.showtimes showtimeId })

/-- The loop of `bulkCreateShowtimes`, with the count of successes so far. -/
def bulkCreateLoop (now : Int) : List Showtime → ShowtimeService → Nat → Nat × ShowtimeService
  | [], svc, successCount => (successCount, svc)
  | showtime :: rest, svc, successCount =>
    let created := createShowtime svc showtime now
    bulkCreateLoop now rest created.2 (if created.1 then successCount + 1 else successCount)

/-- Method `ShowtimeService::bulkCreateShowtimes` at clock value `now`. -/
def bulkCreateShowtimes (svc : ShowtimeService) (showtimeList : List Showtime) (now : Int) :
    Bool × ShowtimeService :=
  let done := bulkCreateLoop now showtimeList svc 0
  (decide (done.1 > 0), done.2)

/-- Method `ShowtimeService::getShowtimesByDate`; `dayStart` is the value `mktime` gives for
local midnight of the day of the date. -/
def getShowtimesByDate (svc : ShowtimeService) (dayStart : Int) : List Showtime :=
  let dayEnd := dayStart + 24 * 3600
  svc.showtimes.filter (fun showtime =>
    decide (showtime.start_time ≥ dayStart) && decide (showtime.start_time < dayEnd))

/-- Method `ShowtimeService::copySchedule` at clock value `now`; `dayStart` is local
midnight of the day of `fromDate`. -/
def copySchedule (svc : ShowtimeService) (fromDate toDate : Int) (dayStart : Int) (now : Int) :
    Bool × ShowtimeService :=
  let sourceShowtimes := getShowtimesByDate svc dayStart
  let dateDiff := toDate - fromDate
  let newShowtimes := sourceShowtimes.map (fun showtime =>
    { showtime with
      id := 0
      start_time := showtime.start_time + dateDiff
      end_time := showtime.end_time + dateDiff
      seats_available := showtime.seats_total })
  bulkCreateShowtimes svc newShowtimes now

/-- A call of a state-changing public method of `ShowtimeService`, with the clock value it
reads. -/
inductive ShowOp where
  | createAuditorium (auditorium : Auditorium)
  | createShowtime (showtime : Showtime) (now : Int)
  | updateShowtime (showtimeId : Int) (updatedShowtime : Showtime) (now : Int)
  | cancelShowtime (showtimeId : Int)
  | bulkCreateShowtimes (showtimeList : List Showtime) (now : Int)
  | copySchedule (fromDate toDate : Int) (dayStart : Int) (now : Int)

/-- State after one call. -/
def ShowOp.applyTo (svc : ShowtimeService) : ShowOp → ShowtimeService
  | .createAuditorium auditorium => (BookingCore.createAuditorium svc auditorium).2
  | .createShowtime showtime now => (BookingCore.createShowtime svc showtime now).2
  | .updateShowtime showtimeId updatedShowtime now =>
    (BookingCore.updateShowtime svc showtimeId updatedShowtime now).2
  | .cancelShowtime showtimeId => (BookingCore.cancelShowtime svc showtimeId).2
  | .bulkCreateShowtimes showtimeList now =>
    (BookingCore.bulkCreateShowtimes svc showtimeList now).2
  | .copySchedule fromDate toDate dayStart now =>
    (BookingCore.copySchedule svc fromDate toDate dayStart now).2

/-- State after a sequence of calls, the first call first. -/
def runShow (svc : ShowtimeService) (ops : List ShowOp) : ShowtimeService :=
  ops.foldl ShowOp.applyTo svc

/-- Two stored showtimes do not collide: if they are on the same auditorium and neither is
canceled, their windows do not overlap within the 30-minute buffer. -/
def Showtime.Apart (a b : Showtime) : Prop :=
  a.auditorium_id = b.auditorium_id → a.status ≠ "canceled" → b.status ≠ "canceled" →
    ¬ (a.start_time < b.end_time + 1800 ∧ b.start_time - 1800 < a.end_time)

/-- Bookkeeping of the schedule: windows are not reversed, the counter and the ids are
positive, ids are below the counter and pairwise distinct, and the stored showtimes are pairwise apart. -/
def SchedInv (svc : ShowtimeService) : Prop :=
  (∀ st ∈ svc.showtimes, st.start_time < st.end_time)
  ∧ 1 ≤ svc.nextShowtimeId
  ∧ (∀ st ∈ svc.showtimes, 1 ≤ st.id ∧ st.id < svc.nextShowtimeId)
  ∧ (svc.showtimes.map Showtime.id).Nodup
  ∧ svc.showtimes.Pairwise Showtime.Apart

/-- A candidate for auditorium 1, two hours long, three days after clock value 0. -/
def lateShow : Showtime := Showtime.new 1 1 (3 * 86400) (3 * 86400 + 7200)

/-! ## Fixed seat data, status changes and stored-order validity -/

/-- The part of a seat record that no booking operation writes: id, row, number, type and
price multiplier. -/
def Seat.fixedPart (s : Seat) : String × String × Int × String × Rat :=
  (s.seat_id, s.row, s.number, s.type, s.price_multiplier)

/-- Every inventory of the first seat map is still there in the second, with the same
sequence of fixed parts. -/
def SameFixed (m m' : Int → Option (List Seat)) : Prop :=
  ∀ k seats, m k = some seats →
    ∃ seats', m' k = some seats' ∧ seats'.map Seat.fixedPart = seats.map Seat.fixedPart

/-- The order found under the id has become the same order with the payment status set at
clock value `now`, and every order with another id is unchanged at its position. -/
def StatusSet (before after : List Order) (orderId : Int) (status : String) (now : Int) :
    Prop :=
  findOrderById after orderId
      = (findOrderById before orderId).map (fun o => o.setPaymentStatus status now)
  ∧ ∀ (i : Nat) (o : Order), before[i]? = some o → o.id ≠ orderId → after[i]? = some o

/-- Every stored order lists at least one seat and has a total that is not negative. -/
def OrdersValid (bs : BookingService) : Prop :=
  ∀ o ∈ bs.orders, o.seat_ids ≠ [] ∧ 0 ≤ o.total_amount

/-! ## Conflict listing -/

/-- Overlap test of `getConflictingShowtimes` against one stored showtime: the same three-way
test as in `checkTimeConflict`, on the stored window itself, without buffer. -/
def Showtime.overlapsWindow (startTime endTime : Int) (showtime : Showtime) : Bool :=
  decide ((startTime ≥ showtime.start_time ∧ startTime < showtime.end_time)
    ∨ (endTime > showtime.start_time ∧ endTime ≤ showtime.end_time)
    ∨ (startTime ≤ showtime.start_time ∧ endTime ≥ showtime.end_time))

/-- Method `ShowtimeService::getConflictingShowtimes`: the stored showtimes on the
auditorium that are not canceled and overlap the window, in stored order. -/
def getConflictingShowtimes (svc : ShowtimeService) (auditoriumId startTime endTime : Int) :
    List Showtime :=
  svc.showtimes.filter (fun showtime =>
    decide (showtime.auditorium_id = auditoriumId) && decide (showtime.status ≠ "canceled")
      && showtime.overlapsWindow startTime endTime)

/-! ## Library heap algorithms and the occupancy ranking -/

/-- One sift-down pass of the library heap algorithms on the first `n` elements: the element
at position `i` moves down while one of its children is greater in the sense of `comp`
(`comp a b` reads "a is ordered before b"). `fuel` bounds the number of moves. -/
def siftDown {α : Type} (comp : α → α → Bool) (n : Nat) : Nat → Nat → List α → List α
  | 0, _, l => l
  | fuel + 1, i, l =>
    let left := 2 * i + 1
    if left < n then
      let child :=
        match l[left]?, l[left + 1]? with
        | some a, some b => if left + 1 < n ∧ comp a b = true then left + 1 else left
        | _, _ => left
      match l[i]?, l[child]? with
      | some x, some y =>
        if comp x y then siftDown comp n fuel child ((l.set i y).set child x) else l
      | _, _ => l
    else l

/-- Library algorithm `std::make_heap(first, last, comp)`: builds a max-heap with respect to
`comp`. The standard fixes the result only up to the heap property; this is the textbook
construction, sifting down from the last parent to the root. -/
def makeHeap {α : Type} (comp : α → α → Bool) (l : List α) : List α :=
  (List.range (l.length / 2)).reverse.foldl (fun acc i => siftDown comp l.length l.length i acc) l

/-- Library algorithm `std::sort_heap(first, last, comp)`: turns a max-heap into a range
sorted ascending with respect to `comp`, by moving the top behind the shrinking heap. -/
def sortHeap {α : Type} (comp : α → α → Bool) (l : List α) : List α :=
  (List.range l.length).reverse.foldl
    (fun acc last =>
      match acc[0]?, acc[last]? with
      | some top, some x =>
        if last = 0 then acc else siftDown comp last last 0 ((acc.set 0 x).set last top)
      | _, _ => acc)
    l

/-- Method `ShowtimeService::heapSortShowtimes`, with its comparison lambda. -/
def heapSortShowtimes (showtimeList : List Showtime) (byTime : Bool) : List Showtime :=
  let comp : Showtime → Showtime → Bool := fun a b =>
    if byTime then decide (a.start_time > b.start_time)
    else decide (a.getOccupancyRate < b.getOccupancyRate)
  sortHeap comp (makeHeap comp showtimeList)

/-- Method `ShowtimeService::getTopPerformingShowtimes`; the `int` limit is converted to
`size_t` (64 bits) for the comparison and for `resize`. -/
def getTopPerformingShowtimes (svc : ShowtimeService) (limit : Int) : List Showtime :=
  let sortedShowtimes := heapSortShowtimes svc.showtimes false
  let limitSize : Nat := (limit % 18446744073709551616).toNat
  if sortedShowtimes.length > limitSize then sortedShowtimes.take limitSize else sortedShowtimes

/-! ## Seat prices -/

/-- Model of `haystack.find(needle) != string::npos`: the needle occurs as a contiguous run
of characters; the empty needle occurs in every string. -/
def hasSubstring : List Char → List Char → Bool
  | [], needle => needle.isEmpty
  | c :: rest, needle => needle.isPrefixOf (c :: rest) || hasSubstring rest needle

/-- Method `BookingService::calculateSeatPrice`; it reads the seat id only, no member of
the service. -/
def calculateSeatPrice (seatId : String) (basePrice : Rat) : Rat :=
  if hasSubstring seatId.toList "V".toList then basePrice * (3 / 2)
  else if hasSubstring seatId.toList "C".toList then basePrice * (13 / 10)
  else basePrice

/-- Method `BookingService::calculateOrderTotal`; the showtime id is not read. -/
def calculateOrderTotal (_showtimeId : Int) (seatIds : List String) (basePrice taxRate : Rat)
    (discount : Rat) : Rat :=
  let subtotal := seatIds.foldl (fun acc seatId => acc + calculateSeatPrice seatId basePrice) 0
  let tax := subtotal * taxRate
  subtotal + tax - discount

/-- Bookkeeping of the order ids: the counter is positive, every stored id is at least 1 and
below the counter, and the ids increase strictly along the order vector. -/
def OrderIdsInv (bs : BookingService) : Prop :=
  1 ≤ bs.nextOrderId
  ∧ (∀ x ∈ bs.orders.map Order.id, 1 ≤ x ∧ x < bs.nextOrderId)
  ∧ (bs.orders.map Order.id).Pairwise (fun a b => a < b)

/-! ## Closed form of the generated seat layout -/

/-- The seat that the loops of `initializeSeatsForShowtime` store at position `i` of a room
with `rows` rows: row `i / 10`, seat number `i % 10 + 1`. -/
def generatedSeat (rows : Int) (i : Nat) : Seat :=
  Seat.new
    (String.singleton (Char.ofNat ((65 + i / 10) % 256)) ++ padZero 2 (toString (i % 10 + 1)))
    (if ((i / 10 : Nat) : Int) ≥ rows - 2 then "VIP"
      else if i % 10 + 1 = 5 ∨ i % 10 + 1 = 6 then "Couple"
      else "Standard")

/-- A row letter followed by a two-digit seat number, for position `i` of the layout: the
letter with code `'A' + i / 10`, then the decimal digits of `i % 10 + 1`. -/
def layoutSeatId (i : Nat) : String :=
  String.mk [Char.ofNat (65 + i / 10), Char.ofNat (48 + (i % 10 + 1) / 10),
    Char.ofNat (48 + (i % 10 + 1) % 10)]

/-! ## Payments (`PaymentService.cpp`) -/

/-- The fields that the subclasses `CashPayment`, `WalletPayment` and `CardPayment` add to
the base class; the constructor names the dynamic type of the object. -/
inductive PaymentDetails where
  | cash (cash_received change_given : Rat) (cashier_id : Int)
  | wallet (wallet_type transaction_id qr_code : String) (verification_required : Bool)
      (verification_timeout : Int)
  | card (card_number_masked card_type authorization_code : String) (is_contactless : Bool)
deriving DecidableEq

/-- A payment object: the fields of `class Payment` and those of its dynamic type. -/
structure Payment where
  id : Int
  order_id : Int
  amount : Rat
  status : String
  gateway_ref : String
  created_at : Int
  updated_at : Int
  details : PaymentDetails
deriving DecidableEq

/-- Method `Payment::setStatus` at clock value `now`. -/
def Payment.setStatus (p : Payment) (newStatus : String) (now : Int) : Payment :=
  { p with status := newStatus, updated_at := now }

/-- Method `CashPayment::refundPayment` at clock value `now`. -/
def CashPayment.refundPayment (p : Payment) (now : Int) : Bool × Payment :=
  if p.status ≠ "completed" then (false, p) else (true, p.setStatus "refunded" now)

/-- Method `WalletPayment::refundPayment` at clock value `now`. -/
def WalletPayment.refundPayment (p : Payment) (now : Int) : Bool × Payment :=
  if p.status ≠ "completed" then (false, p) else (true, p.setStatus "refunded" now)

/-- Method `CardPayment::refundPayment` at clock value `now`. -/
def CardPayment.refundPayment (p : Payment) (now : Int) : Bool × Payment :=
  if p.status ≠ "completed" then (false, p) else (true, p.setStatus "refunded" now)

/-- The virtual call `payment->refundPayment()`: the override of the dynamic type runs. -/
def Payment.refundPayment (p : Payment) (now : Int) : Bool × Payment :=
  match p.details with
  | .cash _ _ _ => CashPayment.refundPayment p now
  | .wallet _ _ _ _ _ => WalletPayment.refundPayment p now
  | .card _ _ _ _ => CardPayment.refundPayment p now

/-- The private members of `class PaymentService`. The vector holds pointers; a pointer is
the address of a payment object in the object store passed along with the service. -/
structure PaymentService where
  payments : List Nat
  dailyTotals : String → Option Rat
  nextPaymentId : Int

/-- Method `PaymentService::findPaymentById`: the first stored pointer whose object has the
id. `objects` maps an address to the payment object that lives there. -/
def findPaymentById (objects : Nat → Payment) : List Nat → Int → Option Nat
  | [], _ => none
  | ptr :: rest, paymentId =>
    if (objects ptr).id = paymentId then some ptr else findPaymentById objects rest paymentId

/-- Method `PaymentService::refundPayment` at clock value `now`, with `date` the text that
`getCurrentDate()` returns. The result is the return value, the object store and the
service. `dailyTotals[date] -= amount` starts from 0 when the date has no entry. -/
def PaymentService.refundPayment (objects : Nat → Payment) (svc : PaymentService)
    (paymentId : Int) (now : Int) (date : String) :
    Bool × (Nat → Payment) × PaymentService :=
  match findPaymentById objects svc.payments paymentId with
  | none => (false, objects, svc)
  | some ptr =>
    let refunded := (objects ptr).refundPayment now
    let objects1 := Function.update objects ptr refunded.2
    if refunded.1 then
      (true, objects1,
        { svc with
          dailyTotals := fun d =>
            if d = date then some ((svc.dailyTotals date).getD 0 - refunded.2.amount)
            else svc.dailyTotals d })
    else (false, objects1, svc)

/-- A sequence of `PaymentService::refundPayment` calls, each with its payment id, clock
value and current date; the result is the object store and the service afterwards. -/
def refundCalls (objects : Nat → Payment) (svc : PaymentService) :
    List (Int × Int × String) → (Nat → Payment) × PaymentService
  | [] => (objects, svc)
  | (paymentId, now, date) :: rest =>
    let done := PaymentService.refundPayment objects svc paymentId now date
    refundCalls done.2.1 done.2.2 rest

/-- A completed cash payment of 25 for order 7, stored under payment id 1. -/
def samplePayment : Payment :=
  { id := 1, order_id := 7, amount := 25, status := "completed", gateway_ref := "",
    created_at := 0, updated_at := 0, details := PaymentDetails.cash 30 5 2 }

/-- A service that has recorded the sample payment (at address 0) on 2025-01-01. -/
def samplePaymentService : PaymentService :=
  { payments := [0]
    dailyTotals := fun d => if d = "2025-01-01" then some 25 else none
    nextPaymentId := 2 }

/-! ## Movie search (`MovieService.cpp`) -/

/-- Movie record: the members of `class Entity` and of `class Movie`. -/
structure Movie where
  id : Int
  created_at : Int
  updated_at : Int
  title : String
  original_title : String
  slug : String
  synopsis : String
  duration_min : Int
  rating_age : String
  language : String
  genres : List String
  poster_url : String
  trailer_url : String
  status : String
  release_date : Int
  created_by : String
deriving DecidableEq

/-- Effect of `transform(begin, end, begin, ::tolower)` on the characters of a string. -/
def lowerChars (text : String) : List Char := text.toList.map Char.toLower

/-- Constructor `Movie::Movie(title, duration, rating)` at clock value `now`. -/
def Movie.new (title : String) (duration : Int) (rating : String) (now : Int) : Movie :=
  { id := 0, created_at := now, updated_at := now, title := title, original_title := "",
    slug := String.mk ((lowerChars title).map (fun c => if c = ' ' then '-' else c)),
    synopsis := "", duration_min := duration, rating_age := rating, language := "",
    genres := [], poster_url := "", trailer_url := "", status := "active",
    release_date := now, created_by := "" }

/-- The sample movies that the constructor `MovieService::MovieService()` stores, built at
clock value `now`. -/
def sampleMovies (now : Int) : List Movie :=
  [ { Movie.new "Aquaman" 143 "PG-13" now with
      id := 1, genres := ["Action", "Adventure", "Fantasy"], language := "English" },
    { Movie.new "Spider-Man" 121 "PG-13" now with
      id := 2, genres := ["Action", "Adventure", "Sci-Fi"], language := "English" },
    { Movie.new "The Batman" 176 "PG-13" now with
      id := 3, genres := ["Action", "Crime", "Drama"], language := "English" } ]

/-- The score that the loop body of `searchMovies` gives one title for a query. `none`
stands for the division by a query length of zero. -/
def searchScore (movieTitle query : String) : Option Int :=
  let title := lowerChars movieTitle
  let lowerQuery := lowerChars query
  if title = lowerQuery then some 100
  else if hasSubstring title lowerQuery then some 80
  else
    let hits := lowerQuery.foldl (fun count c => if title.contains c then count + 1 else count) 0
    if lowerQuery.length = 0 then none
    else some (((hits * 60 / lowerQuery.length : Nat) : Int))

/-- The scoring loop of `searchMovies`: movies with a score above 30 are collected with
their score, in list order. -/
def scoreLoop (query : String) : List Movie → List (Movie × Int) → Option (List (Movie × Int))
  | [], scoredResults => some scoredResults
  | movie :: rest, scoredResults =>
    match searchScore movie.title query with
    | none => none
    | some score =>
      scoreLoop query rest
        (if score > 30 then scoredResults ++ [(movie, score)] else scoredResults)

/-- Method `MovieService::searchMovies` on the stored movie list, with the library call
`std::sort(begin, end, comp)` for the comparison `a.second > b.second` passed in as
`sortByScore`. -/
def searchMoviesWith (sortByScore : List (Movie × Int) → List (Movie × Int))
    (movies : List Movie) (query : String) : Option (List Movie) :=
  (scoreLoop query movies []).map (fun scoredResults =>
    ((sortByScore scoredResults).take 10).map Prod.fst)

/-- One implementation of `std::sort` for the comparison `a.second > b.second`: the
insertion sort that keeps elements of equal score in their order. -/
def sortByScoreStable (scoredResults : List (Movie × Int)) : List (Movie × Int) :=
  scoredResults.insertionSort (fun a b => a.2 ≥ b.2)

/-- Method `MovieService::searchMovies` with the stable sort. -/
def searchMovies (movies : List Movie) (query : String) : Option (List Movie) :=
  searchMoviesWith sortByScoreStable movies query

/-! ## Lemmas on the seat loops -/

theorem findSeat_eq_none_iff (seats : List Seat) (seatId : String) :
    findSeat seats seatId = none ↔ seatId ∉ seats.map Seat.seat_id := by
  induction seats with
  | nil => simp [findSeat]
  | cons s rest ih =>
    by_cases h : s.seat_id = seatId
    · simp [findSeat, h]
    · have h' : ¬ seatId = s.seat_id := fun e => h e.symm
      simp [findSeat, h, h', ih]

theorem findSeat_some_mem {seats : List Seat} {seatId : String} {s : Seat}
    (h : findSeat seats seatId = some s) : s ∈ seats ∧ s.seat_id = seatId := by
  induction seats with
  | nil => simp [findSeat] at h
  | cons a rest ih =>
    by_cases ha : a.seat_id = seatId
    · simp [findSeat, ha] at h
      subst h
      exact ⟨List.mem_cons_self _ _, ha⟩
    · simp [findSeat, ha] at h
      exact ⟨List.mem_cons_of_mem _ (ih h).1, (ih h).2⟩

theorem updateFirst_length (p : Seat → Bool) (f : Seat → Seat) (seats : List Seat) :
    (updateFirst p f seats).length = seats.length := by
  induction seats with
  | nil => rfl
  | cons s rest ih =>
    by_cases h : p s = true
    · simp [updateFirst, h]
    · simp [updateFirst, h, ih]

theorem updateFirst_map_seat_id (p : Seat → Bool) (f : Seat → Seat)
    (hf : ∀ s, (f s).seat_id = s.seat_id) (seats : List Seat) :
    (updateFirst p f seats).map Seat.seat_id = seats.map Seat.seat_id := by
  induction seats with
  | nil => rfl
  | cons s rest ih =>
    by_cases h : p s = true
    · simp [updateFirst, h, hf]
    · simp [updateFirst, h, ih]

/-- A position whose seat fails the test keeps its seat. -/
theorem updateFirst_getElem?_of_not (p : Seat → Bool) (f : Seat → Seat) (seats : List Seat)
    (i : Nat) (s : Seat) (hs : seats[i]? = some s) (hp : p s = false) :
    (updateFirst p f seats)[i]? = some s := by
  induction seats generalizing i with
  | nil => simp at hs
  | cons a rest ih =>
    cases i with
    | zero =>
      simp at hs
      subst hs
      simp [updateFirst, hp]
    | succ j =>
      simp at hs
      by_cases h : p a = true
      · simp [updateFirst, h, hs]
      · simp [updateFirst, h, ih j hs]

/-- Every seat of the result is an old seat or the image of an old seat that passed the test. -/
theorem updateFirst_mem (p : Seat → Bool) (f : Seat → Seat) (seats : List Seat) (t : Seat)
    (ht : t ∈ updateFirst p f seats) : t ∈ seats ∨ ∃ s ∈ seats, p s = true ∧ t = f s := by
  induction seats with
  | nil => simp [updateFirst] at ht
  | cons a rest ih =>
    by_cases h : p a = true
    · simp [updateFirst, h] at ht
      rcases ht with rfl | ht
      · exact Or.inr ⟨a, List.mem_cons_self _ _, h, rfl⟩
      · exact Or.inl (List.mem_cons_of_mem _ ht)
    · simp [updateFirst, h] at ht
      rcases ht with rfl | ht
      · exact Or.inl (List.mem_cons_self _ _)
      · rcases ih ht with h1 | ⟨s, hs, hps, rfl⟩
        · exact Or.inl (List.mem_cons_of_mem _ h1)
        · exact Or.inr ⟨s, List.mem_cons_of_mem _ hs, hps, rfl⟩

theorem findSeat_updateFirst_same (f : Seat → Seat) (hf : ∀ s, (f s).seat_id = s.seat_id)
    (seats : List Seat) (seatId : String) :
    findSeat (updateFirst (fun s => s.seat_id == seatId) f seats) seatId
      = (findSeat seats seatId).map f := by
  induction seats with
  | nil => rfl
  | cons a rest ih =>
    by_cases h : a.seat_id = seatId
    · simp [updateFirst, findSeat, h, hf]
    · simp [updateFirst, findSeat, h, ih]

theorem findSeat_updateFirst_other (p : Seat → Bool) (f : Seat → Seat)
    (hf : ∀ s, (f s).seat_id = s.seat_id) (seats : List Seat) (seatId other : String)
    (hp : ∀ s, p s = true → s.seat_id = seatId) (hne : other ≠ seatId) :
    findSeat (updateFirst p f seats) other = findSeat seats other := by
  induction seats with
  | nil => rfl
  | cons a rest ih =>
    by_cases h : p a = true
    · have h1 : a.seat_id ≠ other := fun e => hne (e ▸ (hp a h).symm).symm
      simp [updateFirst, findSeat, h, hf, h1]
    · by_cases h2 : a.seat_id = other
      · simp [updateFirst, findSeat, h, h2]
      · simp [updateFirst, findSeat, h, h2, ih]

theorem holdLoop_length (e : Int) (seats : List Seat) (seatIds : List String) :
    (holdLoop e seats seatIds).length = seats.length := by
  induction seatIds generalizing seats with
  | nil => rfl
  | cons a rest ih => simp [holdLoop, ih, updateFirst_length]

theorem holdLoop_getElem?_of_not_mem (e : Int) (seats : List Seat) (seatIds : List String)
    (i : Nat) (s : Seat) (hs : seats[i]? = some s) (hn : s.seat_id ∉ seatIds) :
    (holdLoop e seats seatIds)[i]? = some s := by
  induction seatIds generalizing seats with
  | nil => simpa [holdLoop] using hs
  | cons a rest ih =>
    simp only [List.mem_cons, not_or] at hn
    simp only [holdLoop]
    apply ih _ _ hn.2
    apply updateFirst_getElem?_of_not _ _ _ _ _ hs
    simp [hn.1]

theorem findSeat_holdLoop (e : Int) (seats : List Seat) (seatIds : List String) (x : String) :
    findSeat (holdLoop e seats seatIds) x
      = if x ∈ seatIds then (findSeat seats x).map (Seat.hold e) else findSeat seats x := by
  induction seatIds generalizing seats with
  | nil => simp [holdLoop]
  | cons a rest ih =>
    simp only [holdLoop, ih]
    by_cases hxa : x = a
    · subst hxa
      rw [findSeat_updateFirst_same (Seat.hold e) (fun _ => rfl)]
      by_cases hx : x ∈ rest
      · cases hfs : findSeat seats x <;> simp [hx, Seat.hold]
      · simp [hx]
    · rw [findSeat_updateFirst_other _ (Seat.hold e) (fun _ => rfl) seats a x (by simp) hxa]
      simp [hxa]

/-- A selection passes the nested loops exactly when every id resolves to an available seat. -/
theorem validateLoop_eq_true_iff (seats : List Seat) (seatIds : List String) :
    validateLoop seats seatIds = true ↔
      ∀ x ∈ seatIds, ∃ s, findSeat seats x = some s ∧ s.isAvailable = true := by
  induction seatIds with
  | nil => simp [validateLoop]
  | cons a rest ih =>
    cases hfs : findSeat seats a with
    | none => simp [validateLoop, hfs]
    | some s =>
      by_cases hav : s.isAvailable = true
      · simp [validateLoop, hfs, hav, ih]
      · simp [validateLoop, hfs, hav]

theorem validateSeatSelection_eq_true_iff (bs : BookingService) (showtimeId : Int)
    (seatIds : List String) :
    validateSeatSelection bs showtimeId seatIds = true ↔
      seatIds ≠ [] ∧ ∃ seats, bs.showtimeSeats showtimeId = some seats ∧
        ∀ x ∈ seatIds, ∃ s, findSeat seats x = some s ∧ s.isAvailable = true := by
  unfold validateSeatSelection
  cases seatIds with
  | nil => simp
  | cons a rest =>
    cases hm : bs.showtimeSeats showtimeId with
    | none => simp
    | some seats => simp [validateLoop_eq_true_iff]

/-- One requested id that is missing, or resolves to a seat that is not available, makes the
validation fail. -/
theorem validateSeatSelection_false_of_not_available (bs : BookingService) (showtimeId : Int)
    (seats : List Seat) (seatIds : List String) (x : String)
    (hshow : bs.showtimeSeats showtimeId = some seats) (hx : x ∈ seatIds)
    (hbad : x ∉ seats.map Seat.seat_id ∨
      ∃ s, findSeat seats x = some s ∧ s.isAvailable = false) :
    validateSeatSelection bs showtimeId seatIds = false := by
  cases hv : validateSeatSelection bs showtimeId seatIds with
  | false => rfl
  | true =>
    exfalso
    obtain ⟨_, seats', hs', hall⟩ := (validateSeatSelection_eq_true_iff _ _ _).1 hv
    rw [hshow] at hs'
    cases hs'
    obtain ⟨s, hfs, hav⟩ := hall x hx
    rcases hbad with hmiss | ⟨t, hft, hst⟩
    · rw [(findSeat_eq_none_iff seats x).2 hmiss] at hfs
      cases hfs
    · rw [hfs] at hft
      cases hft
      rw [hav] at hst
      cases hst

theorem wrapInt32_of_inRange (x : Int) (h1 : -2147483648 ≤ x) (h2 : x ≤ 2147483647) :
    wrapInt32 x = x := by
  unfold wrapInt32
  omega

theorem setSeats_same (m : Int → Option (List Seat)) (k : Int) (v : List Seat) :
    setSeats m k v k = some v := by
  simp [setSeats]

theorem setSeats_other (m : Int → Option (List Seat)) (k j : Int) (v : List Seat) (h : j ≠ k) :
    setSeats m k v j = m j := by
  simp [setSeats, h]

theorem seatsAt_setSeats_same (m : Int → Option (List Seat)) (k : Int) (v : List Seat) :
    seatsAt (setSeats m k v) k = v := by
  simp [seatsAt, setSeats]

theorem holdSeats_eq_of_valid (bs : BookingService) (showtimeId : Int) (seatIds : List String)
    (holdTimeMinutes now : Int) (h : validateSeatSelection bs showtimeId seatIds = true) :
    holdSeats bs showtimeId seatIds holdTimeMinutes now
      = (true, { bs with
          showtimeSeats := setSeats bs.showtimeSeats showtimeId
            (holdLoop (now + wrapInt32 (holdTimeMinutes * 60))
              (seatsAt bs.showtimeSeats showtimeId) seatIds) }) := by
  simp [holdSeats, h]

theorem holdSeats_eq_of_invalid (bs : BookingService) (showtimeId : Int) (seatIds : List String)
    (holdTimeMinutes now : Int) (h : validateSeatSelection bs showtimeId seatIds = false) :
    holdSeats bs showtimeId seatIds holdTimeMinutes now = (false, bs) := by
  simp [holdSeats, h]

theorem holdSeats_fst (bs : BookingService) (showtimeId : Int) (seatIds : List String)
    (holdTimeMinutes now : Int) :
    (holdSeats bs showtimeId seatIds holdTimeMinutes now).1
      = validateSeatSelection bs showtimeId seatIds := by
  cases h : validateSeatSelection bs showtimeId seatIds
  · rw [holdSeats_eq_of_invalid _ _ _ _ _ h]
  · rw [holdSeats_eq_of_valid _ _ _ _ _ h]

theorem findSeat_map (g : Seat → Seat) (hg : ∀ s, (g s).seat_id = s.seat_id)
    (seats : List Seat) (x : String) :
    findSeat (seats.map g) x = (findSeat seats x).map g := by
  induction seats with
  | nil => rfl
  | cons a rest ih =>
    by_cases h : a.seat_id = x
    · simp [findSeat, h, hg]
    · simp [findSeat, h, hg, ih]

theorem sellLoop_length (orderId : Int) (seats : List Seat) (seatIds : List String) :
    (sellLoop orderId seats seatIds).length = seats.length := by
  induction seatIds generalizing seats with
  | nil => rfl
  | cons a rest ih => simp [sellLoop, ih, updateFirst_length]

theorem sellLoop_getElem?_of_not_mem (orderId : Int) (seats : List Seat)
    (seatIds : List String) (i : Nat) (s : Seat) (hs : seats[i]? = some s)
    (hn : s.seat_id ∉ seatIds) : (sellLoop orderId seats seatIds)[i]? = some s := by
  induction seatIds generalizing seats with
  | nil => simpa [sellLoop] using hs
  | cons a rest ih =>
    simp only [List.mem_cons, not_or] at hn
    simp only [sellLoop]
    apply ih _ _ hn.2
    apply updateFirst_getElem?_of_not _ _ _ _ _ hs
    simp [hn.1]

theorem findSeat_sellLoop (orderId : Int) (seats : List Seat) (seatIds : List String)
    (x : String) :
    findSeat (sellLoop orderId seats seatIds) x
      = if x ∈ seatIds then (findSeat seats x).map (Seat.sell orderId) else findSeat seats x := by
  induction seatIds generalizing seats with
  | nil => simp [sellLoop]
  | cons a rest ih =>
    simp only [sellLoop, ih]
    by_cases hxa : x = a
    · subst hxa
      rw [findSeat_updateFirst_same (Seat.sell orderId) (fun _ => rfl)]
      by_cases hx : x ∈ rest
      · cases hfs : findSeat seats x <;> simp [hx, Seat.sell]
      · simp [hx]
    · rw [findSeat_updateFirst_other _ (Seat.sell orderId) (fun _ => rfl) seats a x (by simp) hxa]
      simp [hxa]

/-! ## Lemmas on the order vector and the ticket vector -/

theorem findOrderById_modifyOrder_same (f : Order → Order) (hf : ∀ o, (f o).id = o.id)
    (orders : List Order) (orderId : Int) :
    findOrderById (modifyOrder f orders orderId) orderId
      = (findOrderById orders orderId).map f := by
  induction orders with
  | nil => rfl
  | cons a rest ih =>
    by_cases h : a.id = orderId
    · simp [modifyOrder, findOrderById, h, hf]
    · simp [modifyOrder, findOrderById, h, ih]

theorem modifyOrder_map_id (f : Order → Order) (hf : ∀ o, (f o).id = o.id)
    (orders : List Order) (orderId : Int) :
    (modifyOrder f orders orderId).map Order.id = orders.map Order.id := by
  induction orders with
  | nil => rfl
  | cons a rest ih =>
    by_cases h : a.id = orderId
    · simp [modifyOrder, h, hf]
    · simp [modifyOrder, h, ih]

/-- The loop of `issueTickets` appends one ticket per seat id, in the order of the ids. -/
theorem issueLoop_spec (orderId showtimeId now : Int) (rnd : Nat → Nat)
    (seatIds : List String) (i : Nat) (tickets : List Ticket) :
    ∃ issued, issueLoop orderId showtimeId now rnd seatIds i tickets = tickets ++ issued
      ∧ issued.map (fun t => (t.order_id, t.showtime_id, t.seat_id, t.status))
          = seatIds.map (fun x => (orderId, showtimeId, x, "valid")) := by
  induction seatIds generalizing i tickets with
  | nil => exact ⟨[], by simp [issueLoop], rfl⟩
  | cons a rest ih =>
    obtain ⟨more, h1, h2⟩ :=
      ih (i + 1) (tickets ++ [Ticket.issue orderId showtimeId a now (rnd i)])
    refine ⟨Ticket.issue orderId showtimeId a now (rnd i) :: more, ?_, ?_⟩
    · simp [issueLoop, h1]
    · simp [h2, Ticket.issue]

theorem confirmBooking_eq_of_found (bs : BookingService) (orderId now : Int) (rnd : Nat → Nat)
    (o : Order) (ho : findOrderById bs.orders orderId = some o) :
    confirmBooking bs orderId now rnd
      = (true,
          { bs with
            showtimeSeats := setSeats bs.showtimeSeats o.showtime_id
              (sellLoop orderId (seatsAt bs.showtimeSeats o.showtime_id) o.seat_ids)
            orders := modifyOrder (fun o => o.setPaymentStatus "paid" now) bs.orders orderId
            tickets := issueLoop orderId o.showtime_id now rnd o.seat_ids 0 bs.tickets }) := by
  have h2 : findOrderById (modifyOrder (fun o => o.setPaymentStatus "paid" now) bs.orders orderId)
      orderId = some (o.setPaymentStatus "paid" now) := by
    rw [findOrderById_modifyOrder_same (fun o => o.setPaymentStatus "paid" now) (fun _ => rfl), ho]
    rfl
  unfold confirmBooking
  simp only [ho]
  unfold issueTickets
  simp only [h2]
  rfl

theorem confirmBooking_fst (bs : BookingService) (orderId now : Int) (rnd : Nat → Nat) :
    (confirmBooking bs orderId now rnd).1 = (findOrderById bs.orders orderId).isSome := by
  cases ho : findOrderById bs.orders orderId with
  | none => simp [confirmBooking, ho]
  | some o => rw [confirmBooking_eq_of_found _ _ _ _ o ho]; rfl

theorem releaseHeldSeats_orders_tickets (bs : BookingService) (showtimeId : Int)
    (seatIds : List String) :
    (releaseHeldSeats bs showtimeId seatIds).2.orders = bs.orders
    ∧ (releaseHeldSeats bs showtimeId seatIds).2.tickets = bs.tickets := by
  unfold releaseHeldSeats
  cases bs.showtimeSeats showtimeId <;> exact ⟨rfl, rfl⟩

/-! ## Ownership bookkeeping along operation sequences -/

theorem holdLoop_mem (e : Int) (seats : List Seat) (seatIds : List String) (t : Seat)
    (ht : t ∈ holdLoop e seats seatIds) : t ∈ seats ∨ t.status = "held" := by
  induction seatIds generalizing seats with
  | nil => exact Or.inl ht
  | cons a rest ih =>
    rcases ih _ ht with h | h
    · rcases updateFirst_mem _ _ _ _ h with h1 | ⟨s, _, _, rfl⟩
      · exact Or.inl h1
      · exact Or.inr rfl
    · exact Or.inr h

theorem releaseLoop_mem (seats : List Seat) (seatIds : List String) (t : Seat)
    (ht : t ∈ releaseLoop seats seatIds) : t ∈ seats ∨ t.status = "available" := by
  induction seatIds generalizing seats with
  | nil => exact Or.inl ht
  | cons a rest ih =>
    rcases ih _ ht with h | h
    · rcases updateFirst_mem _ _ _ _ h with h1 | ⟨s, _, _, rfl⟩
      · exact Or.inl h1
      · exact Or.inr rfl
    · exact Or.inr h

theorem sellLoop_mem (orderId : Int) (seats : List Seat) (seatIds : List String) (t : Seat)
    (ht : t ∈ sellLoop orderId seats seatIds) : t ∈ seats ∨ t.order_id = orderId := by
  induction seatIds generalizing seats with
  | nil => exact Or.inl ht
  | cons a rest ih =>
    rcases ih _ ht with h | h
    · rcases updateFirst_mem _ _ _ _ h with h1 | ⟨s, _, _, rfl⟩
      · exact Or.inl h1
      · exact Or.inr rfl
    · exact Or.inr h

theorem findOrderById_some_mem {orders : List Order} {orderId : Int} {o : Order}
    (h : findOrderById orders orderId = some o) : o ∈ orders ∧ o.id = orderId := by
  induction orders with
  | nil => simp [findOrderById] at h
  | cons a rest ih =>
    by_cases ha : a.id = orderId
    · simp [findOrderById, ha] at h
      subst h
      exact ⟨List.mem_cons_self _ _, ha⟩
    · simp [findOrderById, ha] at h
      exact ⟨List.mem_cons_of_mem _ (ih h).1, (ih h).2⟩

theorem SoldOwned.seatsAt {ids : List Int} {m : Int → Option (List Seat)}
    (h : SoldOwned ids m) (k : Int) (s : Seat) (hs : s ∈ seatsAt m k)
    (hsold : s.status = "sold") : s.order_id ∈ ids := by
  unfold BookingCore.seatsAt at hs
  cases hm : m k with
  | none => simp [hm] at hs
  | some seats =>
    simp [hm] at hs
    exact h k seats s hm hs hsold

theorem SoldOwned.setSeats {ids : List Int} {m : Int → Option (List Seat)}
    (h : SoldOwned ids m) (k : Int) (v : List Seat)
    (hv : ∀ t ∈ v, t.status = "sold" → t.order_id ∈ ids) :
    SoldOwned ids (setSeats m k v) := by
  intro j seats s hj hs hsold
  by_cases hjk : j = k
  · subst hjk
    rw [setSeats_same] at hj
    cases hj
    exact hv s hs hsold
  · rw [setSeats_other _ _ _ _ hjk] at hj
    exact h j seats s hj hs hsold

theorem SoldOwned.mono {ids ids' : List Int} {m : Int → Option (List Seat)}
    (h : SoldOwned ids m) (hsub : ∀ x ∈ ids, x ∈ ids') : SoldOwned ids' m :=
  fun k seats s hk hs hsold => hsub _ (h k seats s hk hs hsold)

theorem holdSeats_soldOwned (bs : BookingService) (showtimeId : Int) (seatIds : List String)
    (holdTimeMinutes now : Int) (ids : List Int) (h : SoldOwned ids bs.showtimeSeats) :
    SoldOwned ids (holdSeats bs showtimeId seatIds holdTimeMinutes now).2.showtimeSeats := by
  cases hv : validateSeatSelection bs showtimeId seatIds with
  | false => rw [holdSeats_eq_of_invalid _ _ _ _ _ hv]; exact h
  | true =>
    rw [holdSeats_eq_of_valid _ _ _ _ _ hv]
    apply h.setSeats
    intro t ht hsold
    rcases holdLoop_mem _ _ _ _ ht with h1 | h1
    · exact h.seatsAt _ _ h1 hsold
    · rw [hsold] at h1
      exact absurd h1 (by decide)

theorem holdSeats_orders (bs : BookingService) (showtimeId : Int) (seatIds : List String)
    (holdTimeMinutes now : Int) :
    (holdSeats bs showtimeId seatIds holdTimeMinutes now).2.orders = bs.orders
    ∧ (holdSeats bs showtimeId seatIds holdTimeMinutes now).2.nextOrderId = bs.nextOrderId := by
  cases hv : validateSeatSelection bs showtimeId seatIds with
  | false => rw [holdSeats_eq_of_invalid _ _ _ _ _ hv]; exact ⟨rfl, rfl⟩
  | true => rw [holdSeats_eq_of_valid _ _ _ _ _ hv]; exact ⟨rfl, rfl⟩

theorem releaseHeldSeats_soldOwned (bs : BookingService) (showtimeId : Int)
    (seatIds : List String) (ids : List Int) (h : SoldOwned ids bs.showtimeSeats) :
    SoldOwned ids (releaseHeldSeats bs showtimeId seatIds).2.showtimeSeats := by
  unfold releaseHeldSeats
  cases hm : bs.showtimeSeats showtimeId with
  | none => exact h
  | some seats =>
    apply h.setSeats
    intro t ht hsold
    rcases releaseLoop_mem _ _ _ ht with h1 | h1
    · exact h showtimeId seats t hm h1 hsold
    · rw [hsold] at h1
      exact absurd h1 (by decide)

theorem releaseHeldSeats_nextOrderId (bs : BookingService) (showtimeId : Int)
    (seatIds : List String) :
    (releaseHeldSeats bs showtimeId seatIds).2.nextOrderId = bs.nextOrderId := by
  unfold releaseHeldSeats
  cases bs.showtimeSeats showtimeId <;> rfl

theorem releaseExpiredHolds_soldOwned (bs : BookingService) (now : Int) (ids : List Int)
    (h : SoldOwned ids bs.showtimeSeats) :
    SoldOwned ids (releaseExpiredHolds bs now).showtimeSeats := by
  intro k seats s hk hs hsold
  simp only [releaseExpiredHolds] at hk
  cases hm : bs.showtimeSeats k with
  | none => simp [hm] at hk
  | some old =>
    simp only [hm, Option.map_some', Option.some.injEq] at hk
    subst hk
    obtain ⟨s0, hs0, rfl⟩ := List.mem_map.1 hs
    by_cases he : s0.isHoldExpired now = true
    · simp [he, Seat.release] at hsold
    · simp only [he] at hsold ⊢
      exact h k old s0 hm hs0 hsold

/-- A change that keeps the stored ids and the counter and keeps sold seats owned keeps the
bookkeeping. -/
theorem OwnerInv.of_same_ids {bs bs' : BookingService} (h : OwnerInv bs)
    (hids : bs'.orders.map Order.id = bs.orders.map Order.id)
    (hnext : bs'.nextOrderId = bs.nextOrderId)
    (hseats : SoldOwned (bs.orders.map Order.id) bs'.showtimeSeats) : OwnerInv bs' := by
  unfold OwnerInv
  rw [hids, hnext]
  exact ⟨h.1, h.2.1, hseats⟩

theorem Seat.new_status (seatId seatType : String) :
    (Seat.new seatId seatType).status = "available" := by
  unfold Seat.new Seat.setSeatId
  dsimp only
  split_ifs <;> rfl

theorem initRow_status (rows totalSeats : Int) (row fuel seatNum : Nat) (seats : List Seat)
    (h : ∀ s ∈ seats, s.status = "available") :
    ∀ s ∈ initRow rows totalSeats row fuel seatNum seats, s.status = "available" := by
  induction fuel generalizing seatNum seats with
  | zero => exact h
  | succ n ih =>
    unfold initRow
    by_cases hc : seatNum ≤ 10 ∧ (seats.length : Int) < totalSeats
    · rw [if_pos hc]
      dsimp only
      apply ih
      intro s hs
      rcases List.mem_append.1 hs with h1 | h1
      · exact h s h1
      · simp only [List.mem_singleton] at h1
        rw [h1]
        exact Seat.new_status _ _
    · rw [if_neg hc]
      exact h

theorem initRows_status (rows totalSeats : Int) (fuel row : Nat) (seats : List Seat)
    (h : ∀ s ∈ seats, s.status = "available") :
    ∀ s ∈ initRows rows totalSeats fuel row seats, s.status = "available" := by
  induction fuel generalizing row seats with
  | zero => exact h
  | succ n ih =>
    unfold initRows
    by_cases hc : (row : Int) < rows
    · rw [if_pos hc]
      exact ih _ _ (initRow_status _ _ _ _ _ _ h)
    · rw [if_neg hc]
      exact h

theorem initializeSeatsForShowtime_soldOwned (bs : BookingService) (showtimeId totalSeats : Int)
    (ids : List Int) (h : SoldOwned ids bs.showtimeSeats) :
    SoldOwned ids (initializeSeatsForShowtime bs showtimeId totalSeats).showtimeSeats := by
  unfold initializeSeatsForShowtime
  apply h.setSeats
  intro t ht hsold
  have := initRows_status _ _ _ _ [] (by simp) t ht
  rw [hsold] at this
  exact absurd this (by decide)

theorem OwnerInv.init : OwnerInv BookingService.init := by
  refine ⟨by simp [BookingService.init, initializeSeatsForShowtime],
    by simp [BookingService.init, initializeSeatsForShowtime], ?_⟩
  have h0 : SoldOwned []
      ({ orders := [], tickets := [], showtimeSeats := fun _ => none,
         nextOrderId := 1, nextTicketId := 1 } : BookingService).showtimeSeats := by
    intro k seats s hk
    simp at hk
  exact initializeSeatsForShowtime_soldOwned _ 2 150 _
    (initializeSeatsForShowtime_soldOwned _ 1 100 _ h0)

theorem OwnerInv.createOrder {bs : BookingService} (h : OwnerInv bs) (order : Order) :
    OwnerInv (createOrder bs order).2 := by
  unfold BookingCore.createOrder
  split_ifs with h1 h2
  · exact h
  · exact h
  · obtain ⟨hlt, hnd, hso⟩ := h
    refine ⟨?_, ?_, ?_⟩
    · intro x hx
      simp only [List.map_append, List.map_cons, List.map_nil, List.mem_append,
        List.mem_singleton] at hx
      rcases hx with hx | hx
      · have := hlt x hx
        show x < bs.nextOrderId + 1
        omega
      · show x < bs.nextOrderId + 1
        omega
    · simp only [List.map_append, List.map_cons, List.map_nil]
      rw [List.nodup_append]
      refine ⟨hnd, List.nodup_singleton _, ?_⟩
      intro x hx hx'
      simp only [List.mem_singleton] at hx'
      have := hlt x hx
      omega
    · exact hso.mono (fun x hx => by simp [hx])

theorem OwnerInv.holdSeats {bs : BookingService} (h : OwnerInv bs) (showtimeId : Int)
    (seatIds : List String) (holdTimeMinutes now : Int) :
    OwnerInv (holdSeats bs showtimeId seatIds holdTimeMinutes now).2 := by
  apply h.of_same_ids
  · rw [(holdSeats_orders _ _ _ _ _).1]
  · exact (holdSeats_orders _ _ _ _ _).2
  · exact holdSeats_soldOwned _ _ _ _ _ _ h.2.2

theorem OwnerInv.releaseHeldSeats {bs : BookingService} (h : OwnerInv bs) (showtimeId : Int)
    (seatIds : List String) : OwnerInv (releaseHeldSeats bs showtimeId seatIds).2 := by
  apply h.of_same_ids
  · rw [(releaseHeldSeats_orders_tickets _ _ _).1]
  · exact releaseHeldSeats_nextOrderId _ _ _
  · exact releaseHeldSeats_soldOwned _ _ _ _ h.2.2

theorem OwnerInv.releaseExpiredHolds {bs : BookingService} (h : OwnerInv bs) (now : Int) :
    OwnerInv (releaseExpiredHolds bs now) :=
  h.of_same_ids rfl rfl (releaseExpiredHolds_soldOwned _ _ _ h.2.2)

/-- Rewriting the pointed-to order with a function that keeps the id keeps the bookkeeping. -/
theorem OwnerInv.modifyOrder {bs : BookingService} (h : OwnerInv bs) (f : Order → Order)
    (hf : ∀ o, (f o).id = o.id) (orderId : Int) (tickets : List Ticket) :
    OwnerInv { bs with orders := modifyOrder f bs.orders orderId, tickets := tickets } :=
  h.of_same_ids (modifyOrder_map_id f hf _ _) rfl h.2.2

theorem OwnerInv.confirmBooking {bs : BookingService} (h : OwnerInv bs) (orderId now : Int)
    (rnd : Nat → Nat) : OwnerInv (confirmBooking bs orderId now rnd).2 := by
  cases ho : findOrderById bs.orders orderId with
  | none => simpa [BookingCore.confirmBooking, ho] using h
  | some o =>
    rw [confirmBooking_eq_of_found _ _ _ _ o ho]
    dsimp only
    refine h.of_same_ids
      (modifyOrder_map_id (fun o => o.setPaymentStatus "paid" now) (fun _ => rfl) _ _) rfl ?_
    apply h.2.2.setSeats
    intro t ht hsold
    rcases sellLoop_mem _ _ _ _ ht with h1 | h1
    · exact h.2.2.seatsAt _ _ h1 hsold
    · rw [h1, ← (findOrderById_some_mem ho).2]
      exact List.mem_map_of_mem _ (findOrderById_some_mem ho).1

theorem OwnerInv.cancelBooking {bs : BookingService} (h : OwnerInv bs) (orderId now : Int) :
    OwnerInv (cancelBooking bs orderId now).2 := by
  unfold BookingCore.cancelBooking
  cases ho : findOrderById bs.orders orderId with
  | none => exact h
  | some o =>
    exact (h.releaseHeldSeats o.showtime_id o.seat_ids).modifyOrder
      (fun o => o.setPaymentStatus "canceled" now) (fun _ => rfl) _ _

theorem OwnerInv.refundTicket {bs : BookingService} (h : OwnerInv bs) (orderId now : Int) :
    OwnerInv (refundTicket bs orderId now).2 := by
  unfold BookingCore.refundTicket
  cases ho : findOrderById bs.orders orderId with
  | none => exact h
  | some o =>
    exact (h.releaseHeldSeats o.showtime_id o.seat_ids).modifyOrder
      (fun o => o.setPaymentStatus "refunded" now) (fun _ => rfl) _ _

theorem OwnerInv.exchangeTicket {bs : BookingService} (h : OwnerInv bs) (orderId : Int)
    (newShowtimeId : Int) (newSeatIds : List String) (now : Int) :
    OwnerInv (exchangeTicket bs orderId newShowtimeId newSeatIds now).2 := by
  unfold BookingCore.exchangeTicket
  cases ho : findOrderById bs.orders orderId with
  | none => exact h
  | some o =>
    have h1 := (h.releaseHeldSeats o.showtime_id o.seat_ids).holdSeats newShowtimeId newSeatIds 5 now
    dsimp only
    split_ifs
    · exact h
    · exact h1
    · exact h1.modifyOrder
        (fun o => { o with showtime_id := newShowtimeId, seat_ids := newSeatIds })
        (fun _ => rfl) _ _

theorem OwnerInv.apply {bs : BookingService} (h : OwnerInv bs) (op : Op)
    (hop : op.isWorkflow = true) : OwnerInv (op.apply bs) := by
  cases op with
  | createOrder order => exact h.createOrder order
  | updateOrder orderId updatedOrder => simp [Op.isWorkflow] at hop
  | holdSeats showtimeId seatIds holdTimeMinutes now => exact h.holdSeats _ _ _ _
  | releaseHeldSeats showtimeId seatIds => exact h.releaseHeldSeats _ _
  | releaseExpiredHolds now => exact h.releaseExpiredHolds _
  | confirmBooking orderId now rnd => exact h.confirmBooking _ _ _
  | cancelBooking orderId now => exact h.cancelBooking _ _
  | exchangeTicket orderId newShowtimeId newSeatIds now => exact h.exchangeTicket _ _ _ _
  | refundTicket orderId now => exact h.refundTicket _ _
  | issueTickets orderId now rnd => simp [Op.isWorkflow] at hop
  | getSeatsForShowtime showtimeId => simp [Op.isWorkflow] at hop

theorem OwnerInv.run {bs : BookingService} (h : OwnerInv bs) (ops : List Op)
    (hops : ∀ op ∈ ops, op.isWorkflow = true) : OwnerInv (run bs ops) := by
  induction ops generalizing bs with
  | nil => exact h
  | cons op rest ih =>
    exact ih (h.apply op (hops op (List.mem_cons_self _ _)))
      (fun op' hmem => hops op' (List.mem_cons_of_mem _ hmem))

theorem filter_id_length_of_nodup (orders : List Order) (x : Int)
    (hnd : (orders.map Order.id).Nodup) :
    (orders.filter (fun o => o.id == x)).length ≤ 1
    ∧ (x ∈ orders.map Order.id → (orders.filter (fun o => o.id == x)).length = 1) := by
  induction orders with
  | nil => simp
  | cons a rest ih =>
    simp only [List.map_cons, List.nodup_cons] at hnd
    obtain ⟨hle, heq⟩ := ih hnd.2
    by_cases ha : a.id = x
    · have hnone : rest.filter (fun o => o.id == x) = [] := by
        rw [List.filter_eq_nil_iff]
        intro o ho hox
        simp only [beq_iff_eq] at hox
        exact hnd.1 (by rw [ha, ← hox]; exact List.mem_map_of_mem _ ho)
      simp [List.filter_cons, ha, hnone]
    · have hax : ¬ x = a.id := fun e => ha e.symm
      simp [List.filter_cons, ha, hax, hle]
      intro o ho hox
      exact heq (hox ▸ List.mem_map_of_mem _ ho)

/-! ## Claims -/

set_option maxRecDepth 100000

/-- C2. Hold atomicity: whenever `holdSeats` returns false, the service state after the call
is the state before it, so no seat of any showtime changed status, expiry or holder. -/
theorem holdSeats_false_state_unchanged (bs : BookingService) (showtimeId : Int)
    (seatIds : List String) (holdTimeMinutes now : Int)
    (hfail : (holdSeats bs showtimeId seatIds holdTimeMinutes now).1 = false) :
    (holdSeats bs showtimeId seatIds holdTimeMinutes now).2 = bs := by
  rw [holdSeats_fst] at hfail
  rw [holdSeats_eq_of_invalid _ _ _ _ _ hfail]

/-- C3. For an existing showtime, `holdSeats` returns false as soon as one requested id is
missing from the inventory, or resolves to a seat that is sold, or resolves to a seat that
is held with a hold that has not expired at `now`. -/
theorem holdSeats_rejects_unknown_sold_held (bs : BookingService) (showtimeId : Int)
    (seats : List Seat) (seatIds : List String) (holdTimeMinutes now : Int)
    (hshow : bs.showtimeSeats showtimeId = some seats)
    (hbad : ∃ x ∈ seatIds, x ∉ seats.map Seat.seat_id ∨
      ∃ s, findSeat seats x = some s ∧ (s.isSold = true ∨ s.isHeld now = true)) :
    (holdSeats bs showtimeId seatIds holdTimeMinutes now).1 = false := by
  rw [holdSeats_fst]
  obtain ⟨x, hx, hcase⟩ := hbad
  apply validateSeatSelection_false_of_not_available bs showtimeId seats seatIds x hshow hx
  rcases hcase with hmiss | ⟨t, hft, hst⟩
  · exact Or.inl hmiss
  · refine Or.inr ⟨t, hft, ?_⟩
    rcases hst with hsold | hheld
    · simp only [Seat.isSold, beq_iff_eq] at hsold
      simp [Seat.isAvailable, hsold]
    · simp only [Seat.isHeld, Bool.and_eq_true, beq_iff_eq] at hheld
      simp [Seat.isAvailable, hheld.1]

/-- C4, as stated, fails when `60 * holdTimeMinutes` does not fit the 32-bit `int` in which
the source computes it: `holdSeats(1, {A01}, 35791395)` at clock value 1000 succeeds, and the
expiry stored on A01 is `1000 - 2147483596`, not `1000 + 60 * 35791395`. -/
theorem holdSeats_expiry_wraps_for_large_hold_time :
    (holdSeats BookingService.init 1 ["A01"] 35791395 1000).1 = true
    ∧ (findSeat (seatsAt (holdSeats BookingService.init 1 ["A01"] 35791395 1000).2.showtimeSeats
        1) "A01").map (fun s => (s.status, s.hold_expires_at))
        = some ("held", 1000 - 2147483596)
    ∧ (1000 - 2147483596 : Int) ≠ 1000 + 60 * 35791395 :=
  ⟨by rfl, by rfl, by decide⟩

/-- C4, amended. When `holdSeats` succeeds at clock value `now` (with `holdTimeMinutes * 60` inside
the `int` range), every requested id resolves to a seat with status held and
`hold_expires_at = now + 60 * holdTimeMinutes`; every seat whose id was not requested stays
at its position unchanged, the inventory keeps its size, and every other showtime keeps its
inventory. -/
theorem holdSeats_success_effect (bs : BookingService) (showtimeId : Int)
    (seatIds : List String) (holdTimeMinutes now : Int)
    (hlo : -2147483648 ≤ holdTimeMinutes * 60) (hhi : holdTimeMinutes * 60 ≤ 2147483647)
    (hok : (holdSeats bs showtimeId seatIds holdTimeMinutes now).1 = true) :
    (∀ x ∈ seatIds, ∃ s,
        findSeat (seatsAt (holdSeats bs showtimeId seatIds holdTimeMinutes now).2.showtimeSeats
          showtimeId) x = some s
        ∧ s.status = "held" ∧ s.hold_expires_at = now + 60 * holdTimeMinutes)
    ∧ (∀ (i : Nat) (s : Seat), (seatsAt bs.showtimeSeats showtimeId)[i]? = some s →
        s.seat_id ∉ seatIds →
        (seatsAt (holdSeats bs showtimeId seatIds holdTimeMinutes now).2.showtimeSeats
          showtimeId)[i]? = some s)
    ∧ (seatsAt (holdSeats bs showtimeId seatIds holdTimeMinutes now).2.showtimeSeats
          showtimeId).length = (seatsAt bs.showtimeSeats showtimeId).length
    ∧ (∀ j, j ≠ showtimeId →
        (holdSeats bs showtimeId seatIds holdTimeMinutes now).2.showtimeSeats j
          = bs.showtimeSeats j) := by
  rw [holdSeats_fst] at hok
  obtain ⟨_, seats, hseats, hall⟩ := (validateSeatSelection_eq_true_iff _ _ _).1 hok
  rw [holdSeats_eq_of_valid _ _ _ _ _ hok, wrapInt32_of_inRange _ hlo hhi]
  simp only [seatsAt_setSeats_same]
  refine ⟨?_, ?_, ?_, ?_⟩
  · intro x hx
    obtain ⟨s, hfs, _⟩ := hall x hx
    refine ⟨Seat.hold (now + holdTimeMinutes * 60) s, ?_, rfl, ?_⟩
    · rw [findSeat_holdLoop]
      simp [hx, seatsAt, hseats, hfs]
    · simp [Seat.hold]
      ring
  · intro i s hs hn
    exact holdLoop_getElem?_of_not_mem _ _ _ _ _ hs hn
  · exact holdLoop_length _ _ _
  · intro j hj
    exact setSeats_other _ _ _ _ hj

theorem holdSeats_false_state_unchanged_witness :
    (holdSeats BookingService.init 1 ["A01", "Z99"] 5 0).1 = false
    ∧ (holdSeats BookingService.init 1 ["A01", "Z99"] 5 0).2 = BookingService.init :=
  ⟨by rfl, holdSeats_false_state_unchanged BookingService.init 1 ["A01", "Z99"] 5 0 (by rfl)⟩

theorem holdSeats_rejects_unknown_sold_held_witness :
    heldA01A02.showtimeSeats 1 = some (seatsAt heldA01A02.showtimeSeats 1)
    ∧ findSeat (seatsAt heldA01A02.showtimeSeats 1) "A01"
        = some (Seat.hold 300 (Seat.new "A01" "Standard"))
    ∧ (Seat.hold 300 (Seat.new "A01" "Standard")).isHeld 100 = true
    ∧ (holdSeats heldA01A02 1 ["A03", "A01"] 5 100).1 = false :=
  ⟨by rfl, by rfl, by rfl,
    holdSeats_rejects_unknown_sold_held heldA01A02 1 (seatsAt heldA01A02.showtimeSeats 1)
      ["A03", "A01"] 5 100 (by rfl)
      ⟨"A01", by simp, Or.inr ⟨Seat.hold 300 (Seat.new "A01" "Standard"), by rfl,
        Or.inr (by rfl)⟩⟩⟩

theorem holdSeats_success_effect_witness :
    (holdSeats BookingService.init 1 ["A01", "A02"] 5 0).1 = true
    ∧ (∀ x ∈ ["A01", "A02"], ∃ s,
        findSeat (seatsAt (holdSeats BookingService.init 1 ["A01", "A02"] 5 0).2.showtimeSeats 1) x
          = some s
        ∧ s.status = "held" ∧ s.hold_expires_at = 0 + 60 * 5) :=
  ⟨by rfl,
    (holdSeats_success_effect BookingService.init 1 ["A01", "A02"] 5 0 (by decide) (by decide)
      (by rfl)).1⟩

/-- C5, as stated, fails: seats A01 and A02 of showtime 1 are held at clock value 0 for 300
seconds; a request for A01 at clock value 400, after the hold has expired and with no sweep
in between, is refused. -/
theorem expired_hold_not_reclaimed_by_hold :
    (holdSeats BookingService.init 1 ["A01", "A02"] 5 0).1 = true
    ∧ (findSeat (seatsAt heldA01A02.showtimeSeats 1) "A01").map
        (fun s => (s.status, s.hold_expires_at)) = some ("held", 300)
    ∧ (300 : Int) < 400
    ∧ (holdSeats heldA01A02 1 ["A01"] 5 400).1 = false :=
  ⟨by rfl, by rfl, by decide, by rfl⟩

/-- C5, amended. A request for a seat whose status is held is refused by `holdSeats` even
when its hold expired before `now`; once `releaseExpiredHolds` has run at `now`, the same
request succeeds. -/
theorem expired_hold_reclaimed_only_by_sweep (bs : BookingService) (showtimeId : Int)
    (seats : List Seat) (x : String) (s : Seat) (holdTimeMinutes now : Int)
    (hshow : bs.showtimeSeats showtimeId = some seats)
    (hfs : findSeat seats x = some s) (hheld : s.status = "held")
    (hexp : s.hold_expires_at < now) :
    (holdSeats bs showtimeId [x] holdTimeMinutes now).1 = false
    ∧ (holdSeats (releaseExpiredHolds bs now) showtimeId [x] holdTimeMinutes now).1 = true := by
  constructor
  · rw [holdSeats_fst]
    apply validateSeatSelection_false_of_not_available bs showtimeId seats [x] x hshow (by simp)
    exact Or.inr ⟨s, hfs, by simp [Seat.isAvailable, hheld]⟩
  · rw [holdSeats_fst, validateSeatSelection_eq_true_iff]
    refine ⟨by simp, _, by simp [releaseExpiredHolds, hshow]; rfl, ?_⟩
    intro y hy
    simp only [List.mem_singleton] at hy
    subst hy
    rw [findSeat_map _ (by intro t; by_cases h : t.isHoldExpired now = true <;> simp [h, Seat.release]),
      hfs]
    refine ⟨_, rfl, ?_⟩
    simp [Seat.isHoldExpired, hheld, hexp, Seat.release, Seat.isAvailable]

theorem expired_hold_reclaimed_only_by_sweep_witness :
    heldA01A02.showtimeSeats 1 = some (seatsAt heldA01A02.showtimeSeats 1)
    ∧ findSeat (seatsAt heldA01A02.showtimeSeats 1) "A01"
        = some (Seat.hold 300 (Seat.new "A01" "Standard"))
    ∧ (holdSeats heldA01A02 1 ["A01"] 5 400).1 = false
    ∧ (holdSeats (releaseExpiredHolds heldA01A02 400) 1 ["A01"] 5 400).1 = true :=
  ⟨by rfl, by rfl,
    expired_hold_reclaimed_only_by_sweep heldA01A02 1 (seatsAt heldA01A02.showtimeSeats 1) "A01"
      (Seat.hold 300 (Seat.new "A01" "Standard")) 5 400 (by rfl) (by rfl) (by rfl) (by decide)⟩

/-- C6, as stated, fails: order 1 lists seat A01 of showtime 1, the seat is still available
(it was never held), yet `confirmBooking(1)` succeeds, sells the seat, marks the order paid
and issues a ticket. -/
theorem confirmBooking_accepts_unheld_seat :
    (findSeat (seatsAt orderedA01.showtimeSeats 1) "A01").map Seat.status = some "available"
    ∧ (findOrderById orderedA01.orders 1).map Order.seat_ids = some ["A01"]
    ∧ (confirmBooking orderedA01 1 10 sampleRand).1 = true
    ∧ (findSeat (seatsAt (confirmBooking orderedA01 1 10 sampleRand).2.showtimeSeats 1) "A01").map
        (fun s => (s.status, s.order_id)) = some ("sold", 1)
    ∧ (findOrderById (confirmBooking orderedA01 1 10 sampleRand).2.orders 1).map
        Order.payment_status = some "paid"
    ∧ orderedA01.tickets.length = 0
    ∧ (confirmBooking orderedA01 1 10 sampleRand).2.tickets.length = 1 :=
  ⟨by rfl, by rfl, by rfl, by rfl, by rfl, by rfl, by rfl⟩

/-- C6, amended. `confirmBooking` checks only that the order exists: it returns false exactly
when no stored order has the id, and then the whole state (seats, orders, tickets) is as
before the call. -/
theorem confirmBooking_fails_iff_order_unknown (bs : BookingService) (orderId now : Int)
    (rnd : Nat → Nat) :
    ((confirmBooking bs orderId now rnd).1 = false ↔ findOrderById bs.orders orderId = none)
    ∧ ((confirmBooking bs orderId now rnd).1 = false →
        (confirmBooking bs orderId now rnd).2 = bs) := by
  rw [confirmBooking_fst]
  cases ho : findOrderById bs.orders orderId with
  | none => simp [confirmBooking, ho]
  | some o => simp

theorem confirmBooking_fails_iff_order_unknown_witness :
    (confirmBooking BookingService.init 7 10 sampleRand).1 = false
    ∧ (confirmBooking BookingService.init 7 10 sampleRand).2 = BookingService.init :=
  ⟨by rfl, (confirmBooking_fails_iff_order_unknown BookingService.init 7 10 sampleRand).2 (by rfl)⟩

/-- C7, as stated, fails: order 1 lists seat A01, held at clock value 0 until 300; after the
successful `confirmBooking(1)` the seat is sold under order 1 but its `hold_expires_at` is
still 300, not 0. -/
theorem confirmBooking_keeps_hold_expiry :
    (confirmBooking orderedHeldA01 1 10 sampleRand).1 = true
    ∧ (findSeat (seatsAt (confirmBooking orderedHeldA01 1 10 sampleRand).2.showtimeSeats 1)
        "A01").map (fun s => (s.status, s.order_id, s.hold_expires_at)) = some ("sold", 1, 300)
    ∧ (300 : Int) ≠ 0 :=
  ⟨by rfl, by rfl, by decide⟩

/-- C7, amended. When `confirmBooking(orderId)` succeeds, the order `o` it found has payment
status paid afterwards; every id of `o`'s seat list that resolves to a seat of `o`'s showtime
now resolves to that seat with status sold and `order_id = orderId`, its `hold_expires_at`
and all other fields as before; every seat whose id is not in the list stays at its position
unchanged, and every other showtime keeps its inventory. -/
theorem confirmBooking_success_effect (bs : BookingService) (orderId now : Int)
    (rnd : Nat → Nat) (hok : (confirmBooking bs orderId now rnd).1 = true) :
    ∃ o, findOrderById bs.orders orderId = some o
      ∧ (∀ x ∈ o.seat_ids, ∀ s, findSeat (seatsAt bs.showtimeSeats o.showtime_id) x = some s →
          findSeat (seatsAt (confirmBooking bs orderId now rnd).2.showtimeSeats o.showtime_id) x
            = some { s with status := "sold", order_id := orderId })
      ∧ (∃ o', findOrderById (confirmBooking bs orderId now rnd).2.orders orderId = some o'
          ∧ o'.payment_status = "paid")
      ∧ (∀ (i : Nat) (s : Seat), (seatsAt bs.showtimeSeats o.showtime_id)[i]? = some s →
          s.seat_id ∉ o.seat_ids →
          (seatsAt (confirmBooking bs orderId now rnd).2.showtimeSeats o.showtime_id)[i]?
            = some s)
      ∧ (∀ j, j ≠ o.showtime_id →
          (confirmBooking bs orderId now rnd).2.showtimeSeats j = bs.showtimeSeats j) := by
  rw [confirmBooking_fst] at hok
  cases ho : findOrderById bs.orders orderId with
  | none => simp [ho] at hok
  | some o =>
    refine ⟨o, rfl, ?_⟩
    rw [confirmBooking_eq_of_found _ _ _ _ o ho]
    simp only [seatsAt_setSeats_same]
    refine ⟨?_, ?_, ?_, ?_⟩
    · intro x hx s hs
      rw [findSeat_sellLoop]
      simp [hx, hs, Seat.sell]
    · refine ⟨o.setPaymentStatus "paid" now, ?_, rfl⟩
      rw [findOrderById_modifyOrder_same (fun o => o.setPaymentStatus "paid" now) (fun _ => rfl),
        ho]
      rfl
    · intro i s hs hn
      exact sellLoop_getElem?_of_not_mem _ _ _ _ _ hs hn
    · intro j hj
      exact setSeats_other _ _ _ _ hj

theorem confirmBooking_success_effect_witness :
    (confirmBooking orderedHeldA01 1 10 sampleRand).1 = true
    ∧ ∃ o, findOrderById orderedHeldA01.orders 1 = some o
      ∧ (∀ x ∈ o.seat_ids, ∀ s,
          findSeat (seatsAt orderedHeldA01.showtimeSeats o.showtime_id) x = some s →
          findSeat (seatsAt (confirmBooking orderedHeldA01 1 10 sampleRand).2.showtimeSeats
            o.showtime_id) x = some { s with status := "sold", order_id := 1 }) :=
  ⟨by rfl,
    (confirmBooking_success_effect orderedHeldA01 1 10 sampleRand (by rfl)).imp
      (fun _ h => ⟨h.1, h.2.1⟩)⟩

/-- C8. A successful `confirmBooking(orderId)` appends to the ticket vector one ticket per
entry of the order's seat list, in the same order, each with `order_id = orderId`, the
order's showtime id, that seat id and status valid; the tickets present before are an
unchanged front part of the vector. -/
theorem confirmBooking_appends_tickets (bs : BookingService) (orderId now : Int)
    (rnd : Nat → Nat) (hok : (confirmBooking bs orderId now rnd).1 = true) :
    ∃ o issued, findOrderById bs.orders orderId = some o
      ∧ (confirmBooking bs orderId now rnd).2.tickets = bs.tickets ++ issued
      ∧ issued.map (fun t => (t.order_id, t.showtime_id, t.seat_id, t.status))
          = o.seat_ids.map (fun x => (orderId, o.showtime_id, x, "valid")) := by
  rw [confirmBooking_fst] at hok
  cases ho : findOrderById bs.orders orderId with
  | none => simp [ho] at hok
  | some o =>
    obtain ⟨issued, h1, h2⟩ := issueLoop_spec orderId o.showtime_id now rnd o.seat_ids 0 bs.tickets
    refine ⟨o, issued, rfl, ?_, h2⟩
    rw [confirmBooking_eq_of_found _ _ _ _ o ho]
    exact h1

theorem confirmBooking_appends_tickets_witness :
    (confirmBooking orderedHeldA01 1 10 sampleRand).1 = true
    ∧ ∃ o issued, findOrderById orderedHeldA01.orders 1 = some o
      ∧ (confirmBooking orderedHeldA01 1 10 sampleRand).2.tickets
          = orderedHeldA01.tickets ++ issued
      ∧ issued.map (fun t => (t.order_id, t.showtime_id, t.seat_id, t.status))
          = o.seat_ids.map (fun x => (1, o.showtime_id, x, "valid")) :=
  ⟨by rfl, confirmBooking_appends_tickets orderedHeldA01 1 10 sampleRand (by rfl)⟩

/-- C9 on the code: order 1 lists seat A01; the seat is held, the booking is confirmed (the
seat is sold under order 1), and `refundTicket(1)` succeeds; afterwards the seat is still
sold under order 1 with its old expiry, not available. -/
theorem refundTicket_leaves_seat_sold :
    (findSeat (seatsAt confirmedA01.showtimeSeats 1) "A01").map
        (fun s => (s.status, s.order_id)) = some ("sold", 1)
    ∧ (refundTicket confirmedA01 1 20).1 = true
    ∧ (findOrderById (refundTicket confirmedA01 1 20).2.orders 1).map Order.payment_status
        = some "refunded"
    ∧ (findSeat (seatsAt (refundTicket confirmedA01 1 20).2.showtimeSeats 1) "A01").map
        (fun s => (s.status, s.order_id, s.hold_expires_at)) = some ("sold", 1, 300) :=
  ⟨by rfl, by rfl, by rfl, by rfl⟩

/-- C10. After a successful `refundTicket(orderId)` the ticket vector has the same length,
the same ticket ids and the same order ids at the same positions; every ticket of `orderId`
has status canceled; every ticket of another order is unchanged at its position. -/
theorem refundTicket_cancels_tickets_in_place (bs : BookingService) (orderId now : Int)
    (hok : (refundTicket bs orderId now).1 = true) :
    (refundTicket bs orderId now).2.tickets.length = bs.tickets.length
    ∧ (refundTicket bs orderId now).2.tickets.map Ticket.ticket_id
        = bs.tickets.map Ticket.ticket_id
    ∧ (refundTicket bs orderId now).2.tickets.map Ticket.order_id
        = bs.tickets.map Ticket.order_id
    ∧ (∀ t ∈ (refundTicket bs orderId now).2.tickets, t.order_id = orderId →
        t.status = "canceled")
    ∧ (∀ (i : Nat) (t : Ticket), bs.tickets[i]? = some t → t.order_id ≠ orderId →
        (refundTicket bs orderId now).2.tickets[i]? = some t) := by
  cases ho : findOrderById bs.orders orderId with
  | none => simp [refundTicket, ho] at hok
  | some o =>
    have ht : (refundTicket bs orderId now).2.tickets
        = bs.tickets.map (fun ticket =>
            if ticket.order_id = orderId then { ticket with status := "canceled" } else ticket) := by
      simp [refundTicket, ho, (releaseHeldSeats_orders_tickets bs o.showtime_id o.seat_ids).2]
    rw [ht]
    refine ⟨by simp, ?_, ?_, ?_, ?_⟩
    · rw [List.map_map]
      apply List.map_congr_left
      intro t _
      by_cases h : t.order_id = orderId <;> simp [h]
    · rw [List.map_map]
      apply List.map_congr_left
      intro t _
      by_cases h : t.order_id = orderId <;> simp [h]
    · intro t hmem hto
      obtain ⟨t0, _, rfl⟩ := List.mem_map.1 hmem
      by_cases h : t0.order_id = orderId
      · simp [h]
      · simp [h] at hto
    · intro i t hi hne
      simp [List.getElem?_map, hi, hne]

theorem refundTicket_cancels_tickets_in_place_witness :
    (refundTicket confirmedA01 1 20).1 = true
    ∧ (refundTicket confirmedA01 1 20).2.tickets.length = confirmedA01.tickets.length
    ∧ (refundTicket confirmedA01 1 20).2.tickets.map Ticket.ticket_id
        = confirmedA01.tickets.map Ticket.ticket_id
    ∧ (∀ t ∈ (refundTicket confirmedA01 1 20).2.tickets, t.order_id = 1 →
        t.status = "canceled") :=
  ⟨by rfl,
    (refundTicket_cancels_tickets_in_place confirmedA01 1 20 (by rfl)).1,
    (refundTicket_cancels_tickets_in_place confirmedA01 1 20 (by rfl)).2.1,
    (refundTicket_cancels_tickets_in_place confirmedA01 1 20 (by rfl)).2.2.2.1⟩

/-- C1, as stated, fails: two `createOrder` calls for seat A01 of showtime 1 both succeed, so
two pending orders list the seat; confirming both leaves two paid orders listing it. -/
theorem two_orders_claim_same_seat :
    (findSeat (seatsAt BookingService.init.showtimeSeats 1) "A01").isSome = true
    ∧ (seatClaimants
        (run BookingService.init
          [Op.createOrder (Order.new 1 1 ["A01"] 0), Op.createOrder (Order.new 2 1 ["A01"] 0)])
        1 "A01").map (fun o => (o.id, o.payment_status)) = [(1, "pending"), (2, "pending")]
    ∧ (seatClaimants
        (run BookingService.init
          [Op.createOrder (Order.new 1 1 ["A01"] 0), Op.createOrder (Order.new 2 1 ["A01"] 0),
            Op.confirmBooking 1 10 sampleRand, Op.confirmBooking 2 20 sampleRand])
        1 "A01").map (fun o => (o.id, o.payment_status)) = [(1, "paid"), (2, "paid")] :=
  ⟨by rfl, by rfl, by rfl⟩

/-- C1, amended. In every state reached from the initial service by workflow calls, each
seat of each showtime has at most one stored order whose id is the owner recorded on the
seat, and a sold seat has exactly one. -/
theorem seat_owner_unique (ops : List Op) (hops : ∀ op ∈ ops, op.isWorkflow = true)
    (showtimeId : Int) (seats : List Seat) (s : Seat)
    (hshow : (run BookingService.init ops).showtimeSeats showtimeId = some seats)
    (hs : s ∈ seats) :
    (seatOwners (run BookingService.init ops) s).length ≤ 1
    ∧ (s.status = "sold" → (seatOwners (run BookingService.init ops) s).length = 1) := by
  obtain ⟨_, hnd, hso⟩ := OwnerInv.init.run ops hops
  obtain ⟨hle, heq⟩ := filter_id_length_of_nodup (run BookingService.init ops).orders s.order_id hnd
  exact ⟨hle, fun hsold => heq (hso showtimeId seats s hshow hs hsold)⟩

theorem seat_owner_unique_witness :
    (run BookingService.init
        [Op.createOrder (Order.new 1 1 ["A01"] 0), Op.createOrder (Order.new 2 1 ["A01"] 0),
          Op.confirmBooking 1 10 sampleRand, Op.confirmBooking 2 20 sampleRand]).showtimeSeats 1
      = some (Seat.sell 2 (Seat.new "A01" "Standard")
          :: (seatsAt BookingService.init.showtimeSeats 1).tail)
    ∧ (seatOwners
        (run BookingService.init
          [Op.createOrder (Order.new 1 1 ["A01"] 0), Op.createOrder (Order.new 2 1 ["A01"] 0),
            Op.confirmBooking 1 10 sampleRand, Op.confirmBooking 2 20 sampleRand])
        (Seat.sell 2 (Seat.new "A01" "Standard"))).length = 1 :=
  ⟨by rfl,
    (seat_owner_unique
      [Op.createOrder (Order.new 1 1 ["A01"] 0), Op.createOrder (Order.new 2 1 ["A01"] 0),
        Op.confirmBooking 1 10 sampleRand, Op.confirmBooking 2 20 sampleRand]
      (by decide) 1
      (Seat.sell 2 (Seat.new "A01" "Standard") :: (seatsAt BookingService.init.showtimeSeats 1).tail)
      (Seat.sell 2 (Seat.new "A01" "Standard")) (by rfl) (List.mem_cons_self _ _)).2 (by rfl)⟩

/-! ## Release and sweep, seat by seat -/

theorem releaseIfListedHeld_seat_id (seatIds : List String) (s : Seat) :
    (releaseIfListedHeld seatIds s).seat_id = s.seat_id := by
  unfold releaseIfListedHeld
  split_ifs <;> rfl

theorem releaseIfListedHeld_idem (seatIds : List String) (s : Seat) :
    releaseIfListedHeld seatIds (releaseIfListedHeld seatIds s) = releaseIfListedHeld seatIds s := by
  unfold releaseIfListedHeld
  by_cases h : s.seat_id ∈ seatIds ∧ s.status = "held"
  · simp [h, Seat.release]
  · simp [h]

theorem updateFirst_release_eq_map (x : String) (seats : List Seat)
    (hnd : (seats.map Seat.seat_id).Nodup) :
    updateFirst (fun s => s.seat_id == x && s.status == "held") Seat.release seats
      = seats.map (releaseIfListedHeld [x]) := by
  induction seats with
  | nil => rfl
  | cons a rest ih =>
    simp only [List.map_cons, List.nodup_cons] at hnd
    by_cases hp : a.seat_id = x ∧ a.status = "held"
    · have hrest : rest.map (releaseIfListedHeld [x]) = rest := by
        conv_rhs => rw [← List.map_id rest]
        apply List.map_congr_left
        intro s hs
        have hne : s.seat_id ≠ x := fun e =>
          hnd.1 (by rw [hp.1, ← e]; exact List.mem_map_of_mem _ hs)
        simp [releaseIfListedHeld, hne]
      simp [updateFirst, hp, hrest, releaseIfListedHeld]
    · have hp' : (a.seat_id == x && a.status == "held") = false := by
        simpa using hp
      have ha : releaseIfListedHeld [x] a = a := by
        simp only [releaseIfListedHeld, List.mem_singleton]
        rw [if_neg hp]
      simp [updateFirst, hp', ha, ih hnd.2]

theorem releaseLoop_eq_map (seats : List Seat) (seatIds : List String)
    (hnd : (seats.map Seat.seat_id).Nodup) :
    releaseLoop seats seatIds = seats.map (releaseIfListedHeld seatIds) := by
  induction seatIds generalizing seats with
  | nil =>
    simp only [releaseLoop]
    conv_lhs => rw [← List.map_id seats]
    apply List.map_congr_left
    intro s _
    simp [releaseIfListedHeld]
  | cons x rest ih =>
    have hnd' : ((seats.map (releaseIfListedHeld [x])).map Seat.seat_id).Nodup := by
      rw [List.map_map]
      have : (Seat.seat_id ∘ releaseIfListedHeld [x]) = Seat.seat_id := by
        funext s
        exact releaseIfListedHeld_seat_id _ s
      rw [this]
      exact hnd
    simp only [releaseLoop]
    rw [updateFirst_release_eq_map x seats hnd, ih _ hnd', List.map_map]
    apply List.map_congr_left
    intro s _
    simp only [Function.comp, releaseIfListedHeld, List.mem_singleton, List.mem_cons]
    by_cases h1 : s.seat_id = x
    · by_cases h2 : s.status = "held"
      · simp [h1, h2, Seat.release]
      · simp [h1, h2]
    · simp [h1]

theorem releaseLoop_idem (seats : List Seat) (seatIds : List String)
    (hnd : (seats.map Seat.seat_id).Nodup) :
    releaseLoop (releaseLoop seats seatIds) seatIds = releaseLoop seats seatIds := by
  have hnd' : ((seats.map (releaseIfListedHeld seatIds)).map Seat.seat_id).Nodup := by
    rw [List.map_map]
    have : (Seat.seat_id ∘ releaseIfListedHeld seatIds) = Seat.seat_id := by
      funext s
      exact releaseIfListedHeld_seat_id _ s
    rw [this]
    exact hnd
  rw [releaseLoop_eq_map seats seatIds hnd, releaseLoop_eq_map _ seatIds hnd', List.map_map]
  apply List.map_congr_left
  intro s _
  exact releaseIfListedHeld_idem seatIds s

theorem setSeats_setSeats (m : Int → Option (List Seat)) (k : Int) (v w : List Seat) :
    setSeats (setSeats m k v) k w = setSeats m k w := by
  funext j
  by_cases h : j = k <;> simp [setSeats, h]

theorem seatsAt_of_some {m : Int → Option (List Seat)} {k : Int} {seats : List Seat}
    (h : m k = some seats) : seatsAt m k = seats := by
  simp [seatsAt, h]

/-- C11. Idempotent release: on an inventory whose seat ids are pairwise distinct, a second
`releaseHeldSeats` call with the same arguments returns the same value as the first and
leaves the state the first call produced. -/
theorem releaseHeldSeats_idempotent (bs : BookingService) (showtimeId : Int)
    (seatIds : List String)
    (hnd : ((seatsAt bs.showtimeSeats showtimeId).map Seat.seat_id).Nodup) :
    releaseHeldSeats (releaseHeldSeats bs showtimeId seatIds).2 showtimeId seatIds
      = releaseHeldSeats bs showtimeId seatIds := by
  cases hm : bs.showtimeSeats showtimeId with
  | none => simp [releaseHeldSeats, hm]
  | some seats =>
    rw [seatsAt_of_some hm] at hnd
    simp only [releaseHeldSeats, hm, setSeats_same, setSeats_setSeats,
      releaseLoop_idem seats seatIds hnd]

theorem releaseHeldSeats_eq_of_some (bs : BookingService) (showtimeId : Int)
    (seatIds : List String) (seats : List Seat) (hm : bs.showtimeSeats showtimeId = some seats) :
    releaseHeldSeats bs showtimeId seatIds
      = (true, { bs with
          showtimeSeats := setSeats bs.showtimeSeats showtimeId (releaseLoop seats seatIds) }) := by
  simp [releaseHeldSeats, hm]

theorem releaseHeldSeats_eq_of_none (bs : BookingService) (showtimeId : Int)
    (seatIds : List String) (hm : bs.showtimeSeats showtimeId = none) :
    releaseHeldSeats bs showtimeId seatIds = (false, bs) := by
  simp [releaseHeldSeats, hm]

theorem releaseHeldSeats_other (bs : BookingService) (showtimeId : Int)
    (seatIds : List String) (j : Int) (hj : j ≠ showtimeId) :
    (releaseHeldSeats bs showtimeId seatIds).2.showtimeSeats j = bs.showtimeSeats j := by
  cases hm : bs.showtimeSeats showtimeId with
  | none => rw [releaseHeldSeats_eq_of_none _ _ _ hm]
  | some seats =>
    rw [releaseHeldSeats_eq_of_some _ _ _ seats hm]
    exact setSeats_other _ _ _ _ hj

/-- On an inventory with pairwise distinct ids, `releaseHeldSeats` resets exactly the listed
seats whose status is held. -/
theorem releaseHeldSeats_seatsAt (bs : BookingService) (showtimeId : Int)
    (seatIds : List String)
    (hnd : ((seatsAt bs.showtimeSeats showtimeId).map Seat.seat_id).Nodup) :
    seatsAt (releaseHeldSeats bs showtimeId seatIds).2.showtimeSeats showtimeId
      = (seatsAt bs.showtimeSeats showtimeId).map (releaseIfListedHeld seatIds) := by
  cases hm : bs.showtimeSeats showtimeId with
  | none =>
    rw [releaseHeldSeats_eq_of_none _ _ _ hm]
    simp [seatsAt, hm]
  | some seats =>
    rw [seatsAt_of_some hm] at hnd
    rw [releaseHeldSeats_eq_of_some _ _ _ seats hm, seatsAt_of_some hm]
    simp only [seatsAt_setSeats_same]
    exact releaseLoop_eq_map seats seatIds hnd

theorem releaseExpiredHolds_seatsAt (bs : BookingService) (now : Int) (k : Int) :
    seatsAt (releaseExpiredHolds bs now).showtimeSeats k
      = (seatsAt bs.showtimeSeats k).map
          (fun seat => if seat.isHoldExpired now then seat.release else seat) := by
  simp only [seatsAt, releaseExpiredHolds]
  cases h : bs.showtimeSeats k <;> simp

theorem Seat.isHoldExpired_eq_true_iff (s : Seat) (now : Int) :
    s.isHoldExpired now = true ↔ s.status = "held" ∧ s.hold_expires_at < now := by
  simp [Seat.isHoldExpired]

theorem cancelBooking_eq_of_found (bs : BookingService) (orderId now : Int) (o : Order)
    (ho : findOrderById bs.orders orderId = some o) :
    cancelBooking bs orderId now
      = (true,
          { (releaseHeldSeats bs o.showtime_id o.seat_ids).2 with
            orders := modifyOrder (fun o => o.setPaymentStatus "canceled" now)
              (releaseHeldSeats bs o.showtime_id o.seat_ids).2.orders orderId }) := by
  simp [cancelBooking, ho]

/-- C12, as stated, fails: orders 1 and 2 both list seat A01 of showtime 1; the seat is held
and its record names no holder (`order_id = 0`, so it is not held by order 1), yet
`cancelBooking(1)` sets it back to available while order 2 is still pending on it. -/
theorem cancelBooking_releases_seat_not_held_by_order :
    (findSeat (seatsAt twoOrdersHeldA01.showtimeSeats 1) "A01").map
        (fun s => (s.status, s.order_id)) = some ("held", 0)
    ∧ (0 : Int) ≠ 1
    ∧ (cancelBooking twoOrdersHeldA01 1 10).1 = true
    ∧ (findSeat (seatsAt (cancelBooking twoOrdersHeldA01 1 10).2.showtimeSeats 1) "A01").map
        Seat.status = some "available"
    ∧ (findOrderById (cancelBooking twoOrdersHeldA01 1 10).2.orders 2).map
        (fun o => (o.payment_status, o.seat_ids)) = some ("pending", ["A01"]) :=
  ⟨by rfl, by decide, by rfl, by rfl, by rfl⟩

/-- C12, amended. `cancelBooking(orderId)` on a stored order `o`, over an inventory with
pairwise distinct seat ids, sets back to available (expiry and holder cleared) exactly the
seats of `o`'s showtime that are in `o`'s seat list and have status held, whoever holds
them; every seat that is not listed or whose status is not held (a sold seat in particular)
stays unchanged at its position, and every other showtime keeps its inventory. -/
theorem cancelBooking_releases_listed_held (bs : BookingService) (orderId now : Int)
    (o : Order) (ho : findOrderById bs.orders orderId = some o)
    (hnd : ((seatsAt bs.showtimeSeats o.showtime_id).map Seat.seat_id).Nodup) :
    (cancelBooking bs orderId now).1 = true
    ∧ (∀ (i : Nat) (s : Seat), (seatsAt bs.showtimeSeats o.showtime_id)[i]? = some s →
        s.seat_id ∈ o.seat_ids → s.status = "held" →
        (seatsAt (cancelBooking bs orderId now).2.showtimeSeats o.showtime_id)[i]?
          = some { s with status := "available", hold_expires_at := 0, order_id := 0 })
    ∧ (∀ (i : Nat) (s : Seat), (seatsAt bs.showtimeSeats o.showtime_id)[i]? = some s →
        (s.seat_id ∉ o.seat_ids ∨ s.status ≠ "held") →
        (seatsAt (cancelBooking bs orderId now).2.showtimeSeats o.showtime_id)[i]? = some s)
    ∧ (∀ j, j ≠ o.showtime_id →
        (cancelBooking bs orderId now).2.showtimeSeats j = bs.showtimeSeats j) := by
  rw [cancelBooking_eq_of_found _ _ _ o ho]
  refine ⟨rfl, ?_, ?_, ?_⟩
  · intro i s hi hmem hheld
    show (seatsAt (releaseHeldSeats bs o.showtime_id o.seat_ids).2.showtimeSeats
      o.showtime_id)[i]? = _
    rw [releaseHeldSeats_seatsAt _ _ _ hnd, List.getElem?_map, hi]
    simp [releaseIfListedHeld, hmem, hheld, Seat.release]
  · intro i s hi hcase
    show (seatsAt (releaseHeldSeats bs o.showtime_id o.seat_ids).2.showtimeSeats
      o.showtime_id)[i]? = _
    rw [releaseHeldSeats_seatsAt _ _ _ hnd, List.getElem?_map, hi]
    have : ¬ (s.seat_id ∈ o.seat_ids ∧ s.status = "held") := by
      rcases hcase with h | h
      · exact fun hc => h hc.1
      · exact fun hc => h hc.2
    simp [releaseIfListedHeld, this]
  · intro j hj
    exact releaseHeldSeats_other _ _ _ _ hj

/-- C13, as stated, fails at the boundary: seat A01 is held until 300; the sweep at clock
value 300 leaves it held with expiry 300. -/
theorem sweep_keeps_hold_expiring_now :
    (findSeat (seatsAt heldA01A02.showtimeSeats 1) "A01").map
        (fun s => (s.status, s.hold_expires_at)) = some ("held", 300)
    ∧ (300 : Int) ≤ 300
    ∧ (findSeat (seatsAt (releaseExpiredHolds heldA01A02 300).showtimeSeats 1) "A01").map
        (fun s => (s.status, s.hold_expires_at)) = some ("held", 300) :=
  ⟨by rfl, by decide, by rfl⟩

/-- C13, amended. After `releaseExpiredHolds` at clock value `now`, every seat that had
status held and `hold_expires_at < now` is available with expiry and holder cleared; a held
seat with `now ≤ hold_expires_at`, the case `hold_expires_at = now` included, is unchanged. -/
theorem releaseExpiredHolds_reclaims_strictly_expired (bs : BookingService) (now : Int)
    (k : Int) (seats : List Seat) (i : Nat) (s : Seat)
    (hk : bs.showtimeSeats k = some seats) (hi : seats[i]? = some s)
    (hheld : s.status = "held") :
    (s.hold_expires_at < now →
      (seatsAt (releaseExpiredHolds bs now).showtimeSeats k)[i]?
        = some { s with status := "available", hold_expires_at := 0, order_id := 0 })
    ∧ (now ≤ s.hold_expires_at →
      (seatsAt (releaseExpiredHolds bs now).showtimeSeats k)[i]? = some s) := by
  rw [releaseExpiredHolds_seatsAt, seatsAt_of_some hk, List.getElem?_map, hi]
  constructor
  · intro hlt
    have : s.isHoldExpired now = true := (s.isHoldExpired_eq_true_iff now).2 ⟨hheld, hlt⟩
    simp [this, Seat.release]
  · intro hle
    have : ¬ s.isHoldExpired now = true := fun h =>
      absurd ((s.isHoldExpired_eq_true_iff now).1 h).2 (not_lt.2 hle)
    simp [this]

/-- C14. `releaseExpiredHolds` at clock value `now` leaves every available seat, every sold
seat and every held seat with `now < hold_expires_at` unchanged at its position; a seat it
does change was held with an expiry before `now` and is reset to available; orders and
tickets are unchanged; a second run at the same clock value changes nothing further. -/
theorem releaseExpiredHolds_frame_and_idempotent (bs : BookingService) (now : Int) :
    (∀ (k : Int) (seats : List Seat) (i : Nat) (s : Seat),
        bs.showtimeSeats k = some seats → seats[i]? = some s →
        (s.status = "available" ∨ s.status = "sold"
          ∨ (s.status = "held" ∧ now < s.hold_expires_at)) →
        (seatsAt (releaseExpiredHolds bs now).showtimeSeats k)[i]? = some s)
    ∧ (∀ (k : Int) (seats : List Seat) (i : Nat) (s : Seat),
        bs.showtimeSeats k = some seats → seats[i]? = some s →
        (seatsAt (releaseExpiredHolds bs now).showtimeSeats k)[i]? = some s
        ∨ (s.status = "held" ∧ s.hold_expires_at < now
          ∧ (seatsAt (releaseExpiredHolds bs now).showtimeSeats k)[i]? = some s.release))
    ∧ (releaseExpiredHolds bs now).orders = bs.orders
    ∧ (releaseExpiredHolds bs now).tickets = bs.tickets
    ∧ releaseExpiredHolds (releaseExpiredHolds bs now) now = releaseExpiredHolds bs now := by
  refine ⟨?_, ?_, rfl, rfl, ?_⟩
  · intro k seats i s hk hi hcase
    rw [releaseExpiredHolds_seatsAt, seatsAt_of_some hk, List.getElem?_map, hi]
    have : ¬ s.isHoldExpired now = true := by
      intro h
      obtain ⟨h1, h2⟩ := (s.isHoldExpired_eq_true_iff now).1 h
      rcases hcase with hc | hc | hc
      · rw [h1] at hc
        exact absurd hc (by decide)
      · rw [h1] at hc
        exact absurd hc (by decide)
      · exact absurd h2 (not_lt.2 (le_of_lt hc.2))
    simp [this]
  · intro k seats i s hk hi
    rw [releaseExpiredHolds_seatsAt, seatsAt_of_some hk, List.getElem?_map, hi]
    by_cases h : s.isHoldExpired now = true
    · exact Or.inr ⟨((s.isHoldExpired_eq_true_iff now).1 h).1,
        ((s.isHoldExpired_eq_true_iff now).1 h).2, by simp [h]⟩
    · exact Or.inl (by simp [h])
  · have hmap : ∀ seats : List Seat,
        (seats.map (fun seat => if seat.isHoldExpired now then seat.release else seat)).map
          (fun seat => if seat.isHoldExpired now then seat.release else seat)
        = seats.map (fun seat => if seat.isHoldExpired now then seat.release else seat) := by
      intro seats
      rw [List.map_map]
      apply List.map_congr_left
      intro s _
      by_cases h : s.isHoldExpired now = true
      · have hr : s.release.isHoldExpired now = false := by
          simp [Seat.release, Seat.isHoldExpired]
        simp [h, hr]
      · simp [h]
    unfold releaseExpiredHolds
    simp only
    congr 1
    funext k
    cases bs.showtimeSeats k with
    | none => rfl
    | some seats => simp only [Option.map_some', hmap]

theorem releaseHeldSeats_idempotent_witness :
    ((seatsAt heldA01A02.showtimeSeats 1).map Seat.seat_id).Nodup
    ∧ releaseHeldSeats (releaseHeldSeats heldA01A02 1 ["A01", "B07"]).2 1 ["A01", "B07"]
        = releaseHeldSeats heldA01A02 1 ["A01", "B07"] :=
  have hnd : ((seatsAt heldA01A02.showtimeSeats 1).map Seat.seat_id).Nodup := by decide
  ⟨hnd, releaseHeldSeats_idempotent heldA01A02 1 ["A01", "B07"] hnd⟩

theorem cancelBooking_releases_listed_held_witness :
    findOrderById twoOrdersHeldA01.orders 1 = some { Order.new 1 1 ["A01"] 0 with id := 1 }
    ∧ (cancelBooking twoOrdersHeldA01 1 10).1 = true
    ∧ (seatsAt (cancelBooking twoOrdersHeldA01 1 10).2.showtimeSeats 1)[0]?
        = some { Seat.hold 300 (Seat.new "A01" "Standard") with
            status := "available", hold_expires_at := 0, order_id := 0 } :=
  ⟨by rfl,
    (cancelBooking_releases_listed_held twoOrdersHeldA01 1 10
      { Order.new 1 1 ["A01"] 0 with id := 1 } (by rfl) (by decide)).1,
    (cancelBooking_releases_listed_held twoOrdersHeldA01 1 10
      { Order.new 1 1 ["A01"] 0 with id := 1 } (by rfl) (by decide)).2.1 0
      (Seat.hold 300 (Seat.new "A01" "Standard")) (by rfl) (by decide) (by rfl)⟩

theorem releaseExpiredHolds_reclaims_strictly_expired_witness :
    (seatsAt heldA01A02.showtimeSeats 1)[0]? = some (Seat.hold 300 (Seat.new "A01" "Standard"))
    ∧ (seatsAt (releaseExpiredHolds heldA01A02 301).showtimeSeats 1)[0]?
        = some { Seat.hold 300 (Seat.new "A01" "Standard") with
            status := "available", hold_expires_at := 0, order_id := 0 } :=
  ⟨by rfl,
    (releaseExpiredHolds_reclaims_strictly_expired heldA01A02 301 1
      (seatsAt heldA01A02.showtimeSeats 1) 0 (Seat.hold 300 (Seat.new "A01" "Standard"))
      (by rfl) (by rfl) (by rfl)).1 (by decide)⟩

theorem releaseExpiredHolds_frame_and_idempotent_witness :
    (seatsAt (releaseExpiredHolds heldA01A02 100).showtimeSeats 1)[0]?
        = some (Seat.hold 300 (Seat.new "A01" "Standard"))
    ∧ releaseExpiredHolds (releaseExpiredHolds heldA01A02 400) 400
        = releaseExpiredHolds heldA01A02 400 :=
  ⟨(releaseExpiredHolds_frame_and_idempotent heldA01A02 100).1 1
      (seatsAt heldA01A02.showtimeSeats 1) 0 (Seat.hold 300 (Seat.new "A01" "Standard"))
      (by rfl) (by rfl) (Or.inr (Or.inr ⟨by rfl, by decide⟩)),
    (releaseExpiredHolds_frame_and_idempotent heldA01A02 400).2.2.2.2⟩

/-! ## The holder field along operation sequences -/

theorem AllSeats.setSeats_all {P : Seat → Prop} {m : Int → Option (List Seat)}
    (h : AllSeats P m) (k : Int) (v : List Seat) (hv : ∀ t ∈ v, P t) :
    AllSeats P (setSeats m k v) := by
  intro j seats s hj hs
  by_cases hjk : j = k
  · subst hjk
    rw [setSeats_same] at hj
    cases hj
    exact hv s hs
  · rw [setSeats_other _ _ _ _ hjk] at hj
    exact h j seats s hj hs

theorem AllSeats.seatsAt_all {P : Seat → Prop} {m : Int → Option (List Seat)}
    (h : AllSeats P m) (k : Int) (s : Seat) (hs : s ∈ seatsAt m k) : P s := by
  unfold BookingCore.seatsAt at hs
  cases hm : m k with
  | none => simp [hm] at hs
  | some seats =>
    simp [hm] at hs
    exact h k seats s hm hs

theorem updateFirst_mem_find (f : Seat → Seat) (a : String) (seats : List Seat) (t : Seat)
    (ht : t ∈ updateFirst (fun s => s.seat_id == a) f seats) :
    t ∈ seats ∨ ∃ s, findSeat seats a = some s ∧ t = f s := by
  induction seats with
  | nil => simp [updateFirst] at ht
  | cons b rest ih =>
    by_cases h : b.seat_id = a
    · simp [updateFirst, h] at ht
      rcases ht with rfl | ht
      · exact Or.inr ⟨b, by simp [findSeat, h], rfl⟩
      · exact Or.inl (List.mem_cons_of_mem _ ht)
    · simp [updateFirst, h] at ht
      rcases ht with rfl | ht
      · exact Or.inl (List.mem_cons_self _ _)
      · rcases ih ht with h1 | ⟨s, hs, rfl⟩
        · exact Or.inl (List.mem_cons_of_mem _ h1)
        · exact Or.inr ⟨s, by simp [findSeat, h, hs], rfl⟩

/-- A seat of the inventory after the hold loop is an old seat or the held copy of a seat
with property `Q`, when every listed id resolves to a seat with `Q` and holding keeps `Q`. -/
theorem holdLoop_mem_of_valid (Q : Seat → Prop) (e : Int)
    (hQ : ∀ s, Q s → Q (Seat.hold e s)) (seats : List Seat) (seatIds : List String)
    (hpre : ∀ x ∈ seatIds, ∀ s, findSeat seats x = some s → Q s) (t : Seat)
    (ht : t ∈ holdLoop e seats seatIds) : t ∈ seats ∨ ∃ s, Q s ∧ t = Seat.hold e s := by
  induction seatIds generalizing seats with
  | nil => exact Or.inl ht
  | cons a rest ih =>
    have hpre' : ∀ x ∈ rest, ∀ s,
        findSeat (updateFirst (fun s => s.seat_id == a) (Seat.hold e) seats) x = some s → Q s := by
      intro x hx s hs
      by_cases hxa : x = a
      · subst hxa
        rw [findSeat_updateFirst_same (Seat.hold e) (fun _ => rfl)] at hs
        cases h0 : findSeat seats x with
        | none => simp [h0] at hs
        | some s0 =>
          simp [h0] at hs
          rw [← hs]
          exact hQ s0 (hpre x (List.mem_cons_self _ _) s0 h0)
      · rw [findSeat_updateFirst_other _ (Seat.hold e) (fun _ => rfl) seats a x (by simp) hxa] at hs
        exact hpre x (List.mem_cons_of_mem _ hx) s hs
    rcases ih _ hpre' ht with h | h
    · rcases updateFirst_mem_find _ _ _ _ h with h1 | ⟨s, hs, rfl⟩
      · exact Or.inl h1
      · exact Or.inr ⟨s, hpre a (List.mem_cons_self _ _) s hs, rfl⟩
    · exact Or.inr h

theorem releaseLoop_mem_image (seats : List Seat) (seatIds : List String) (t : Seat)
    (ht : t ∈ releaseLoop seats seatIds) : t ∈ seats ∨ ∃ s, t = Seat.release s := by
  induction seatIds generalizing seats with
  | nil => exact Or.inl ht
  | cons a rest ih =>
    rcases ih _ ht with h | h
    · rcases updateFirst_mem _ _ _ _ h with h1 | ⟨s, _, _, rfl⟩
      · exact Or.inl h1
      · exact Or.inr ⟨s, rfl⟩
    · exact Or.inr h

theorem sellLoop_mem_image (orderId : Int) (seats : List Seat) (seatIds : List String)
    (t : Seat) (ht : t ∈ sellLoop orderId seats seatIds) :
    t ∈ seats ∨ ∃ s, t = Seat.sell orderId s := by
  induction seatIds generalizing seats with
  | nil => exact Or.inl ht
  | cons a rest ih =>
    rcases ih _ ht with h | h
    · rcases updateFirst_mem _ _ _ _ h with h1 | ⟨s, _, _, rfl⟩
      · exact Or.inl h1
      · exact Or.inr ⟨s, rfl⟩
    · exact Or.inr h

theorem Seat.holderRecorded_release (s : Seat) : (Seat.release s).HolderRecorded :=
  ⟨fun h => absurd h (by simp [Seat.release]), fun _ => rfl⟩

theorem Seat.holderRecorded_sell (orderId : Int) (h : 1 ≤ orderId) (s : Seat) :
    (Seat.sell orderId s).HolderRecorded :=
  ⟨fun _ => h, fun hn => absurd rfl hn⟩

theorem Seat.holderRecorded_hold (e : Int) (s : Seat) (h : s.order_id = 0) :
    (Seat.hold e s).HolderRecorded :=
  ⟨fun hs => absurd hs (by simp [Seat.hold]), fun _ => h⟩

theorem Seat.new_order_id (seatId seatType : String) : (Seat.new seatId seatType).order_id = 0 := by
  unfold Seat.new Seat.setSeatId
  dsimp only
  split_ifs <;> rfl

theorem Seat.holderRecorded_new (seatId seatType : String) :
    (Seat.new seatId seatType).HolderRecorded :=
  ⟨fun h => absurd (h.symm.trans (Seat.new_status seatId seatType)) (by decide),
    fun _ => Seat.new_order_id seatId seatType⟩

theorem initRow_all (P : Seat → Prop) (hnew : ∀ seatId seatType, P (Seat.new seatId seatType))
    (rows totalSeats : Int) (row fuel seatNum : Nat) (seats : List Seat)
    (h : ∀ s ∈ seats, P s) : ∀ s ∈ initRow rows totalSeats row fuel seatNum seats, P s := by
  induction fuel generalizing seatNum seats with
  | zero => exact h
  | succ n ih =>
    unfold initRow
    by_cases hc : seatNum ≤ 10 ∧ (seats.length : Int) < totalSeats
    · rw [if_pos hc]
      dsimp only
      apply ih
      intro s hs
      rcases List.mem_append.1 hs with h1 | h1
      · exact h s h1
      · simp only [List.mem_singleton] at h1
        rw [h1]
        exact hnew _ _
    · rw [if_neg hc]
      exact h

theorem initRows_all (P : Seat → Prop) (hnew : ∀ seatId seatType, P (Seat.new seatId seatType))
    (rows totalSeats : Int) (fuel row : Nat) (seats : List Seat)
    (h : ∀ s ∈ seats, P s) : ∀ s ∈ initRows rows totalSeats fuel row seats, P s := by
  induction fuel generalizing row seats with
  | zero => exact h
  | succ n ih =>
    unfold initRows
    by_cases hc : (row : Int) < rows
    · rw [if_pos hc]
      exact ih _ _ (initRow_all P hnew _ _ _ _ _ _ h)
    · rw [if_neg hc]
      exact h

theorem initializeSeatsForShowtime_allSeats (P : Seat → Prop)
    (hnew : ∀ seatId seatType, P (Seat.new seatId seatType)) (bs : BookingService)
    (showtimeId totalSeats : Int) (h : AllSeats P bs.showtimeSeats) :
    AllSeats P (initializeSeatsForShowtime bs showtimeId totalSeats).showtimeSeats := by
  unfold initializeSeatsForShowtime
  apply h.setSeats_all
  exact initRows_all P hnew _ _ _ _ [] (by simp)

theorem holdSeats_holderRecorded (bs : BookingService) (showtimeId : Int)
    (seatIds : List String) (holdTimeMinutes now : Int)
    (h : AllSeats Seat.HolderRecorded bs.showtimeSeats) :
    AllSeats Seat.HolderRecorded
      (holdSeats bs showtimeId seatIds holdTimeMinutes now).2.showtimeSeats := by
  cases hv : validateSeatSelection bs showtimeId seatIds with
  | false => rw [holdSeats_eq_of_invalid _ _ _ _ _ hv]; exact h
  | true =>
    obtain ⟨_, seats, hseats, hall⟩ := (validateSeatSelection_eq_true_iff _ _ _).1 hv
    rw [holdSeats_eq_of_valid _ _ _ _ _ hv, seatsAt_of_some hseats]
    apply h.setSeats_all
    intro t ht
    have hpre : ∀ x ∈ seatIds, ∀ s, findSeat seats x = some s → s.order_id = 0 := by
      intro x hx s hs
      obtain ⟨s', hs', hav⟩ := hall x hx
      rw [hs] at hs'
      cases hs'
      have hst : s.status = "available" := by simpa [Seat.isAvailable] using hav
      exact (h showtimeId seats s hseats (findSeat_some_mem hs).1).2
        (by rw [hst]; decide)
    rcases holdLoop_mem_of_valid (fun s => s.order_id = 0) _ (fun _ hs => hs) seats seatIds
      hpre t ht with h1 | ⟨s, hs, rfl⟩
    · exact h showtimeId seats t hseats h1
    · exact Seat.holderRecorded_hold _ s hs

theorem releaseHeldSeats_allSeats (P : Seat → Prop) (hrel : ∀ s, P (Seat.release s))
    (bs : BookingService) (showtimeId : Int) (seatIds : List String)
    (h : AllSeats P bs.showtimeSeats) :
    AllSeats P (releaseHeldSeats bs showtimeId seatIds).2.showtimeSeats := by
  cases hm : bs.showtimeSeats showtimeId with
  | none => rw [releaseHeldSeats_eq_of_none _ _ _ hm]; exact h
  | some seats =>
    rw [releaseHeldSeats_eq_of_some _ _ _ seats hm]
    apply h.setSeats_all
    intro t ht
    rcases releaseLoop_mem_image _ _ _ ht with h1 | ⟨s, rfl⟩
    · exact h showtimeId seats t hm h1
    · exact hrel s

theorem releaseExpiredHolds_allSeats (P : Seat → Prop) (hrel : ∀ s, P (Seat.release s))
    (bs : BookingService) (now : Int) (h : AllSeats P bs.showtimeSeats) :
    AllSeats P (releaseExpiredHolds bs now).showtimeSeats := by
  intro k seats s hk hs
  simp only [releaseExpiredHolds] at hk
  cases hm : bs.showtimeSeats k with
  | none => simp [hm] at hk
  | some old =>
    simp only [hm, Option.map_some', Option.some.injEq] at hk
    subst hk
    obtain ⟨s0, hs0, rfl⟩ := List.mem_map.1 hs
    by_cases he : s0.isHoldExpired now = true
    · simp only [he, if_true]
      exact hrel s0
    · simp only [he]
      exact h k old s0 hm hs0

theorem modifyOrder_map_id_of_eq (f : Order → Order) (orderId : Int)
    (hf : ∀ o, o.id = orderId → (f o).id = o.id) (orders : List Order) :
    (modifyOrder f orders orderId).map Order.id = orders.map Order.id := by
  induction orders with
  | nil => rfl
  | cons a rest ih =>
    by_cases h : a.id = orderId
    · simp [modifyOrder, h, hf a h]
    · simp [modifyOrder, h, ih]

theorem HolderInv.of_same_holder {bs bs' : BookingService} (h : HolderInv bs)
    (hids : bs'.orders.map Order.id = bs.orders.map Order.id)
    (hnext : bs'.nextOrderId = bs.nextOrderId)
    (hseats : AllSeats Seat.HolderRecorded bs'.showtimeSeats) : HolderInv bs' := by
  unfold HolderInv
  rw [hids, hnext]
  exact ⟨h.1, h.2.1, hseats⟩

theorem HolderInv.init_holder : HolderInv BookingService.init := by
  refine ⟨by simp [BookingService.init, initializeSeatsForShowtime],
    by simp [BookingService.init, initializeSeatsForShowtime], ?_⟩
  have h0 : AllSeats Seat.HolderRecorded
      ({ orders := [], tickets := [], showtimeSeats := fun _ => none,
         nextOrderId := 1, nextTicketId := 1 } : BookingService).showtimeSeats := by
    intro k seats s hk
    simp at hk
  exact initializeSeatsForShowtime_allSeats _ Seat.holderRecorded_new _ 2 150
    (initializeSeatsForShowtime_allSeats _ Seat.holderRecorded_new _ 1 100 h0)

theorem HolderInv.createOrder_holder {bs : BookingService} (h : HolderInv bs) (order : Order) :
    HolderInv (createOrder bs order).2 := by
  unfold BookingCore.createOrder
  split_ifs with h1 h2
  · exact h
  · exact h
  · obtain ⟨hnext, hids, hseats⟩ := h
    refine ⟨?_, ?_, hseats⟩
    · show 1 ≤ bs.nextOrderId + 1
      omega
    · intro x hx
      simp only [List.map_append, List.map_cons, List.map_nil, List.mem_append,
        List.mem_singleton] at hx
      rcases hx with hx | hx
      · exact hids x hx
      · rw [hx]
        exact hnext

theorem HolderInv.updateOrder_holder {bs : BookingService} (h : HolderInv bs) (orderId : Int)
    (updatedOrder : Order) : HolderInv (updateOrder bs orderId updatedOrder).2 := by
  unfold BookingCore.updateOrder
  cases ho : findOrderById bs.orders orderId with
  | none => exact h
  | some o =>
    dsimp only
    split_ifs
    · exact h
    · exact h.of_same_holder
        (modifyOrder_map_id_of_eq (fun _ => { updatedOrder with id := orderId }) orderId
          (fun o ho => ho.symm) bs.orders) rfl h.2.2

theorem HolderInv.holdSeats_holder {bs : BookingService} (h : HolderInv bs) (showtimeId : Int)
    (seatIds : List String) (holdTimeMinutes now : Int) :
    HolderInv (holdSeats bs showtimeId seatIds holdTimeMinutes now).2 := by
  apply h.of_same_holder
  · rw [(holdSeats_orders _ _ _ _ _).1]
  · exact (holdSeats_orders _ _ _ _ _).2
  · exact holdSeats_holderRecorded _ _ _ _ _ h.2.2

theorem HolderInv.releaseHeldSeats_holder {bs : BookingService} (h : HolderInv bs) (showtimeId : Int)
    (seatIds : List String) : HolderInv (releaseHeldSeats bs showtimeId seatIds).2 := by
  apply h.of_same_holder
  · rw [(releaseHeldSeats_orders_tickets _ _ _).1]
  · exact releaseHeldSeats_nextOrderId _ _ _
  · exact releaseHeldSeats_allSeats _ Seat.holderRecorded_release _ _ _ h.2.2

theorem HolderInv.releaseExpiredHolds_holder {bs : BookingService} (h : HolderInv bs) (now : Int) :
    HolderInv (releaseExpiredHolds bs now) :=
  h.of_same_holder rfl rfl (releaseExpiredHolds_allSeats _ Seat.holderRecorded_release _ _ h.2.2)

theorem HolderInv.modifyOrder_holder {bs : BookingService} (h : HolderInv bs) (f : Order → Order)
    (hf : ∀ o, (f o).id = o.id) (orderId : Int) (tickets : List Ticket) :
    HolderInv { bs with orders := modifyOrder f bs.orders orderId, tickets := tickets } :=
  h.of_same_holder (modifyOrder_map_id f hf _ _) rfl h.2.2

theorem HolderInv.confirmBooking_holder {bs : BookingService} (h : HolderInv bs) (orderId now : Int)
    (rnd : Nat → Nat) : HolderInv (confirmBooking bs orderId now rnd).2 := by
  cases ho : findOrderById bs.orders orderId with
  | none => simpa [BookingCore.confirmBooking, ho] using h
  | some o =>
    rw [confirmBooking_eq_of_found _ _ _ _ o ho]
    dsimp only
    refine h.of_same_holder
      (modifyOrder_map_id (fun o => o.setPaymentStatus "paid" now) (fun _ => rfl) _ _) rfl ?_
    apply h.2.2.setSeats_all
    intro t ht
    rcases sellLoop_mem_image _ _ _ _ ht with h1 | ⟨s, rfl⟩
    · exact h.2.2.seatsAt_all _ _ h1
    · apply Seat.holderRecorded_sell
      apply h.2.1
      rw [← (findOrderById_some_mem ho).2]
      exact List.mem_map_of_mem _ (findOrderById_some_mem ho).1

theorem HolderInv.cancelBooking_holder {bs : BookingService} (h : HolderInv bs) (orderId now : Int) :
    HolderInv (cancelBooking bs orderId now).2 := by
  unfold BookingCore.cancelBooking
  cases ho : findOrderById bs.orders orderId with
  | none => exact h
  | some o =>
    exact (h.releaseHeldSeats_holder o.showtime_id o.seat_ids).modifyOrder_holder
      (fun o => o.setPaymentStatus "canceled" now) (fun _ => rfl) _ _

theorem HolderInv.refundTicket_holder {bs : BookingService} (h : HolderInv bs) (orderId now : Int) :
    HolderInv (refundTicket bs orderId now).2 := by
  unfold BookingCore.refundTicket
  cases ho : findOrderById bs.orders orderId with
  | none => exact h
  | some o =>
    exact (h.releaseHeldSeats_holder o.showtime_id o.seat_ids).modifyOrder_holder
      (fun o => o.setPaymentStatus "refunded" now) (fun _ => rfl) _ _

theorem HolderInv.exchangeTicket_holder {bs : BookingService} (h : HolderInv bs) (orderId : Int)
    (newShowtimeId : Int) (newSeatIds : List String) (now : Int) :
    HolderInv (exchangeTicket bs orderId newShowtimeId newSeatIds now).2 := by
  unfold BookingCore.exchangeTicket
  cases ho : findOrderById bs.orders orderId with
  | none => exact h
  | some o =>
    have h1 := (h.releaseHeldSeats_holder o.showtime_id o.seat_ids).holdSeats_holder newShowtimeId newSeatIds 5 now
    dsimp only
    split_ifs
    · exact h
    · exact h1
    · exact h1.modifyOrder_holder
        (fun o => { o with showtime_id := newShowtimeId, seat_ids := newSeatIds })
        (fun _ => rfl) _ _

theorem HolderInv.issueTickets_holder {bs : BookingService} (h : HolderInv bs) (orderId now : Int)
    (rnd : Nat → Nat) : HolderInv (issueTickets bs orderId now rnd).2 := by
  unfold BookingCore.issueTickets
  cases ho : findOrderById bs.orders orderId with
  | none => exact h
  | some o => exact h.of_same_holder rfl rfl h.2.2

theorem HolderInv.getSeatsForShowtime_holder {bs : BookingService} (h : HolderInv bs)
    (showtimeId : Int) : HolderInv (getSeatsForShowtime bs showtimeId).2 := by
  unfold BookingCore.getSeatsForShowtime
  dsimp only
  split_ifs
  · have h1 : AllSeats Seat.HolderRecorded
        (initializeSeatsForShowtime bs showtimeId 100).showtimeSeats :=
      initializeSeatsForShowtime_allSeats _ Seat.holderRecorded_new _ _ _ h.2.2
    exact h.of_same_holder rfl rfl (h1.setSeats_all _ _ (fun t ht => h1.seatsAt_all _ _ ht))
  · exact h.of_same_holder rfl rfl (h.2.2.setSeats_all _ _ (fun t ht => h.2.2.seatsAt_all _ _ ht))

theorem HolderInv.apply_holder {bs : BookingService} (h : HolderInv bs) (op : Op) :
    HolderInv (op.apply bs) := by
  cases op with
  | createOrder order => exact h.createOrder_holder order
  | updateOrder orderId updatedOrder => exact h.updateOrder_holder _ _
  | holdSeats showtimeId seatIds holdTimeMinutes now => exact h.holdSeats_holder _ _ _ _
  | releaseHeldSeats showtimeId seatIds => exact h.releaseHeldSeats_holder _ _
  | releaseExpiredHolds now => exact h.releaseExpiredHolds_holder _
  | confirmBooking orderId now rnd => exact h.confirmBooking_holder _ _ _
  | cancelBooking orderId now => exact h.cancelBooking_holder _ _
  | exchangeTicket orderId newShowtimeId newSeatIds now => exact h.exchangeTicket_holder _ _ _ _
  | refundTicket orderId now => exact h.refundTicket_holder _ _
  | issueTickets orderId now rnd => exact h.issueTickets_holder _ _ _
  | getSeatsForShowtime showtimeId => exact h.getSeatsForShowtime_holder _

theorem HolderInv.run_holder {bs : BookingService} (h : HolderInv bs) (ops : List Op) :
    HolderInv (run bs ops) := by
  induction ops generalizing bs with
  | nil => exact h
  | cons op rest ih => exact ih (h.apply_holder op)

/-- C15, as stated, fails: after `holdSeats` the held seat A01 has `order_id = 0`; a later
call at clock value 400 finds it still held with expiry 300; and after create, hold and
confirm the sold seat A01 still has `hold_expires_at = 300`. -/
theorem held_seat_without_holder_sold_seat_with_expiry :
    (findSeat (seatsAt (run BookingService.init
        [Op.holdSeats 1 ["A01", "A02"] 5 0]).showtimeSeats 1) "A01").map
      (fun s => (s.status, s.order_id)) = some ("held", 0)
    ∧ (findSeat (seatsAt (run BookingService.init
        [Op.holdSeats 1 ["A01", "A02"] 5 0, Op.holdSeats 1 ["B01"] 5 400]).showtimeSeats 1)
        "A01").map (fun s => (s.status, s.hold_expires_at)) = some ("held", 300)
    ∧ (findSeat (seatsAt (run BookingService.init
        [Op.createOrder (Order.new 1 1 ["A01"] 0), Op.holdSeats 1 ["A01"] 5 0,
          Op.confirmBooking 1 10 sampleRand]).showtimeSeats 1) "A01").map
      (fun s => (s.status, s.order_id, s.hold_expires_at)) = some ("sold", 1, 300) :=
  ⟨by rfl, by rfl, by rfl⟩

/-- C15, amended. In every state reached from the initial service by public calls, a seat
with status sold has a recorded holder (`order_id ≠ 0`) and a seat with status held has
none (`order_id = 0`). -/
theorem seat_holder_field_invariant (ops : List Op) (showtimeId : Int) (seats : List Seat)
    (s : Seat) (hshow : (run BookingService.init ops).showtimeSeats showtimeId = some seats)
    (hs : s ∈ seats) :
    (s.status = "sold" → s.order_id ≠ 0) ∧ (s.status = "held" → s.order_id = 0) := by
  obtain ⟨hsold, hother⟩ := (HolderInv.init_holder.run_holder ops).2.2 showtimeId seats s hshow hs
  constructor
  · intro h
    have := hsold h
    omega
  · intro h
    exact hother (by rw [h]; decide)

theorem seat_holder_field_invariant_witness :
    (run BookingService.init
        [Op.createOrder (Order.new 1 1 ["A01"] 0), Op.holdSeats 1 ["A01", "A02"] 5 0,
          Op.confirmBooking 1 10 sampleRand]).showtimeSeats 1
      = some (Seat.sell 1 (Seat.hold 300 (Seat.new "A01" "Standard"))
          :: Seat.hold 300 (Seat.new "A02" "Standard")
          :: ((seatsAt BookingService.init.showtimeSeats 1).tail).tail)
    ∧ (Seat.sell 1 (Seat.hold 300 (Seat.new "A01" "Standard"))).order_id ≠ 0
    ∧ (Seat.hold 300 (Seat.new "A02" "Standard")).order_id = 0 :=
  ⟨by rfl,
    (seat_holder_field_invariant
      [Op.createOrder (Order.new 1 1 ["A01"] 0), Op.holdSeats 1 ["A01", "A02"] 5 0,
        Op.confirmBooking 1 10 sampleRand] 1 _
      (Seat.sell 1 (Seat.hold 300 (Seat.new "A01" "Standard"))) (by rfl)
      (List.mem_cons_self _ _)).1 (by rfl),
    (seat_holder_field_invariant
      [Op.createOrder (Order.new 1 1 ["A01"] 0), Op.holdSeats 1 ["A01", "A02"] 5 0,
        Op.confirmBooking 1 10 sampleRand] 1 _
      (Seat.hold 300 (Seat.new "A02" "Standard")) (by rfl)
      (List.mem_cons_of_mem _ (List.mem_cons_self _ _))).2 (by rfl)⟩

/-! ## Orders and the seats they list -/

theorem holdLoop_map_seat_id (e : Int) (seats : List Seat) (seatIds : List String) :
    (holdLoop e seats seatIds).map Seat.seat_id = seats.map Seat.seat_id := by
  induction seatIds generalizing seats with
  | nil => rfl
  | cons a rest ih =>
    simp only [holdLoop]
    rw [ih, updateFirst_map_seat_id _ (Seat.hold e) (fun _ => rfl)]

theorem releaseLoop_map_seat_id (seats : List Seat) (seatIds : List String) :
    (releaseLoop seats seatIds).map Seat.seat_id = seats.map Seat.seat_id := by
  induction seatIds generalizing seats with
  | nil => rfl
  | cons a rest ih =>
    simp only [releaseLoop]
    rw [ih, updateFirst_map_seat_id _ Seat.release (fun _ => rfl)]

theorem sellLoop_map_seat_id (orderId : Int) (seats : List Seat) (seatIds : List String) :
    (sellLoop orderId seats seatIds).map Seat.seat_id = seats.map Seat.seat_id := by
  induction seatIds generalizing seats with
  | nil => rfl
  | cons a rest ih =>
    simp only [sellLoop]
    rw [ih, updateFirst_map_seat_id _ (Seat.sell orderId) (fun _ => rfl)]

theorem SameSeatIds.refl_ids (m : Int → Option (List Seat)) : SameSeatIds m m := fun _ => rfl

theorem SameSeatIds.trans_ids {m1 m2 m3 : Int → Option (List Seat)} (h12 : SameSeatIds m1 m2)
    (h23 : SameSeatIds m2 m3) : SameSeatIds m1 m3 := fun k => (h23 k).trans (h12 k)

theorem SameSeatIds.setSeats_ids (m : Int → Option (List Seat)) (k : Int) (v : List Seat)
    (hv : v.map Seat.seat_id = (seatsAt m k).map Seat.seat_id) :
    SameSeatIds m (setSeats m k v) := by
  intro j
  by_cases hjk : j = k
  · subst hjk
    rw [seatsAt_setSeats_same]
    exact hv
  · simp only [seatsAt, setSeats_other _ _ _ _ hjk]

theorem holdSeats_sameSeatIds (bs : BookingService) (showtimeId : Int)
    (seatIds : List String) (holdTimeMinutes now : Int) :
    SameSeatIds bs.showtimeSeats
      (holdSeats bs showtimeId seatIds holdTimeMinutes now).2.showtimeSeats := by
  cases hv : validateSeatSelection bs showtimeId seatIds with
  | false => rw [holdSeats_eq_of_invalid _ _ _ _ _ hv]; exact SameSeatIds.refl_ids _
  | true =>
    rw [holdSeats_eq_of_valid _ _ _ _ _ hv]
    exact SameSeatIds.setSeats_ids _ _ _ (holdLoop_map_seat_id _ _ _)

theorem releaseHeldSeats_sameSeatIds (bs : BookingService) (showtimeId : Int)
    (seatIds : List String) :
    SameSeatIds bs.showtimeSeats (releaseHeldSeats bs showtimeId seatIds).2.showtimeSeats := by
  cases hm : bs.showtimeSeats showtimeId with
  | none => rw [releaseHeldSeats_eq_of_none _ _ _ hm]; exact SameSeatIds.refl_ids _
  | some seats =>
    rw [releaseHeldSeats_eq_of_some _ _ _ seats hm]
    apply SameSeatIds.setSeats_ids
    rw [seatsAt_of_some hm]
    exact releaseLoop_map_seat_id _ _

theorem releaseExpiredHolds_sameSeatIds (bs : BookingService) (now : Int) :
    SameSeatIds bs.showtimeSeats (releaseExpiredHolds bs now).showtimeSeats := by
  intro k
  rw [releaseExpiredHolds_seatsAt, List.map_map]
  apply List.map_congr_left
  intro s _
  by_cases h : s.isHoldExpired now = true <;> simp [h, Seat.release]

theorem modifyOrder_mem (f : Order → Order) (orders : List Order) (orderId : Int) (o' : Order)
    (h : o' ∈ modifyOrder f orders orderId) : o' ∈ orders ∨ ∃ o ∈ orders, o' = f o := by
  induction orders with
  | nil => simp [modifyOrder] at h
  | cons a rest ih =>
    by_cases ha : a.id = orderId
    · simp [modifyOrder, ha] at h
      rcases h with rfl | h
      · exact Or.inr ⟨a, List.mem_cons_self _ _, rfl⟩
      · exact Or.inl (List.mem_cons_of_mem _ h)
    · simp [modifyOrder, ha] at h
      rcases h with rfl | h
      · exact Or.inl (List.mem_cons_self _ _)
      · rcases ih h with h1 | ⟨o, ho, rfl⟩
        · exact Or.inl (List.mem_cons_of_mem _ h1)
        · exact Or.inr ⟨o, List.mem_cons_of_mem _ ho, rfl⟩

theorem validateSeatSelection_ids_exist (bs : BookingService) (showtimeId : Int)
    (seatIds : List String) (hv : validateSeatSelection bs showtimeId seatIds = true) :
    ∀ x ∈ seatIds, x ∈ (seatsAt bs.showtimeSeats showtimeId).map Seat.seat_id := by
  obtain ⟨_, seats, hseats, hall⟩ := (validateSeatSelection_eq_true_iff _ _ _).1 hv
  intro x hx
  obtain ⟨s, hs, _⟩ := hall x hx
  rw [seatsAt_of_some hseats, ← (findSeat_some_mem hs).2]
  exact List.mem_map_of_mem _ (findSeat_some_mem hs).1

/-- A change that keeps the seat ids of every inventory and the stored orders keeps the
orders' seats in place. -/
theorem OrderSeatsExist.of_seats_listed {bs bs' : BookingService} (h : OrderSeatsExist bs)
    (hseats : SameSeatIds bs.showtimeSeats bs'.showtimeSeats)
    (hord : bs'.orders = bs.orders) : OrderSeatsExist bs' := by
  intro o ho x hx
  rw [hord] at ho
  rw [hseats]
  exact h o ho x hx

/-- Rewriting the pointed-to order keeps the orders' seats in place when the rewritten
order lists seats of its showtime. -/
theorem OrderSeatsExist.modifyOrder_listed {bs : BookingService} (h : OrderSeatsExist bs)
    (f : Order → Order) (orderId : Int) (tickets : List Ticket)
    (hf : ∀ o ∈ bs.orders, ∀ x ∈ (f o).seat_ids,
      x ∈ (seatsAt bs.showtimeSeats (f o).showtime_id).map Seat.seat_id) :
    OrderSeatsExist { bs with orders := modifyOrder f bs.orders orderId, tickets := tickets } := by
  intro o' ho' x hx
  rcases modifyOrder_mem f bs.orders orderId o' ho' with h1 | ⟨o, ho, rfl⟩
  · exact h o' h1 x hx
  · exact hf o ho x hx

theorem OrderSeatsExist.init_listed : OrderSeatsExist BookingService.init := by
  intro o ho
  simp [BookingService.init, initializeSeatsForShowtime] at ho

theorem OrderSeatsExist.createOrder_listed {bs : BookingService} (h : OrderSeatsExist bs)
    (order : Order) : OrderSeatsExist (createOrder bs order).2 := by
  unfold BookingCore.createOrder
  split_ifs with h1 h2
  · exact h
  · exact h
  · intro o ho x hx
    simp only [List.mem_append, List.mem_singleton] at ho
    rcases ho with ho | rfl
    · exact h o ho x hx
    · exact validateSeatSelection_ids_exist bs order.showtime_id order.seat_ids
        (by simpa using h2) x hx

theorem OrderSeatsExist.holdSeats_listed {bs : BookingService} (h : OrderSeatsExist bs)
    (showtimeId : Int) (seatIds : List String) (holdTimeMinutes now : Int) :
    OrderSeatsExist (holdSeats bs showtimeId seatIds holdTimeMinutes now).2 :=
  h.of_seats_listed (holdSeats_sameSeatIds _ _ _ _ _) (holdSeats_orders _ _ _ _ _).1

theorem OrderSeatsExist.releaseHeldSeats_listed {bs : BookingService} (h : OrderSeatsExist bs)
    (showtimeId : Int) (seatIds : List String) :
    OrderSeatsExist (releaseHeldSeats bs showtimeId seatIds).2 :=
  h.of_seats_listed (releaseHeldSeats_sameSeatIds _ _ _) (releaseHeldSeats_orders_tickets _ _ _).1

theorem OrderSeatsExist.releaseExpiredHolds_listed {bs : BookingService} (h : OrderSeatsExist bs)
    (now : Int) : OrderSeatsExist (releaseExpiredHolds bs now) :=
  h.of_seats_listed (releaseExpiredHolds_sameSeatIds _ _) rfl

theorem OrderSeatsExist.confirmBooking_listed {bs : BookingService} (h : OrderSeatsExist bs)
    (orderId now : Int) (rnd : Nat → Nat) :
    OrderSeatsExist (confirmBooking bs orderId now rnd).2 := by
  cases ho : findOrderById bs.orders orderId with
  | none => simpa [BookingCore.confirmBooking, ho] using h
  | some o =>
    rw [confirmBooking_eq_of_found _ _ _ _ o ho]
    have h1 : OrderSeatsExist
        { bs with
          showtimeSeats := setSeats bs.showtimeSeats o.showtime_id
            (sellLoop orderId (seatsAt bs.showtimeSeats o.showtime_id) o.seat_ids) } :=
      h.of_seats_listed (SameSeatIds.setSeats_ids _ _ _ (sellLoop_map_seat_id _ _ _)) rfl
    exact h1.modifyOrder_listed (fun o => o.setPaymentStatus "paid" now) orderId _
      (fun o' ho' x hx => h1 o' ho' x hx)

theorem OrderSeatsExist.cancelBooking_listed {bs : BookingService} (h : OrderSeatsExist bs)
    (orderId now : Int) : OrderSeatsExist (cancelBooking bs orderId now).2 := by
  unfold BookingCore.cancelBooking
  cases ho : findOrderById bs.orders orderId with
  | none => exact h
  | some o =>
    have h1 := h.releaseHeldSeats_listed o.showtime_id o.seat_ids
    exact h1.modifyOrder_listed (fun o => o.setPaymentStatus "canceled" now) orderId _
      (fun o' ho' x hx => h1 o' ho' x hx)

theorem OrderSeatsExist.refundTicket_listed {bs : BookingService} (h : OrderSeatsExist bs)
    (orderId now : Int) : OrderSeatsExist (refundTicket bs orderId now).2 := by
  unfold BookingCore.refundTicket
  cases ho : findOrderById bs.orders orderId with
  | none => exact h
  | some o =>
    have h1 := h.releaseHeldSeats_listed o.showtime_id o.seat_ids
    exact h1.modifyOrder_listed (fun o => o.setPaymentStatus "refunded" now) orderId _
      (fun o' ho' x hx => h1 o' ho' x hx)

theorem OrderSeatsExist.exchangeTicket_listed {bs : BookingService} (h : OrderSeatsExist bs)
    (orderId : Int) (newShowtimeId : Int) (newSeatIds : List String) (now : Int) :
    OrderSeatsExist (exchangeTicket bs orderId newShowtimeId newSeatIds now).2 := by
  unfold BookingCore.exchangeTicket
  cases ho : findOrderById bs.orders orderId with
  | none => exact h
  | some o =>
    have h1 := (h.releaseHeldSeats_listed o.showtime_id o.seat_ids).holdSeats_listed newShowtimeId newSeatIds 5 now
    dsimp only
    split_ifs with hv hheld
    · exact h
    · exact h1
    · refine h1.modifyOrder_listed
        (fun o => { o with showtime_id := newShowtimeId, seat_ids := newSeatIds }) orderId _ ?_
      intro o' _ x hx
      have hsame := (releaseHeldSeats_sameSeatIds bs o.showtime_id o.seat_ids).trans_ids
        (holdSeats_sameSeatIds (BookingCore.releaseHeldSeats bs o.showtime_id o.seat_ids).2
          newShowtimeId newSeatIds 5 now)
      show x ∈ (seatsAt _ newShowtimeId).map Seat.seat_id
      rw [hsame newShowtimeId]
      exact validateSeatSelection_ids_exist bs newShowtimeId newSeatIds (by simpa using hv) x hx

theorem OrderSeatsExist.apply_listed {bs : BookingService} (h : OrderSeatsExist bs) (op : Op)
    (hop : op.isWorkflow = true) : OrderSeatsExist (op.apply bs) := by
  cases op with
  | createOrder order => exact h.createOrder_listed order
  | updateOrder orderId updatedOrder => simp [Op.isWorkflow] at hop
  | holdSeats showtimeId seatIds holdTimeMinutes now => exact h.holdSeats_listed _ _ _ _
  | releaseHeldSeats showtimeId seatIds => exact h.releaseHeldSeats_listed _ _
  | releaseExpiredHolds now => exact h.releaseExpiredHolds_listed _
  | confirmBooking orderId now rnd => exact h.confirmBooking_listed _ _ _
  | cancelBooking orderId now => exact h.cancelBooking_listed _ _
  | exchangeTicket orderId newShowtimeId newSeatIds now => exact h.exchangeTicket_listed _ _ _ _
  | refundTicket orderId now => exact h.refundTicket_listed _ _
  | issueTickets orderId now rnd => simp [Op.isWorkflow] at hop
  | getSeatsForShowtime showtimeId => simp [Op.isWorkflow] at hop

theorem OrderSeatsExist.run_listed {bs : BookingService} (h : OrderSeatsExist bs) (ops : List Op)
    (hops : ∀ op ∈ ops, op.isWorkflow = true) : OrderSeatsExist (run bs ops) := by
  induction ops generalizing bs with
  | nil => exact h
  | cons op rest ih =>
    exact ih (h.apply_listed op (hops op (List.mem_cons_self _ _)))
      (fun op' hmem => hops op' (List.mem_cons_of_mem _ hmem))

/-- C16, as stated, fails: right after the successful `createOrder` for seat A01 the seat is
still available with no holder, neither held nor sold under order 1; and after a bare
`holdSeats` seat A01 is held while no order is stored at all. -/
theorem order_seat_not_held_and_held_seat_without_order :
    (createOrder BookingService.init (Order.new 1 1 ["A01"] 0)).1 = true
    ∧ (run BookingService.init [Op.createOrder (Order.new 1 1 ["A01"] 0)]).orders.map
        (fun o => (o.id, o.payment_status, o.showtime_id, o.seat_ids))
        = [(1, "pending", 1, ["A01"])]
    ∧ (findSeat (seatsAt (run BookingService.init
        [Op.createOrder (Order.new 1 1 ["A01"] 0)]).showtimeSeats 1) "A01").map
        (fun s => (s.status, s.order_id)) = some ("available", 0)
    ∧ (run BookingService.init [Op.holdSeats 1 ["A01", "A02"] 5 0]).orders = []
    ∧ (findSeat (seatsAt (run BookingService.init
        [Op.holdSeats 1 ["A01", "A02"] 5 0]).showtimeSeats 1) "A01").map Seat.status
        = some "held" :=
  ⟨by rfl, by rfl, by rfl, by rfl, by rfl⟩

/-- C16, amended. In every state reached from the initial service by workflow calls, every
seat id listed by a stored order is the id of a seat of the order's showtime; and a
successful `createOrder` on such a state changes no seat and every id it lists resolves to
a seat of the order's showtime with status available. -/
theorem order_seats_exist_available_at_creation (ops : List Op)
    (hops : ∀ op ∈ ops, op.isWorkflow = true) :
    (∀ o ∈ (run BookingService.init ops).orders, ∀ x ∈ o.seat_ids,
        x ∈ (seatsAt (run BookingService.init ops).showtimeSeats o.showtime_id).map
          Seat.seat_id)
    ∧ (∀ order : Order, (createOrder (run BookingService.init ops) order).1 = true →
        (createOrder (run BookingService.init ops) order).2.showtimeSeats
          = (run BookingService.init ops).showtimeSeats
        ∧ ∀ x ∈ order.seat_ids, ∃ s,
            findSeat (seatsAt (createOrder (run BookingService.init ops) order).2.showtimeSeats
              order.showtime_id) x = some s
            ∧ s.status = "available") := by
  refine ⟨OrderSeatsExist.init_listed.run_listed ops hops, ?_⟩
  intro order hok
  have hvalid : order.isValid = true := by
    cases h : order.isValid with
    | true => rfl
    | false => simp [createOrder, h] at hok
  have hv : validateSeatSelection (run BookingService.init ops) order.showtime_id
      order.seat_ids = true := by
    cases h : validateSeatSelection (run BookingService.init ops) order.showtime_id
        order.seat_ids with
    | true => rfl
    | false => simp [createOrder, hvalid, h] at hok
  have hseatmap : (createOrder (run BookingService.init ops) order).2.showtimeSeats
      = (run BookingService.init ops).showtimeSeats := by
    simp [createOrder, hvalid, hv]
  refine ⟨hseatmap, ?_⟩
  obtain ⟨_, seats, hseats, hall⟩ := (validateSeatSelection_eq_true_iff _ _ _).1 hv
  intro x hx
  obtain ⟨s, hs, hav⟩ := hall x hx
  refine ⟨s, ?_, by simpa [Seat.isAvailable] using hav⟩
  rw [hseatmap, seatsAt_of_some hseats]
  exact hs

theorem order_seats_exist_available_at_creation_witness :
    confirmedA01.orders
      = [{ Order.new 1 1 ["A01"] 0 with id := 1, payment_status := "paid", updated_at := 10 }]
    ∧ "A01" ∈ (seatsAt (run BookingService.init
          [Op.createOrder (Order.new 1 1 ["A01"] 0), Op.holdSeats 1 ["A01"] 5 0,
            Op.confirmBooking 1 10 sampleRand]).showtimeSeats 1).map Seat.seat_id :=
  ⟨by rfl,
    (order_seats_exist_available_at_creation
      [Op.createOrder (Order.new 1 1 ["A01"] 0), Op.holdSeats 1 ["A01"] 5 0,
        Op.confirmBooking 1 10 sampleRand] (by decide)).1
      { Order.new 1 1 ["A01"] 0 with id := 1, payment_status := "paid", updated_at := 10 }
      (List.mem_singleton.2 rfl) "A01" (List.mem_singleton.2 rfl)⟩

/-! ## Conflict checking -/

theorem Showtime.countsFor_eq_true_iff (auditoriumId excludeShowtimeId : Int)
    (showtime : Showtime) :
    showtime.countsFor auditoriumId excludeShowtimeId = true ↔
      showtime.auditorium_id = auditoriumId ∧ showtime.id ≠ excludeShowtimeId
        ∧ showtime.status ≠ "canceled" := by
  simp [Showtime.countsFor, and_assoc]

/-- The three-way test of the source is the half-open overlap of the candidate with the
widened window, for a candidate and a stored window that are not reversed. -/
theorem Showtime.overlapsBuffered_eq_true_iff (startTime endTime : Int) (showtime : Showtime)
    (hwin : showtime.start_time ≤ showtime.end_time) (hcand : startTime < endTime) :
    showtime.overlapsBuffered startTime endTime = true ↔
      startTime < showtime.end_time + 1800 ∧ showtime.start_time - 1800 < endTime := by
  simp only [Showtime.overlapsBuffered, decide_eq_true_eq]
  constructor
  · intro h
    omega
  · intro h
    omega

theorem checkTimeConflictLoop_eq_any (auditoriumId startTime endTime excludeShowtimeId : Int)
    (showtimes : List Showtime) :
    checkTimeConflictLoop auditoriumId startTime endTime excludeShowtimeId showtimes
      = showtimes.any (fun showtime =>
          showtime.countsFor auditoriumId excludeShowtimeId
            && showtime.overlapsBuffered startTime endTime) := by
  induction showtimes with
  | nil => rfl
  | cons a rest ih =>
    cases hc : a.countsFor auditoriumId excludeShowtimeId <;>
      cases ho : a.overlapsBuffered startTime endTime <;>
      simp [checkTimeConflictLoop, hc, ho, ih]

theorem checkTimeConflict_eq_true_iff (svc : ShowtimeService)
    (auditoriumId startTime endTime excludeShowtimeId : Int) :
    checkTimeConflict svc auditoriumId startTime endTime excludeShowtimeId = true ↔
      ∃ showtime ∈ svc.showtimes,
        showtime.countsFor auditoriumId excludeShowtimeId = true
          ∧ showtime.overlapsBuffered startTime endTime = true := by
  simp [checkTimeConflict, checkTimeConflictLoop_eq_any, List.any_eq_true]

/-- C17. For stored windows with start ≤ end and a candidate with `startTime < endTime`,
`checkTimeConflict` equals the buffered half-open overlap rule: it is true exactly when some
showtime on the auditorium, other than the excluded id and not canceled, has
`startTime < end + 1800` and `start - 1800 < endTime`. -/
theorem checkTimeConflict_eq_bufferedOverlapSpec (svc : ShowtimeService)
    (auditoriumId startTime endTime excludeShowtimeId : Int)
    (hwin : ∀ showtime ∈ svc.showtimes, showtime.start_time ≤ showtime.end_time)
    (hcand : startTime < endTime) :
    checkTimeConflict svc auditoriumId startTime endTime excludeShowtimeId
      = bufferedOverlapSpec svc.showtimes auditoriumId startTime endTime excludeShowtimeId
    ∧ (checkTimeConflict svc auditoriumId startTime endTime excludeShowtimeId = true ↔
        ∃ existing ∈ svc.showtimes,
          existing.auditorium_id = auditoriumId ∧ existing.id ≠ excludeShowtimeId
            ∧ existing.status ≠ "canceled"
            ∧ startTime < existing.end_time + 1800 ∧ existing.start_time - 1800 < endTime) := by
  have hiff : checkTimeConflict svc auditoriumId startTime endTime excludeShowtimeId = true ↔
      ∃ existing ∈ svc.showtimes,
        existing.auditorium_id = auditoriumId ∧ existing.id ≠ excludeShowtimeId
          ∧ existing.status ≠ "canceled"
          ∧ startTime < existing.end_time + 1800 ∧ existing.start_time - 1800 < endTime := by
    rw [checkTimeConflict_eq_true_iff]
    constructor
    · rintro ⟨st, hmem, hc, ho⟩
      obtain ⟨h1, h2, h3⟩ := (st.countsFor_eq_true_iff _ _).1 hc
      obtain ⟨h4, h5⟩ := (st.overlapsBuffered_eq_true_iff _ _ (hwin st hmem) hcand).1 ho
      exact ⟨st, hmem, h1, h2, h3, h4, h5⟩
    · rintro ⟨st, hmem, h1, h2, h3, h4, h5⟩
      exact ⟨st, hmem, (st.countsFor_eq_true_iff _ _).2 ⟨h1, h2, h3⟩,
        (st.overlapsBuffered_eq_true_iff _ _ (hwin st hmem) hcand).2 ⟨h4, h5⟩⟩
  refine ⟨?_, hiff⟩
  rw [Bool.eq_iff_iff, hiff]
  simp [bufferedOverlapSpec, List.any_eq_true]

theorem checkTimeConflict_eq_bufferedOverlapSpec_witness :
    checkTimeConflict (ShowtimeService.init 0) 1 (86400 + 5400 + 900) (86400 + 9000) (-1)
      = bufferedOverlapSpec (ShowtimeService.init 0).showtimes 1 (86400 + 5400 + 900)
          (86400 + 9000) (-1)
    ∧ checkTimeConflict (ShowtimeService.init 0) 1 (86400 + 5400 + 900) (86400 + 9000) (-1)
      = true :=
  ⟨(checkTimeConflict_eq_bufferedOverlapSpec (ShowtimeService.init 0) 1 (86400 + 5400 + 900)
      (86400 + 9000) (-1) (by decide) (by decide)).1, by decide⟩

/-- C18. Buffer boundary: with a single stored, non-canceled showtime `[s, e)` (stored id
not the sentinel `-1`) and a candidate `[s', e')` on the same auditorium with
`e ≤ s' < e'`, `hasConflict` is true exactly when `s' < e + 1800`. -/
theorem hasConflict_buffer_boundary (svc : ShowtimeService) (existing : Showtime)
    (startTime endTime : Int) (hsingle : svc.showtimes = [existing])
    (hid : existing.id ≠ -1) (hstatus : existing.status ≠ "canceled")
    (hwin : existing.start_time ≤ existing.end_time)
    (hafter : existing.end_time ≤ startTime) (hcand : startTime < endTime) :
    hasConflict svc existing.auditorium_id startTime endTime = true ↔
      startTime < existing.end_time + 1800 := by
  unfold hasConflict
  rw [checkTimeConflict_eq_true_iff, hsingle]
  constructor
  · rintro ⟨st, hmem, _, ho⟩
    simp only [List.mem_singleton] at hmem
    subst hmem
    exact ((st.overlapsBuffered_eq_true_iff _ _ hwin hcand).1 ho).1
  · intro h
    refine ⟨existing, List.mem_singleton.2 rfl,
      (existing.countsFor_eq_true_iff _ _).2 ⟨rfl, hid, hstatus⟩,
      (existing.overlapsBuffered_eq_true_iff _ _ hwin hcand).2 ⟨h, by omega⟩⟩

theorem hasConflict_buffer_boundary_witness :
    hasConflict (ShowtimeService.withShowtimes [morningShow]) 1 44100 46800 = true
    ∧ ¬ hasConflict (ShowtimeService.withShowtimes [morningShow]) 1 45000 46800 = true :=
  ⟨(hasConflict_buffer_boundary (ShowtimeService.withShowtimes [morningShow]) morningShow
      44100 46800 rfl (by decide) (by decide) (by decide) (by decide) (by decide)).2 (by decide),
    fun h => absurd
      ((hasConflict_buffer_boundary (ShowtimeService.withShowtimes [morningShow]) morningShow
        45000 46800 rfl (by decide) (by decide) (by decide) (by decide) (by decide)).1 h)
      (by decide)⟩

/-- C19. Conflict symmetry: for two showtimes `x` and `y` on the same auditorium, each with
start < end, neither canceled nor excluded, testing `y`'s window against a service storing
`x` gives the same result as testing `x`'s window against a service storing `y`. -/
theorem checkTimeConflict_symmetric (svcX svcY : ShowtimeService) (x y : Showtime)
    (excludeShowtimeId : Int) (hX : svcX.showtimes = [x]) (hY : svcY.showtimes = [y])
    (haud : x.auditorium_id = y.auditorium_id)
    (hxs : x.status ≠ "canceled") (hys : y.status ≠ "canceled")
    (hxid : x.id ≠ excludeShowtimeId) (hyid : y.id ≠ excludeShowtimeId)
    (hxw : x.start_time < x.end_time) (hyw : y.start_time < y.end_time) :
    checkTimeConflict svcX y.auditorium_id y.start_time y.end_time excludeShowtimeId
      = checkTimeConflict svcY x.auditorium_id x.start_time x.end_time excludeShowtimeId := by
  rw [Bool.eq_iff_iff, checkTimeConflict_eq_true_iff, checkTimeConflict_eq_true_iff, hX, hY]
  constructor
  · rintro ⟨st, hmem, _, ho⟩
    simp only [List.mem_singleton] at hmem
    subst hmem
    have h := (st.overlapsBuffered_eq_true_iff _ _ (le_of_lt hxw) hyw).1 ho
    exact ⟨y, List.mem_singleton.2 rfl, (y.countsFor_eq_true_iff _ _).2 ⟨haud.symm, hyid, hys⟩,
      (y.overlapsBuffered_eq_true_iff _ _ (le_of_lt hyw) hxw).2 ⟨by omega, by omega⟩⟩
  · rintro ⟨st, hmem, _, ho⟩
    simp only [List.mem_singleton] at hmem
    subst hmem
    have h := (st.overlapsBuffered_eq_true_iff _ _ (le_of_lt hyw) hxw).1 ho
    exact ⟨x, List.mem_singleton.2 rfl, (x.countsFor_eq_true_iff _ _).2 ⟨haud, hxid, hxs⟩,
      (x.overlapsBuffered_eq_true_iff _ _ (le_of_lt hxw) hyw).2 ⟨by omega, by omega⟩⟩

theorem checkTimeConflict_symmetric_witness :
    checkTimeConflict (ShowtimeService.withShowtimes [morningShow]) 1 44100 46800 (-1)
      = checkTimeConflict
          (ShowtimeService.withShowtimes [{ Showtime.new 1 1 44100 46800 with id := 2 }])
          1 36000 43200 (-1) :=
  checkTimeConflict_symmetric (ShowtimeService.withShowtimes [morningShow])
    (ShowtimeService.withShowtimes [{ Showtime.new 1 1 44100 46800 with id := 2 }])
    morningShow { Showtime.new 1 1 44100 46800 with id := 2 } (-1) rfl rfl rfl
    (by decide) (by decide) (by decide) (by decide) (by decide) (by decide)

/-- C20, as stated, fails for completed showtimes: a completed showtime on auditorium 1
from 36000 to 43200 makes the check for the window 40000 to 41000 true; with that showtime
removed the check is false. -/
theorem completed_showtime_still_conflicts :
    checkTimeConflict
        (ShowtimeService.withShowtimes [{ morningShow with status := "completed" }])
        1 40000 41000 (-1) = true
    ∧ checkTimeConflict (ShowtimeService.withShowtimes []) 1 40000 41000 (-1) = false :=
  ⟨by decide, by decide⟩

/-- C20, amended. The result of `checkTimeConflict` depends only on the stored showtimes
that are on the auditorium, are not the excluded id and are not canceled (whatever else
their status is): two services whose lists agree on those showtimes give the same result. -/
theorem checkTimeConflict_depends_on_counted (svc svc' : ShowtimeService)
    (auditoriumId startTime endTime excludeShowtimeId : Int)
    (hsame : svc.showtimes.filter (Showtime.countsFor auditoriumId excludeShowtimeId)
      = svc'.showtimes.filter (Showtime.countsFor auditoriumId excludeShowtimeId)) :
    checkTimeConflict svc auditoriumId startTime endTime excludeShowtimeId
      = checkTimeConflict svc' auditoriumId startTime endTime excludeShowtimeId := by
  have key : ∀ l : List Showtime,
      checkTimeConflictLoop auditoriumId startTime endTime excludeShowtimeId l
        = (l.filter (Showtime.countsFor auditoriumId excludeShowtimeId)).any
            (fun showtime => showtime.overlapsBuffered startTime endTime) := by
    intro l
    rw [checkTimeConflictLoop_eq_any, List.any_filter]
  unfold checkTimeConflict
  rw [key, key, hsame]

theorem checkTimeConflict_depends_on_counted_witness :
    checkTimeConflict (ShowtimeService.init 0) 1 90000 91000 (-1)
      = checkTimeConflict
          (ShowtimeService.withShowtimes
            ({ morningShow with status := "canceled" } :: (ShowtimeService.init 0).showtimes.take 1))
          1 90000 91000 (-1) :=
  checkTimeConflict_depends_on_counted (ShowtimeService.init 0)
    (ShowtimeService.withShowtimes
      ({ morningShow with status := "canceled" } :: (ShowtimeService.init 0).showtimes.take 1))
    1 90000 91000 (-1) (by decide)


/-! ## The schedule along operation sequences -/

theorem Showtime.Apart.symm_apart {a b : Showtime} (h : a.Apart b) : b.Apart a := by
  intro haud hb ha hov
  exact h haud.symm ha hb ⟨by omega, by omega⟩

theorem findShowtimeById_some_mem {showtimes : List Showtime} {showtimeId : Int}
    {st : Showtime} (h : findShowtimeById showtimes showtimeId = some st) :
    st ∈ showtimes ∧ st.id = showtimeId := by
  induction showtimes with
  | nil => simp [findShowtimeById] at h
  | cons a rest ih =>
    by_cases ha : a.id = showtimeId
    · simp [findShowtimeById, ha] at h
      subst h
      exact ⟨List.mem_cons_self _ _, ha⟩
    · simp [findShowtimeById, ha] at h
      exact ⟨List.mem_cons_of_mem _ (ih h).1, (ih h).2⟩

/-- With pairwise distinct ids the write through the pointer rewrites every showtime with
the id, which is the single one. -/
theorem modifyShowtime_eq_map (f : Showtime → Showtime) (showtimes : List Showtime)
    (showtimeId : Int) (hnd : (showtimes.map Showtime.id).Nodup) :
    modifyShowtime f showtimes showtimeId
      = showtimes.map (fun st => if st.id = showtimeId then f st else st) := by
  induction showtimes with
  | nil => rfl
  | cons a rest ih =>
    simp only [List.map_cons, List.nodup_cons] at hnd
    by_cases ha : a.id = showtimeId
    · have hrest : rest.map (fun st => if st.id = showtimeId then f st else st) = rest := by
        conv_rhs => rw [← List.map_id rest]
        apply List.map_congr_left
        intro st hst
        have hne : st.id ≠ showtimeId := fun e =>
          hnd.1 (by rw [ha, ← e]; exact List.mem_map_of_mem _ hst)
        simp [hne]
      simp [modifyShowtime, ha, hrest]
    · simp [modifyShowtime, ha, ih hnd.2]

theorem validateShowtime_window (svc : ShowtimeService) (showtime : Showtime) (now : Int)
    (h : validateShowtime svc showtime now = true) :
    showtime.start_time < showtime.end_time := by
  unfold validateShowtime at h
  cases hv : showtime.isValid with
  | false => simp [hv] at h
  | true =>
    simp only [Showtime.isValid, Bool.and_eq_true, decide_eq_true_eq] at hv
    exact hv.1.1.2

/-- A candidate that passes the conflict check is apart from every stored showtime that is
not the excluded one. -/
theorem apart_of_no_conflict (svc : ShowtimeService)
    (auditoriumId startTime endTime excludeShowtimeId : Int)
    (h : checkTimeConflict svc auditoriumId startTime endTime excludeShowtimeId = false)
    (hcand : startTime < endTime) (b : Showtime) (hb : b ∈ svc.showtimes)
    (hwin : b.start_time ≤ b.end_time) (hid : b.id ≠ excludeShowtimeId) (n : Showtime)
    (haud : n.auditorium_id = auditoriumId) (hs : n.start_time = startTime)
    (he : n.end_time = endTime) : n.Apart b := by
  intro hsame _ hbs hov
  have hcount : b.countsFor auditoriumId excludeShowtimeId = true :=
    (b.countsFor_eq_true_iff _ _).2 ⟨by rw [← hsame, haud], hid, hbs⟩
  have hover : b.overlapsBuffered startTime endTime = true :=
    (b.overlapsBuffered_eq_true_iff _ _ hwin hcand).2 ⟨by omega, by omega⟩
  have : checkTimeConflict svc auditoriumId startTime endTime excludeShowtimeId = true :=
    (checkTimeConflict_eq_true_iff _ _ _ _ _).2 ⟨b, hb, hcount, hover⟩
  rw [h] at this
  cases this

/-- What `createShowtime` returns: a refusal that leaves the service as it was, or the
service with one showtime appended that carries the next id and the candidate's
auditorium, window and status. -/
theorem createShowtime_cases (svc : ShowtimeService) (showtime : Showtime) (now : Int) :
    (createShowtime svc showtime now = (false, svc)
      ∧ (validateShowtime svc showtime now = false
        ∨ checkTimeConflict svc showtime.auditorium_id showtime.start_time
            showtime.end_time (-1) = true))
    ∨ (validateShowtime svc showtime now = true
      ∧ checkTimeConflict svc showtime.auditorium_id showtime.start_time
          showtime.end_time (-1) = false
      ∧ ∃ n : Showtime,
          createShowtime svc showtime now
            = (true, { svc with
                showtimes := svc.showtimes ++ [n]
                nextShowtimeId := svc.nextShowtimeId + 1 })
          ∧ n.id = svc.nextShowtimeId ∧ n.auditorium_id = showtime.auditorium_id
          ∧ n.start_time = showtime.start_time ∧ n.end_time = showtime.end_time
          ∧ n.status = showtime.status) := by
  unfold createShowtime
  cases hv : validateShowtime svc showtime now with
  | false => exact Or.inl ⟨by simp, Or.inl rfl⟩
  | true =>
    cases hc : checkTimeConflict svc showtime.auditorium_id showtime.start_time
        showtime.end_time (-1) with
    | true => exact Or.inl ⟨by simp, Or.inr rfl⟩
    | false =>
      refine Or.inr ⟨rfl, rfl, ?_⟩
      cases ha : findAuditoriumById svc.auditoriums showtime.auditorium_id with
      | none =>
        exact ⟨{ showtime with id := svc.nextShowtimeId }, by simp, rfl, rfl, rfl, rfl, rfl⟩
      | some aud =>
        exact ⟨{ showtime with
            id := svc.nextShowtimeId, seats_total := aud.capacity,
            seats_available := aud.capacity }, by simp, rfl, rfl, rfl, rfl, rfl⟩

theorem SchedInv.init_sched (now : Int) : SchedInv (ShowtimeService.init now) := by
  refine ⟨?_, ?_, ?_, ?_, ?_⟩
  · intro st hst
    simp only [ShowtimeService.init, Showtime.new, List.mem_cons, List.mem_singleton,
      List.not_mem_nil, or_false] at hst
    rcases hst with rfl | rfl <;> simp
  · simp [ShowtimeService.init]
  · intro st hst
    simp only [ShowtimeService.init, Showtime.new, List.mem_cons, List.mem_singleton,
      List.not_mem_nil, or_false] at hst
    rcases hst with rfl | rfl <;> simp [ShowtimeService.init]
  · simp [ShowtimeService.init, Showtime.new]
  · simp [ShowtimeService.init, Showtime.new, Showtime.Apart]

theorem SchedInv.createShowtime_sched {svc : ShowtimeService} (h : SchedInv svc)
    (showtime : Showtime) (now : Int) : SchedInv (createShowtime svc showtime now).2 := by
  rcases createShowtime_cases svc showtime now with
    ⟨hfail, _⟩ | ⟨hv, hc, n, hok, hid, haud, hs, he, _⟩
  · rw [hfail]
    exact h
  · rw [hok]
    obtain ⟨hwin, hnext, hids, hnd, hpw⟩ := h
    have hcand := validateShowtime_window svc showtime now hv
    refine ⟨?_, ?_, ?_, ?_, ?_⟩
    · intro st hst
      simp only [List.mem_append, List.mem_singleton] at hst
      rcases hst with hst | rfl
      · exact hwin st hst
      · rw [hs, he]
        exact hcand
    · show 1 ≤ svc.nextShowtimeId + 1
      omega
    · intro st hst
      simp only [List.mem_append, List.mem_singleton] at hst
      rcases hst with hst | rfl
      · have := hids st hst
        exact ⟨this.1, by show st.id < svc.nextShowtimeId + 1; omega⟩
      · rw [hid]
        exact ⟨hnext, by show svc.nextShowtimeId < svc.nextShowtimeId + 1; omega⟩
    · simp only [List.map_append, List.map_cons, List.map_nil]
      rw [List.nodup_append]
      refine ⟨hnd, List.nodup_singleton _, ?_⟩
      intro x hx hx'
      simp only [List.mem_singleton] at hx'
      obtain ⟨st, hst, rfl⟩ := List.mem_map.1 hx
      have := (hids st hst).2
      omega
    · rw [List.pairwise_append]
      refine ⟨hpw, List.pairwise_singleton _ _, ?_⟩
      intro a ha b hb
      simp only [List.mem_singleton] at hb
      subst hb
      have hne : a.id ≠ -1 := by
        have := (hids a ha).1
        omega
      exact (apart_of_no_conflict svc _ _ _ _ hc hcand a ha (le_of_lt (hwin a ha)) hne b haud
        hs he).symm_apart

/-- Rewriting the single showtime with the id keeps the bookkeeping when the new record has
a proper window, keeps the id, and is apart from the other stored showtimes whenever the
old record was. -/
theorem SchedInv.modify_sched {svc : ShowtimeService} (h : SchedInv svc)
    (f : Showtime → Showtime) (showtimeId : Int)
    (hwinf : ∀ a ∈ svc.showtimes, a.id = showtimeId → (f a).start_time < (f a).end_time)
    (hidf : ∀ a ∈ svc.showtimes, a.id = showtimeId → (f a).id = a.id)
    (hapart : ∀ a ∈ svc.showtimes, a.id = showtimeId → ∀ b ∈ svc.showtimes,
      b.id ≠ showtimeId → a.Apart b → (f a).Apart b) :
    SchedInv { svc with showtimes := modifyShowtime f svc.showtimes showtimeId } := by
  obtain ⟨hwin, hnext, hids, hnd, hpw⟩ := h
  have hmapid : (svc.showtimes.map (fun st => if st.id = showtimeId then f st else st)).map
      Showtime.id = svc.showtimes.map Showtime.id := by
    rw [List.map_map]
    apply List.map_congr_left
    intro a ha
    by_cases hx : a.id = showtimeId
    · simp [hx, hidf a ha hx]
    · simp [hx]
  refine ⟨?_, hnext, ?_, ?_, ?_⟩
  · intro st hst
    simp only [modifyShowtime_eq_map f _ _ hnd] at hst
    obtain ⟨a, ha, rfl⟩ := List.mem_map.1 hst
    by_cases hx : a.id = showtimeId
    · simp only [hx, if_true]
      exact hwinf a ha hx
    · simp only [hx, if_false]
      exact hwin a ha
  · intro st hst
    simp only [modifyShowtime_eq_map f _ _ hnd] at hst
    obtain ⟨a, ha, rfl⟩ := List.mem_map.1 hst
    by_cases hx : a.id = showtimeId
    · simp only [hx, if_true]
      rw [hidf a ha hx]
      exact hids a ha
    · simp only [hx, if_false]
      exact hids a ha
  · show ((modifyShowtime f svc.showtimes showtimeId).map Showtime.id).Nodup
    rw [modifyShowtime_eq_map f _ _ hnd, hmapid]
    exact hnd
  · show (modifyShowtime f svc.showtimes showtimeId).Pairwise Showtime.Apart
    rw [modifyShowtime_eq_map f _ _ hnd, List.pairwise_map]
    have hne : svc.showtimes.Pairwise (fun a b => a.id ≠ b.id) := by
      have := hnd
      rw [List.Nodup, List.pairwise_map] at this
      exact this
    refine (hpw.and hne).imp_of_mem ?_
    intro a b ha hb hab
    obtain ⟨hap, hidne⟩ := hab
    by_cases hxa : a.id = showtimeId
    · have hxb : b.id ≠ showtimeId := fun e => hidne (hxa.trans e.symm)
      simp only [hxa, if_true, hxb, if_false]
      exact hapart a ha hxa b hb hxb hap
    · by_cases hxb : b.id = showtimeId
      · simp only [hxa, if_false, hxb, if_true]
        exact (hapart b hb hxb a ha hxa hap.symm_apart).symm_apart
      · simp only [hxa, hxb, if_false]
        exact hap

theorem SchedInv.cancelShowtime_sched {svc : ShowtimeService} (h : SchedInv svc)
    (showtimeId : Int) : SchedInv (cancelShowtime svc showtimeId).2 := by
  unfold cancelShowtime
  cases hf : findShowtimeById svc.showtimes showtimeId with
  | none => exact h
  | some st =>
    apply h.modify_sched (fun st => { st with status := "canceled" }) showtimeId
    · intro a ha _
      exact h.1 a ha
    · intro a _ _
      rfl
    · intro a _ _ b _ _ _ _ hst
      exact absurd rfl hst

theorem SchedInv.updateShowtime_sched {svc : ShowtimeService} (h : SchedInv svc)
    (showtimeId : Int) (updatedShowtime : Showtime) (now : Int) :
    SchedInv (updateShowtime svc showtimeId updatedShowtime now).2 := by
  unfold updateShowtime
  cases hf : findShowtimeById svc.showtimes showtimeId with
  | none => exact h
  | some st =>
    dsimp only
    by_cases hlim : st.seats_available < st.seats_total
    · rw [if_pos hlim]
      apply h.modify_sched _ showtimeId
      · intro a ha _
        exact h.1 a ha
      · intro a _ _
        rfl
      · intro a _ _ b _ _ hap
        exact hap
    · rw [if_neg hlim]
      cases hv : validateShowtime svc updatedShowtime now with
      | false => exact h
      | true =>
        cases hc : checkTimeConflict svc updatedShowtime.auditorium_id
            updatedShowtime.start_time updatedShowtime.end_time showtimeId with
        | true => exact h
        | false =>
          simp only [Bool.not_true, Bool.false_eq_true, if_false]
          have hcand := validateShowtime_window svc updatedShowtime now hv
          apply h.modify_sched (fun _ => { updatedShowtime with id := showtimeId }) showtimeId
          · intro a _ _
            exact hcand
          · intro a _ hx
            exact hx.symm
          · intro a _ _ b hb hxb _
            exact apart_of_no_conflict svc _ _ _ _ hc hcand b hb (le_of_lt (h.1 b hb)) hxb _
              rfl rfl rfl

theorem SchedInv.createAuditorium_sched {svc : ShowtimeService} (h : SchedInv svc)
    (auditorium : Auditorium) : SchedInv (createAuditorium svc auditorium).2 := h

theorem SchedInv.bulkCreateLoop_sched (now : Int) (showtimeList : List Showtime)
    {svc : ShowtimeService} (h : SchedInv svc) (successCount : Nat) :
    SchedInv (bulkCreateLoop now showtimeList svc successCount).2 := by
  induction showtimeList generalizing svc successCount with
  | nil => exact h
  | cons a rest ih =>
    simp only [bulkCreateLoop]
    exact ih (h.createShowtime_sched a now) _

theorem SchedInv.bulkCreateShowtimes_sched {svc : ShowtimeService} (h : SchedInv svc)
    (showtimeList : List Showtime) (now : Int) :
    SchedInv (bulkCreateShowtimes svc showtimeList now).2 :=
  SchedInv.bulkCreateLoop_sched now showtimeList h 0

theorem SchedInv.copySchedule_sched {svc : ShowtimeService} (h : SchedInv svc)
    (fromDate toDate dayStart now : Int) :
    SchedInv (copySchedule svc fromDate toDate dayStart now).2 :=
  h.bulkCreateShowtimes_sched _ now

theorem SchedInv.applyTo_sched {svc : ShowtimeService} (h : SchedInv svc) (op : ShowOp) :
    SchedInv (op.applyTo svc) := by
  cases op with
  | createAuditorium auditorium => exact h.createAuditorium_sched _
  | createShowtime showtime now => exact h.createShowtime_sched _ _
  | updateShowtime showtimeId updatedShowtime now => exact h.updateShowtime_sched _ _ _
  | cancelShowtime showtimeId => exact h.cancelShowtime_sched _
  | bulkCreateShowtimes showtimeList now => exact h.bulkCreateShowtimes_sched _ _
  | copySchedule fromDate toDate dayStart now => exact h.copySchedule_sched _ _ _ _

theorem SchedInv.runShow_sched {svc : ShowtimeService} (h : SchedInv svc) (ops : List ShowOp) :
    SchedInv (runShow svc ops) := by
  induction ops generalizing svc with
  | nil => exact h
  | cons op rest ih => exact ih (h.applyTo_sched op)

theorem findShowtimeById_append_of_some (showtimes more : List Showtime) (showtimeId : Int)
    (st : Showtime) (h : findShowtimeById showtimes showtimeId = some st) :
    findShowtimeById (showtimes ++ more) showtimeId = some st := by
  induction showtimes with
  | nil => simp [findShowtimeById] at h
  | cons a rest ih =>
    by_cases ha : a.id = showtimeId
    · simpa [findShowtimeById, ha] using h
    · simp only [List.cons_append, findShowtimeById, ha, if_false] at h ⊢
      exact ih h

theorem findShowtimeById_modify_same (f : Showtime → Showtime) (showtimes : List Showtime)
    (showtimeId : Int) (hf : ∀ a, a.id = showtimeId → (f a).id = showtimeId) :
    findShowtimeById (modifyShowtime f showtimes showtimeId) showtimeId
      = (findShowtimeById showtimes showtimeId).map f := by
  induction showtimes with
  | nil => rfl
  | cons a rest ih =>
    by_cases ha : a.id = showtimeId
    · simp [modifyShowtime, findShowtimeById, ha, hf a ha]
    · simp [modifyShowtime, findShowtimeById, ha, ih]

theorem findShowtimeById_modify_other (f : Showtime → Showtime) (showtimes : List Showtime)
    (showtimeId other : Int) (hf : ∀ a, a.id = showtimeId → (f a).id = showtimeId)
    (hne : other ≠ showtimeId) :
    findShowtimeById (modifyShowtime f showtimes showtimeId) other
      = findShowtimeById showtimes other := by
  induction showtimes with
  | nil => rfl
  | cons a rest ih =>
    by_cases ha : a.id = showtimeId
    · have h1 : ¬ a.id = other := fun e => hne (e.symm.trans ha)
      have h2 : ¬ (f a).id = other := fun e => hne (e.symm.trans (hf a ha))
      rw [modifyShowtime, if_pos ha, findShowtimeById, if_neg h2, findShowtimeById, if_neg h1]
    · by_cases hb : a.id = other
      · rw [modifyShowtime, if_neg ha, findShowtimeById, if_pos hb, findShowtimeById, if_pos hb]
      · rw [modifyShowtime, if_neg ha, findShowtimeById, if_neg hb, findShowtimeById, if_neg hb,
          ih]

/-- C21. Schedule invariant: in every state reached from the initial service (built at any
clock value) by createAuditorium, createShowtime, updateShowtime, cancelShowtime,
bulkCreateShowtimes and copySchedule calls, every scheduled showtime has start < end, and
two scheduled showtimes at different positions on the same auditorium do not overlap within
the 1800-second buffer. -/
theorem schedule_invariant (now0 : Int) (ops : List ShowOp) :
    (∀ st ∈ (runShow (ShowtimeService.init now0) ops).showtimes,
        st.status = "scheduled" → st.start_time < st.end_time)
    ∧ (∀ (i j : Nat) (a b : Showtime),
        (runShow (ShowtimeService.init now0) ops).showtimes[i]? = some a →
        (runShow (ShowtimeService.init now0) ops).showtimes[j]? = some b →
        i ≠ j → a.status = "scheduled" → b.status = "scheduled" →
        a.auditorium_id = b.auditorium_id →
        ¬ (a.start_time < b.end_time + 1800 ∧ b.start_time - 1800 < a.end_time)) := by
  obtain ⟨hwin, _, _, _, hpw⟩ := (SchedInv.init_sched now0).runShow_sched ops
  refine ⟨fun st hst _ => hwin st hst, ?_⟩
  intro i j a b hi hj hij ha hb haud
  rw [List.pairwise_iff_getElem] at hpw
  obtain ⟨hil, rfl⟩ := List.getElem?_eq_some.1 hi
  obtain ⟨hjl, rfl⟩ := List.getElem?_eq_some.1 hj
  have hac : (runShow (ShowtimeService.init now0) ops).showtimes[i].status ≠ "canceled" := by
    rw [ha]; decide
  have hbc : (runShow (ShowtimeService.init now0) ops).showtimes[j].status ≠ "canceled" := by
    rw [hb]; decide
  rcases Nat.lt_or_gt_of_ne hij with hlt | hgt
  · exact hpw i j hil hjl hlt haud hac hbc
  · exact (hpw j i hjl hil hgt).symm_apart haud hac hbc

theorem schedule_invariant_witness :
    (runShow (ShowtimeService.init 0)
        [ShowOp.createShowtime lateShow 0,
          ShowOp.createShowtime (Showtime.new 1 1 (3 * 86400 + 7200) (3 * 86400 + 9000)) 0,
          ShowOp.createShowtime (Showtime.new 1 1 (3 * 86400 + 9000) (3 * 86400 + 9900)) 0,
          ShowOp.updateShowtime 1 lateShow 0]).showtimes.map
      (fun st => (st.id, st.auditorium_id, st.start_time, st.end_time, st.status))
      = [(1, 1, 90000, 91800, "scheduled"), (2, 2, 93600, 96000, "scheduled"),
          (3, 1, 259200, 266400, "scheduled"), (4, 1, 268200, 269100, "scheduled")]
    ∧ ¬ ((259200 : Int) < 269100 + 1800 ∧ (268200 : Int) - 1800 < 266400) :=
  ⟨by decide,
    (schedule_invariant 0
      [ShowOp.createShowtime lateShow 0,
        ShowOp.createShowtime (Showtime.new 1 1 (3 * 86400 + 7200) (3 * 86400 + 9000)) 0,
        ShowOp.createShowtime (Showtime.new 1 1 (3 * 86400 + 9000) (3 * 86400 + 9900)) 0,
        ShowOp.updateShowtime 1 lateShow 0]).2 2 3
      { Showtime.new 1 1 259200 266400 with id := 3 }
      { Showtime.new 1 1 268200 269100 with id := 4 } (by decide) (by decide) (by decide)
      (by decide) (by decide) (by decide)⟩

/-- C22. In every state reached from the initial service, a candidate with end ≤ start, or
whose window overlaps within the 1800-second buffer a stored non-canceled showtime on the
same auditorium, is refused by `createShowtime`: it returns false and the whole service
state, showtime list and id counter included, is unchanged. -/
theorem createShowtime_rejects_bad_candidate (now0 : Int) (ops : List ShowOp)
    (showtime : Showtime) (now : Int)
    (hbad : showtime.end_time ≤ showtime.start_time
      ∨ ∃ existing ∈ (runShow (ShowtimeService.init now0) ops).showtimes,
          existing.auditorium_id = showtime.auditorium_id ∧ existing.status ≠ "canceled"
          ∧ showtime.start_time < existing.end_time + 1800
          ∧ existing.start_time - 1800 < showtime.end_time) :
    createShowtime (runShow (ShowtimeService.init now0) ops) showtime now
      = (false, runShow (ShowtimeService.init now0) ops) := by
  obtain ⟨hwin, _, hids, _, _⟩ := (SchedInv.init_sched now0).runShow_sched ops
  rcases createShowtime_cases (runShow (ShowtimeService.init now0) ops) showtime now with
    ⟨hfail, _⟩ | ⟨hv, hc, _⟩
  · exact hfail
  · exfalso
    have hcand := validateShowtime_window _ showtime now hv
    rcases hbad with hrev | ⟨existing, hmem, haud, hst, h1, h2⟩
    · omega
    · have hne : existing.id ≠ -1 := by
        have := (hids existing hmem).1
        omega
      have : checkTimeConflict (runShow (ShowtimeService.init now0) ops)
          showtime.auditorium_id showtime.start_time showtime.end_time (-1) = true :=
        (checkTimeConflict_eq_true_iff _ _ _ _ _).2 ⟨existing, hmem,
          (existing.countsFor_eq_true_iff _ _).2 ⟨haud, hne, hst⟩,
          (existing.overlapsBuffered_eq_true_iff _ _ (le_of_lt (hwin existing hmem)) hcand).2
            ⟨h1, h2⟩⟩
      rw [hc] at this
      cases this

theorem createShowtime_rejects_bad_candidate_witness :
    createShowtime (runShow (ShowtimeService.init 0) [ShowOp.createShowtime lateShow 0])
        (Showtime.new 1 1 (3 * 86400 + 7200 + 900) (3 * 86400 + 7200 + 3600)) 0
      = (false, runShow (ShowtimeService.init 0) [ShowOp.createShowtime lateShow 0]) :=
  createShowtime_rejects_bad_candidate 0 [ShowOp.createShowtime lateShow 0]
    (Showtime.new 1 1 (3 * 86400 + 7200 + 900) (3 * 86400 + 7200 + 3600)) 0
    (Or.inr ⟨{ lateShow with id := 3 }, by decide, by decide, by decide, by decide, by decide⟩)

/-- C25, as stated, fails: showtime 3 is created and canceled; `updateShowtime(3, ...)`
with a valid scheduled record then succeeds and the showtime is scheduled again. -/
theorem canceled_showtime_rescheduled_by_update :
    (findShowtimeById (runShow (ShowtimeService.init 0)
        [ShowOp.createShowtime lateShow 0, ShowOp.cancelShowtime 3]).showtimes 3).map
      Showtime.status = some "canceled"
    ∧ (updateShowtime (runShow (ShowtimeService.init 0)
        [ShowOp.createShowtime lateShow 0, ShowOp.cancelShowtime 3]) 3 lateShow 0).1 = true
    ∧ (findShowtimeById (runShow (ShowtimeService.init 0)
        [ShowOp.createShowtime lateShow 0, ShowOp.cancelShowtime 3,
          ShowOp.updateShowtime 3 lateShow 0]).showtimes 3).map
      Showtime.status = some "scheduled" :=
  ⟨by decide, by decide, by decide⟩

/-- C25, amended. A canceled showtime stays canceled under `createShowtime`, under
`cancelShowtime`, and under `updateShowtime` when the update is aimed at another id, or the
showtime has `seats_available < seats_total` (limited update), or the update record is
itself canceled; a successful `updateShowtime` of the showtime with no such restriction
gives it the status of the update record. -/
theorem canceled_stays_unless_full_update (svc : ShowtimeService) (showtimeId : Int)
    (st : Showtime) (hfind : findShowtimeById svc.showtimes showtimeId = some st)
    (hcanceled : st.status = "canceled") :
    (∀ (candidate : Showtime) (now : Int),
        (findShowtimeById (createShowtime svc candidate now).2.showtimes showtimeId).map
          Showtime.status = some "canceled")
    ∧ (∀ other : Int,
        (findShowtimeById (cancelShowtime svc other).2.showtimes showtimeId).map
          Showtime.status = some "canceled")
    ∧ (∀ (other : Int) (updatedShowtime : Showtime) (now : Int),
        (other ≠ showtimeId ∨ st.seats_available < st.seats_total
          ∨ updatedShowtime.status = "canceled") →
        (findShowtimeById (updateShowtime svc other updatedShowtime now).2.showtimes
          showtimeId).map Showtime.status = some "canceled")
    ∧ (∀ (updatedShowtime : Showtime) (now : Int),
        ¬ st.seats_available < st.seats_total →
        (updateShowtime svc showtimeId updatedShowtime now).1 = true →
        (findShowtimeById (updateShowtime svc showtimeId updatedShowtime now).2.showtimes
          showtimeId).map Showtime.status = some updatedShowtime.status) := by
  have hbase : (findShowtimeById svc.showtimes showtimeId).map Showtime.status
      = some "canceled" := by
    rw [hfind]
    simp [hcanceled]
  refine ⟨?_, ?_, ?_, ?_⟩
  · intro candidate now
    rcases createShowtime_cases svc candidate now with ⟨hfail, _⟩ | ⟨_, _, n, hok, _⟩
    · rw [hfail]
      exact hbase
    · rw [hok]
      show (findShowtimeById (svc.showtimes ++ [n]) showtimeId).map Showtime.status = _
      rw [findShowtimeById_append_of_some _ _ _ st hfind]
      simp [hcanceled]
  · intro other
    unfold cancelShowtime
    cases hf : findShowtimeById svc.showtimes other with
    | none => exact hbase
    | some st' =>
      show (findShowtimeById (modifyShowtime _ svc.showtimes other) showtimeId).map
        Showtime.status = _
      by_cases hne : showtimeId = other
      · subst hne
        rw [findShowtimeById_modify_same (fun st => { st with status := "canceled" }) _ _
          (fun _ ha => ha), hfind]
        rfl
      · rw [findShowtimeById_modify_other (fun st => { st with status := "canceled" }) _ _ _
          (fun _ ha => ha) hne]
        exact hbase
  · intro other updatedShowtime now hcase
    unfold updateShowtime
    cases hf : findShowtimeById svc.showtimes other with
    | none => exact hbase
    | some st' =>
      dsimp only
      by_cases hlim : st'.seats_available < st'.seats_total
      · rw [if_pos hlim]
        show (findShowtimeById (modifyShowtime _ svc.showtimes other) showtimeId).map
          Showtime.status = _
        by_cases hne : showtimeId = other
        · subst hne
          rw [findShowtimeById_modify_same
            (fun st => { st with
              base_price := updatedShowtime.base_price, format := updatedShowtime.format })
            _ _ (fun _ ha => ha), hfind]
          simp [hcanceled]
        · rw [findShowtimeById_modify_other
            (fun st => { st with
              base_price := updatedShowtime.base_price, format := updatedShowtime.format })
            _ _ _ (fun _ ha => ha) hne]
          exact hbase
      · rw [if_neg hlim]
        cases hv : validateShowtime svc updatedShowtime now with
        | false => exact hbase
        | true =>
          cases hc : checkTimeConflict svc updatedShowtime.auditorium_id
              updatedShowtime.start_time updatedShowtime.end_time other with
          | true => exact hbase
          | false =>
            simp only [Bool.not_true, Bool.false_eq_true, if_false]
            show (findShowtimeById (modifyShowtime _ svc.showtimes other) showtimeId).map
              Showtime.status = _
            by_cases hne : showtimeId = other
            · subst hne
              rw [hfind] at hf
              cases hf
              rcases hcase with h1 | h1 | h1
              · exact absurd rfl h1
              · exact absurd h1 hlim
              · rw [findShowtimeById_modify_same
                  (fun _ => { updatedShowtime with id := showtimeId }) _ _ (fun _ _ => rfl),
                  hfind]
                simp [h1]
            · rw [findShowtimeById_modify_other
                (fun _ => { updatedShowtime with id := other }) _ _ _ (fun _ _ => rfl) hne]
              exact hbase
  · intro updatedShowtime now hfull hok
    unfold updateShowtime at hok ⊢
    simp only [hfind, if_neg hfull] at hok ⊢
    cases hv : validateShowtime svc updatedShowtime now with
    | false => simp [hv] at hok
    | true =>
      cases hc : checkTimeConflict svc updatedShowtime.auditorium_id
          updatedShowtime.start_time updatedShowtime.end_time showtimeId with
      | true => simp [hv, hc] at hok
      | false =>
        simp only [Bool.not_true, Bool.false_eq_true, if_false]
        show (findShowtimeById (modifyShowtime _ svc.showtimes showtimeId) showtimeId).map
          Showtime.status = _
        rw [findShowtimeById_modify_same
          (fun _ => { updatedShowtime with id := showtimeId }) _ _ (fun _ _ => rfl), hfind]
        rfl

theorem canceled_stays_unless_full_update_witness :
    findShowtimeById (runShow (ShowtimeService.init 0)
        [ShowOp.createShowtime lateShow 0, ShowOp.cancelShowtime 3]).showtimes 3
      = some { lateShow with id := 3, status := "canceled" }
    ∧ (findShowtimeById (cancelShowtime (runShow (ShowtimeService.init 0)
        [ShowOp.createShowtime lateShow 0, ShowOp.cancelShowtime 3]) 3).2.showtimes 3).map
      Showtime.status = some "canceled" :=
  ⟨by decide,
    (canceled_stays_unless_full_update
      (runShow (ShowtimeService.init 0) [ShowOp.createShowtime lateShow 0, ShowOp.cancelShowtime 3])
      3 { lateShow with id := 3, status := "canceled" } (by decide) (by decide)).2.1 3⟩

/-- C28, as stated, fails: the first sample showtime has 100 seats of which 85 are
available; `getOccupancyRate` is 15, a percentage, not the fraction 15/100. -/
theorem occupancy_rate_is_percentage :
    (ShowtimeService.init 0).showtimes.map
        (fun st => (st.seats_total, st.seats_available, st.getOccupancyRate))
      = [(100, 85, 15), (150, 120, 20)]
    ∧ (15 : Rat) ≠ ((100 : Int) - 85 : Int) / ((100 : Int) : Rat) := by
  constructor
  · simp only [ShowtimeService.init, Showtime.new, Showtime.getOccupancyRate, wrapInt32, List.map]
    norm_num
  · norm_num

/-- C28, amended. With the `double` arithmetic read as exact, `getOccupancyRate` is 0 when
`seats_total = 0`; for `seats_total > 0` and a difference `seats_total - seats_available`
inside the `int` range it is the percentage
`100 * (seats_total - seats_available) / seats_total`, a value between 0 and 100 when
`0 ≤ seats_available ≤ seats_total`. -/
theorem getOccupancyRate_percentage (showtime : Showtime) :
    (showtime.seats_total = 0 → showtime.getOccupancyRate = 0)
    ∧ (0 < showtime.seats_total →
        -2147483648 ≤ showtime.seats_total - showtime.seats_available →
        showtime.seats_total - showtime.seats_available ≤ 2147483647 →
        showtime.getOccupancyRate
          = 100 * (((showtime.seats_total - showtime.seats_available : Int) : Rat)
              / (showtime.seats_total : Rat))
        ∧ (0 ≤ showtime.seats_available → showtime.seats_available ≤ showtime.seats_total →
            0 ≤ showtime.getOccupancyRate ∧ showtime.getOccupancyRate ≤ 100)) := by
  constructor
  · intro h0
    simp [Showtime.getOccupancyRate, h0]
  · intro hpos hlo hhi
    have hne : showtime.seats_total ≠ 0 := ne_of_gt hpos
    have hq : (0 : Rat) < (showtime.seats_total : Rat) := by exact_mod_cast hpos
    have hrate : showtime.getOccupancyRate
        = 100 * (((showtime.seats_total - showtime.seats_available : Int) : Rat)
            / (showtime.seats_total : Rat)) := by
      simp only [Showtime.getOccupancyRate, hne, if_false, wrapInt32_of_inRange _ hlo hhi]
      ring
    refine ⟨hrate, ?_⟩
    intro h1 h2
    rw [hrate]
    have hnum0 : (0 : Rat) ≤ ((showtime.seats_total - showtime.seats_available : Int) : Rat) := by
      exact_mod_cast (by omega : (0 : Int) ≤ showtime.seats_total - showtime.seats_available)
    have hnum1 : ((showtime.seats_total - showtime.seats_available : Int) : Rat)
        ≤ (showtime.seats_total : Rat) := by
      exact_mod_cast (by omega :
        showtime.seats_total - showtime.seats_available ≤ showtime.seats_total)
    constructor
    · exact mul_nonneg (by norm_num) (div_nonneg hnum0 (le_of_lt hq))
    · have : ((showtime.seats_total - showtime.seats_available : Int) : Rat)
          / (showtime.seats_total : Rat) ≤ 1 := (div_le_one hq).2 hnum1
      linarith

theorem getOccupancyRate_percentage_witness :
    ({ Showtime.new 1 1 36000 43200 with seats_available := 85 } : Showtime).getOccupancyRate
      = 100 * ((((100 : Int) - 85 : Int) : Rat) / ((100 : Int) : Rat)) :=
  ((getOccupancyRate_percentage { Showtime.new 1 1 36000 43200 with seats_available := 85 }).2
    (by decide) (by decide) (by decide)).1

/-! ## The fixed part of the inventories -/

theorem updateFirst_map_fixedPart (p : Seat → Bool) (f : Seat → Seat)
    (hf : ∀ s, (f s).fixedPart = s.fixedPart) (seats : List Seat) :
    (updateFirst p f seats).map Seat.fixedPart = seats.map Seat.fixedPart := by
  induction seats with
  | nil => rfl
  | cons s rest ih =>
    by_cases h : p s = true
    · simp [updateFirst, h, hf]
    · simp [updateFirst, h, ih]

theorem holdLoop_map_fixedPart (e : Int) (seats : List Seat) (seatIds : List String) :
    (holdLoop e seats seatIds).map Seat.fixedPart = seats.map Seat.fixedPart := by
  induction seatIds generalizing seats with
  | nil => rfl
  | cons a rest ih =>
    simp only [holdLoop]
    rw [ih, updateFirst_map_fixedPart _ (Seat.hold e) (fun _ => rfl)]

theorem releaseLoop_map_fixedPart (seats : List Seat) (seatIds : List String) :
    (releaseLoop seats seatIds).map Seat.fixedPart = seats.map Seat.fixedPart := by
  induction seatIds generalizing seats with
  | nil => rfl
  | cons a rest ih =>
    simp only [releaseLoop]
    rw [ih, updateFirst_map_fixedPart _ Seat.release (fun _ => rfl)]

theorem sellLoop_map_fixedPart (orderId : Int) (seats : List Seat) (seatIds : List String) :
    (sellLoop orderId seats seatIds).map Seat.fixedPart = seats.map Seat.fixedPart := by
  induction seatIds generalizing seats with
  | nil => rfl
  | cons a rest ih =>
    simp only [sellLoop]
    rw [ih, updateFirst_map_fixedPart _ (Seat.sell orderId) (fun _ => rfl)]

theorem SameFixed.refl_fixed (m : Int → Option (List Seat)) : SameFixed m m :=
  fun _ seats h => ⟨seats, h, rfl⟩

theorem SameFixed.trans_fixed {m1 m2 m3 : Int → Option (List Seat)} (h12 : SameFixed m1 m2)
    (h23 : SameFixed m2 m3) : SameFixed m1 m3 := by
  intro k seats hk
  obtain ⟨s2, h2, e2⟩ := h12 k seats hk
  obtain ⟨s3, h3, e3⟩ := h23 k s2 h2
  exact ⟨s3, h3, e3.trans e2⟩

theorem SameFixed.setSeats_fixed (m : Int → Option (List Seat)) (k : Int) (v : List Seat)
    (hv : ∀ seats, m k = some seats → v.map Seat.fixedPart = seats.map Seat.fixedPart) :
    SameFixed m (setSeats m k v) := by
  intro j seats hj
  by_cases hjk : j = k
  · subst hjk
    exact ⟨v, setSeats_same _ _ _, hv seats hj⟩
  · exact ⟨seats, by rw [setSeats_other _ _ _ _ hjk]; exact hj, rfl⟩

theorem holdSeats_sameFixed (bs : BookingService) (showtimeId : Int)
    (seatIds : List String) (holdTimeMinutes now : Int) :
    SameFixed bs.showtimeSeats
      (holdSeats bs showtimeId seatIds holdTimeMinutes now).2.showtimeSeats := by
  cases hv : validateSeatSelection bs showtimeId seatIds with
  | false => rw [holdSeats_eq_of_invalid _ _ _ _ _ hv]; exact SameFixed.refl_fixed _
  | true =>
    rw [holdSeats_eq_of_valid _ _ _ _ _ hv]
    apply SameFixed.setSeats_fixed
    intro seats hm
    rw [seatsAt_of_some hm]
    exact holdLoop_map_fixedPart _ _ _

theorem releaseHeldSeats_sameFixed (bs : BookingService) (showtimeId : Int)
    (seatIds : List String) :
    SameFixed bs.showtimeSeats (releaseHeldSeats bs showtimeId seatIds).2.showtimeSeats := by
  cases hm : bs.showtimeSeats showtimeId with
  | none => rw [releaseHeldSeats_eq_of_none _ _ _ hm]; exact SameFixed.refl_fixed _
  | some seats =>
    rw [releaseHeldSeats_eq_of_some _ _ _ seats hm]
    apply SameFixed.setSeats_fixed
    intro seats' hm'
    rw [hm] at hm'
    cases hm'
    exact releaseLoop_map_fixedPart _ _

theorem releaseExpiredHolds_sameFixed (bs : BookingService) (now : Int) :
    SameFixed bs.showtimeSeats (releaseExpiredHolds bs now).showtimeSeats := by
  intro k seats hk
  refine ⟨seats.map (fun seat => if seat.isHoldExpired now then seat.release else seat), ?_, ?_⟩
  · simp [releaseExpiredHolds, hk]
  · rw [List.map_map]
    apply List.map_congr_left
    intro s _
    by_cases h : s.isHoldExpired now = true <;> simp [h, Seat.release, Seat.fixedPart]

theorem confirmBooking_sameFixed (bs : BookingService) (orderId now : Int) (rnd : Nat → Nat) :
    SameFixed bs.showtimeSeats (confirmBooking bs orderId now rnd).2.showtimeSeats := by
  cases ho : findOrderById bs.orders orderId with
  | none =>
    have : confirmBooking bs orderId now rnd = (false, bs) := by simp [confirmBooking, ho]
    rw [this]
    exact SameFixed.refl_fixed _
  | some o =>
    rw [confirmBooking_eq_of_found _ _ _ _ o ho]
    apply SameFixed.setSeats_fixed
    intro seats hm
    rw [seatsAt_of_some hm]
    exact sellLoop_map_fixedPart _ _ _

theorem cancelBooking_sameFixed (bs : BookingService) (orderId now : Int) :
    SameFixed bs.showtimeSeats (cancelBooking bs orderId now).2.showtimeSeats := by
  cases ho : findOrderById bs.orders orderId with
  | none =>
    have : cancelBooking bs orderId now = (false, bs) := by simp [cancelBooking, ho]
    rw [this]
    exact SameFixed.refl_fixed _
  | some o =>
    rw [cancelBooking_eq_of_found _ _ _ o ho]
    exact releaseHeldSeats_sameFixed bs o.showtime_id o.seat_ids

theorem refundTicket_sameFixed (bs : BookingService) (orderId now : Int) :
    SameFixed bs.showtimeSeats (refundTicket bs orderId now).2.showtimeSeats := by
  unfold refundTicket
  cases ho : findOrderById bs.orders orderId with
  | none => exact SameFixed.refl_fixed _
  | some o => exact releaseHeldSeats_sameFixed bs o.showtime_id o.seat_ids

theorem exchangeTicket_sameFixed (bs : BookingService) (orderId : Int) (newShowtimeId : Int)
    (newSeatIds : List String) (now : Int) :
    SameFixed bs.showtimeSeats
      (exchangeTicket bs orderId newShowtimeId newSeatIds now).2.showtimeSeats := by
  unfold exchangeTicket
  cases ho : findOrderById bs.orders orderId with
  | none => exact SameFixed.refl_fixed _
  | some o =>
    have h1 := (releaseHeldSeats_sameFixed bs o.showtime_id o.seat_ids).trans_fixed
      (holdSeats_sameFixed (releaseHeldSeats bs o.showtime_id o.seat_ids).2 newShowtimeId
        newSeatIds 5 now)
    dsimp only
    split_ifs
    · exact SameFixed.refl_fixed _
    · exact h1
    · exact h1

theorem getSeatsForShowtime_sameFixed (bs : BookingService) (showtimeId : Int) :
    SameFixed bs.showtimeSeats (getSeatsForShowtime bs showtimeId).2.showtimeSeats := by
  unfold getSeatsForShowtime
  dsimp only
  cases hm : bs.showtimeSeats showtimeId with
  | none =>
    simp only [Option.isNone_none, if_true]
    have h1 : SameFixed bs.showtimeSeats
        (initializeSeatsForShowtime bs showtimeId 100).showtimeSeats := by
      unfold initializeSeatsForShowtime
      apply SameFixed.setSeats_fixed
      intro seats hs
      rw [hm] at hs
      cases hs
    refine h1.trans_fixed ?_
    apply SameFixed.setSeats_fixed
    intro seats hs
    rw [seatsAt_of_some hs]
  | some seats0 =>
    simp only [Option.isNone_some, Bool.false_eq_true, if_false]
    apply SameFixed.setSeats_fixed
    intro seats hs
    rw [seatsAt_of_some hs]

/-- C23. Capacity is immutable: for a showtime that has an inventory, every public call
(holdSeats, releaseHeldSeats, releaseExpiredHolds, confirmBooking, cancelBooking,
exchangeTicket and refundTicket among them) leaves an inventory there with the same
sequence of seat ids and, seat by seat, the same row, number, type and price multiplier. -/
theorem inventory_fixed_part_unchanged (bs : BookingService) (op : Op) (showtimeId : Int)
    (seats : List Seat) (hshow : bs.showtimeSeats showtimeId = some seats) :
    ∃ seats', (op.apply bs).showtimeSeats showtimeId = some seats'
      ∧ seats'.map Seat.seat_id = seats.map Seat.seat_id
      ∧ seats'.map (fun s => (s.row, s.number, s.type, s.price_multiplier))
          = seats.map (fun s => (s.row, s.number, s.type, s.price_multiplier)) := by
  have hsame : SameFixed bs.showtimeSeats (op.apply bs).showtimeSeats := by
    cases op with
    | createOrder order =>
      show SameFixed _ (createOrder bs order).2.showtimeSeats
      unfold createOrder
      split_ifs <;> exact SameFixed.refl_fixed _
    | updateOrder orderId updatedOrder =>
      show SameFixed _ (updateOrder bs orderId updatedOrder).2.showtimeSeats
      unfold updateOrder
      cases findOrderById bs.orders orderId with
      | none => exact SameFixed.refl_fixed _
      | some o =>
        dsimp only
        split_ifs <;> exact SameFixed.refl_fixed _
    | holdSeats k seatIds holdTimeMinutes now => exact holdSeats_sameFixed _ _ _ _ _
    | releaseHeldSeats k seatIds => exact releaseHeldSeats_sameFixed _ _ _
    | releaseExpiredHolds now => exact releaseExpiredHolds_sameFixed _ _
    | confirmBooking orderId now rnd => exact confirmBooking_sameFixed _ _ _ _
    | cancelBooking orderId now => exact cancelBooking_sameFixed _ _ _
    | exchangeTicket orderId k seatIds now => exact exchangeTicket_sameFixed _ _ _ _ _
    | refundTicket orderId now => exact refundTicket_sameFixed _ _ _
    | issueTickets orderId now rnd =>
      show SameFixed _ (issueTickets bs orderId now rnd).2.showtimeSeats
      unfold issueTickets
      cases findOrderById bs.orders orderId <;> exact SameFixed.refl_fixed _
    | getSeatsForShowtime k => exact getSeatsForShowtime_sameFixed _ _
  obtain ⟨seats', h1, h2⟩ := hsame showtimeId seats hshow
  refine ⟨seats', h1, ?_, ?_⟩
  · have := congrArg (List.map (fun x : String × String × Int × String × Rat => x.1)) h2
    simpa [List.map_map, Function.comp, Seat.fixedPart] using this
  · have := congrArg (List.map (fun x : String × String × Int × String × Rat => x.2)) h2
    simpa [List.map_map, Function.comp, Seat.fixedPart] using this

theorem inventory_fixed_part_unchanged_witness :
    orderedHeldA01.showtimeSeats 1 = some (seatsAt orderedHeldA01.showtimeSeats 1)
    ∧ ∃ seats', ((Op.confirmBooking 1 10 sampleRand).apply orderedHeldA01).showtimeSeats 1
        = some seats'
      ∧ seats'.map Seat.seat_id = (seatsAt orderedHeldA01.showtimeSeats 1).map Seat.seat_id
      ∧ seats'.map (fun s => (s.row, s.number, s.type, s.price_multiplier))
          = (seatsAt orderedHeldA01.showtimeSeats 1).map
              (fun s => (s.row, s.number, s.type, s.price_multiplier)) :=
  ⟨by rfl,
    inventory_fixed_part_unchanged orderedHeldA01 (Op.confirmBooking 1 10 sampleRand) 1
      (seatsAt orderedHeldA01.showtimeSeats 1) (by rfl)⟩

/-! ## Payment status changes -/

theorem modifyOrder_getElem_of_ne (f : Order → Order) (orders : List Order) (orderId : Int)
    (i : Nat) (o : Order) (hi : orders[i]? = some o) (hne : o.id ≠ orderId) :
    (modifyOrder f orders orderId)[i]? = some o := by
  induction orders generalizing i with
  | nil => simp at hi
  | cons a rest ih =>
    by_cases ha : a.id = orderId
    · cases i with
      | zero =>
        simp at hi
        subst hi
        exact absurd ha hne
      | succ j =>
        simp at hi
        simp [modifyOrder, ha, hi]
    · cases i with
      | zero =>
        simp at hi
        subst hi
        simp [modifyOrder, ha]
      | succ j =>
        simp at hi
        simp [modifyOrder, ha, ih j hi]

theorem statusSet_modifyOrder (orders : List Order) (orderId : Int) (status : String)
    (now : Int) :
    StatusSet orders (modifyOrder (fun o => o.setPaymentStatus status now) orders orderId)
      orderId status now :=
  ⟨findOrderById_modifyOrder_same (fun o => o.setPaymentStatus status now) (fun _ => rfl)
      orders orderId,
    fun i o hi hne => modifyOrder_getElem_of_ne _ orders orderId i o hi hne⟩

/-- C24, as stated, fails: the three calls set the status whatever it was.  Order 1 is
pending and `refundTicket(1)` makes it refunded; order 1 is paid and `cancelBooking(1)` makes
it canceled; after that `confirmBooking(1)` makes the canceled order paid. -/
theorem status_calls_ignore_previous_status :
    (findOrderById orderedA01.orders 1).map Order.payment_status = some "pending"
    ∧ (refundTicket orderedA01 1 20).1 = true
    ∧ (findOrderById (refundTicket orderedA01 1 20).2.orders 1).map Order.payment_status
        = some "refunded"
    ∧ (findOrderById confirmedA01.orders 1).map Order.payment_status = some "paid"
    ∧ (cancelBooking confirmedA01 1 20).1 = true
    ∧ (findOrderById (cancelBooking confirmedA01 1 20).2.orders 1).map Order.payment_status
        = some "canceled"
    ∧ (confirmBooking (cancelBooking confirmedA01 1 20).2 1 30 sampleRand).1 = true
    ∧ (findOrderById (confirmBooking (cancelBooking confirmedA01 1 20).2 1 30 sampleRand).2.orders
        1).map Order.payment_status = some "paid" :=
  ⟨by rfl, by rfl, by rfl, by rfl, by rfl, by rfl, by rfl, by rfl⟩

/-- C24, amended. For an order id that is stored, each of `confirmBooking`, `cancelBooking`
and `refundTicket` succeeds and sets the status of the order found under the id to paid,
canceled and refunded respectively, whatever the status was, stamping `updated_at`; every
order with another id is unchanged at its position. -/
theorem status_set_whatever_it_was (bs : BookingService) (orderId now : Int) (rnd : Nat → Nat)
    (o : Order) (ho : findOrderById bs.orders orderId = some o) :
    ((confirmBooking bs orderId now rnd).1 = true
      ∧ StatusSet bs.orders (confirmBooking bs orderId now rnd).2.orders orderId "paid" now)
    ∧ ((cancelBooking bs orderId now).1 = true
      ∧ StatusSet bs.orders (cancelBooking bs orderId now).2.orders orderId "canceled" now)
    ∧ ((refundTicket bs orderId now).1 = true
      ∧ StatusSet bs.orders (refundTicket bs orderId now).2.orders orderId "refunded" now) := by
  refine ⟨?_, ?_, ?_⟩
  · rw [confirmBooking_eq_of_found _ _ _ _ o ho]
    exact ⟨rfl, statusSet_modifyOrder _ _ _ _⟩
  · rw [cancelBooking_eq_of_found _ _ _ o ho]
    refine ⟨rfl, ?_⟩
    show StatusSet bs.orders (modifyOrder _ (releaseHeldSeats bs o.showtime_id o.seat_ids).2.orders
      orderId) orderId "canceled" now
    rw [(releaseHeldSeats_orders_tickets bs o.showtime_id o.seat_ids).1]
    exact statusSet_modifyOrder _ _ _ _
  · have h : refundTicket bs orderId now
        = (true, { (releaseHeldSeats bs o.showtime_id o.seat_ids).2 with
            orders := modifyOrder (fun o => o.setPaymentStatus "refunded" now)
              (releaseHeldSeats bs o.showtime_id o.seat_ids).2.orders orderId
            tickets := (releaseHeldSeats bs o.showtime_id o.seat_ids).2.tickets.map
              (fun ticket => if ticket.order_id = orderId then { ticket with status := "canceled" }
                else ticket) }) := by
      simp [refundTicket, ho]
    rw [h]
    refine ⟨rfl, ?_⟩
    show StatusSet bs.orders (modifyOrder _ (releaseHeldSeats bs o.showtime_id o.seat_ids).2.orders
      orderId) orderId "refunded" now
    rw [(releaseHeldSeats_orders_tickets bs o.showtime_id o.seat_ids).1]
    exact statusSet_modifyOrder _ _ _ _

theorem status_set_whatever_it_was_witness :
    findOrderById orderedA01.orders 1 = some { Order.new 1 1 ["A01"] 0 with id := 1 }
    ∧ (refundTicket orderedA01 1 20).1 = true
    ∧ StatusSet orderedA01.orders (refundTicket orderedA01 1 20).2.orders 1 "refunded" 20 :=
  ⟨by rfl,
    (status_set_whatever_it_was orderedA01 1 20 sampleRand
      { Order.new 1 1 ["A01"] 0 with id := 1 } (by rfl)).2.2⟩

/-! ## Exchange after confirmation -/

/-- C26 on the code: order 1 lists seat A01 of showtime 1, the seat is held and the booking
confirmed, so A01 is sold under order 1.  `exchangeTicket(1, 1, {B01})` succeeds; the order
now lists B01, B01 is held, and A01 is still sold under order 1, not available. -/
theorem exchangeTicket_leaves_old_seat_sold :
    (findSeat (seatsAt confirmedA01.showtimeSeats 1) "A01").map
        (fun s => (s.status, s.order_id)) = some ("sold", 1)
    ∧ (exchangeTicket confirmedA01 1 1 ["B01"] 20).1 = true
    ∧ (findOrderById (exchangeTicket confirmedA01 1 1 ["B01"] 20).2.orders 1).map
        (fun o => (o.showtime_id, o.seat_ids, o.payment_status)) = some (1, ["B01"], "paid")
    ∧ (findSeat (seatsAt (exchangeTicket confirmedA01 1 1 ["B01"] 20).2.showtimeSeats 1)
        "B01").map (fun s => (s.status, s.hold_expires_at)) = some ("held", 320)
    ∧ (findSeat (seatsAt (exchangeTicket confirmedA01 1 1 ["B01"] 20).2.showtimeSeats 1)
        "A01").map (fun s => (s.status, s.order_id)) = some ("sold", 1) :=
  ⟨by rfl, by rfl, by rfl, by rfl, by rfl⟩

/-! ## Validity of the stored orders -/

theorem OrdersValid.of_orders_eq {bs bs' : BookingService} (h : OrdersValid bs)
    (e : bs'.orders = bs.orders) : OrdersValid bs' := by
  intro o ho
  rw [e] at ho
  exact h o ho

theorem OrdersValid.of_modify {bs bs' : BookingService} (h : OrdersValid bs)
    (f : Order → Order) (orderId : Int)
    (hf : ∀ o ∈ bs.orders, (f o).seat_ids ≠ [] ∧ 0 ≤ (f o).total_amount)
    (e : bs'.orders = modifyOrder f bs.orders orderId) : OrdersValid bs' := by
  intro o ho
  rw [e] at ho
  rcases modifyOrder_mem f bs.orders orderId o ho with h1 | ⟨o0, h0, rfl⟩
  · exact h o h1
  · exact hf o0 h0

theorem Order.isValid_seats_total (o : Order) (hv : o.isValid = true) :
    o.seat_ids ≠ [] ∧ 0 ≤ o.total_amount := by
  simp only [Order.isValid, Bool.and_eq_true, decide_eq_true_eq, Bool.not_eq_true',
    List.isEmpty_eq_false] at hv
  refine ⟨?_, hv.2⟩
  intro h
  rw [h] at hv
  simp at hv

theorem OrdersValid.apply_valid (bs : BookingService) (h : OrdersValid bs) (op : Op) :
    OrdersValid (op.apply bs) := by
  cases op with
  | createOrder order =>
    show OrdersValid (BookingCore.createOrder bs order).2
    unfold BookingCore.createOrder
    cases hv : order.isValid with
    | false => exact h
    | true =>
      cases hs : validateSeatSelection bs order.showtime_id order.seat_ids with
      | false => exact h
      | true =>
        intro o ho
        simp at ho
        rcases ho with ho | rfl
        · exact h o ho
        · exact Order.isValid_seats_total order hv
  | updateOrder orderId updatedOrder =>
    show OrdersValid (BookingCore.updateOrder bs orderId updatedOrder).2
    unfold BookingCore.updateOrder
    cases findOrderById bs.orders orderId with
    | none => exact h
    | some o =>
      cases hv : updatedOrder.isValid with
      | false => exact h
      | true =>
        exact h.of_modify (fun _ => { updatedOrder with id := orderId }) orderId
          (fun _ _ => Order.isValid_seats_total updatedOrder hv) rfl
  | holdSeats k seatIds holdTimeMinutes now =>
    exact h.of_orders_eq (holdSeats_orders bs k seatIds holdTimeMinutes now).1
  | releaseHeldSeats k seatIds =>
    exact h.of_orders_eq (releaseHeldSeats_orders_tickets bs k seatIds).1
  | releaseExpiredHolds now => exact h.of_orders_eq rfl
  | confirmBooking orderId now rnd =>
    show OrdersValid (BookingCore.confirmBooking bs orderId now rnd).2
    cases ho : findOrderById bs.orders orderId with
    | none =>
      have : BookingCore.confirmBooking bs orderId now rnd = (false, bs) := by
        simp [BookingCore.confirmBooking, ho]
      rw [this]
      exact h
    | some o =>
      rw [confirmBooking_eq_of_found _ _ _ _ o ho]
      exact h.of_modify (fun o => o.setPaymentStatus "paid" now) orderId
        (fun o ho => h o ho) rfl
  | cancelBooking orderId now =>
    show OrdersValid (BookingCore.cancelBooking bs orderId now).2
    cases ho : findOrderById bs.orders orderId with
    | none =>
      have : BookingCore.cancelBooking bs orderId now = (false, bs) := by
        simp [BookingCore.cancelBooking, ho]
      rw [this]
      exact h
    | some o =>
      rw [cancelBooking_eq_of_found _ _ _ o ho]
      refine h.of_modify (fun o => o.setPaymentStatus "canceled" now) orderId
        (fun o ho => h o ho) ?_
      show modifyOrder _ (BookingCore.releaseHeldSeats bs o.showtime_id o.seat_ids).2.orders orderId
        = _
      rw [(releaseHeldSeats_orders_tickets bs o.showtime_id o.seat_ids).1]
  | exchangeTicket orderId k seatIds now =>
    show OrdersValid (BookingCore.exchangeTicket bs orderId k seatIds now).2
    unfold BookingCore.exchangeTicket
    cases ho : findOrderById bs.orders orderId with
    | none => exact h
    | some o =>
      have hord : (BookingCore.holdSeats (BookingCore.releaseHeldSeats bs o.showtime_id
          o.seat_ids).2 k seatIds 5 now).2.orders = bs.orders := by
        rw [(holdSeats_orders _ k seatIds 5 now).1,
          (releaseHeldSeats_orders_tickets bs o.showtime_id o.seat_ids).1]
      cases hv : validateSeatSelection bs k seatIds with
      | false => exact h
      | true =>
        have hne : seatIds ≠ [] := ((validateSeatSelection_eq_true_iff _ _ _).1 hv).1
        dsimp only
        split_ifs
        · exact h
        · exact h.of_orders_eq hord
        · refine h.of_modify (fun o => { o with showtime_id := k, seat_ids := seatIds }) orderId
            (fun o ho => ⟨hne, (h o ho).2⟩) ?_
          show modifyOrder _ _ orderId = _
          rw [hord]
  | refundTicket orderId now =>
    show OrdersValid (BookingCore.refundTicket bs orderId now).2
    unfold BookingCore.refundTicket
    cases ho : findOrderById bs.orders orderId with
    | none => exact h
    | some o =>
      refine h.of_modify (fun o => o.setPaymentStatus "refunded" now) orderId
        (fun o ho => h o ho) ?_
      show modifyOrder _ (BookingCore.releaseHeldSeats bs o.showtime_id o.seat_ids).2.orders orderId
        = _
      rw [(releaseHeldSeats_orders_tickets bs o.showtime_id o.seat_ids).1]
  | issueTickets orderId now rnd =>
    show OrdersValid (BookingCore.issueTickets bs orderId now rnd).2
    unfold BookingCore.issueTickets
    cases findOrderById bs.orders orderId with
    | none => exact h
    | some o => exact h.of_orders_eq rfl
  | getSeatsForShowtime k =>
    show OrdersValid (BookingCore.getSeatsForShowtime bs k).2
    unfold BookingCore.getSeatsForShowtime
    dsimp only
    split_ifs <;> exact h.of_orders_eq rfl

theorem OrdersValid.run_valid (bs : BookingService) (h : OrdersValid bs) (ops : List Op) :
    OrdersValid (run bs ops) := by
  induction ops generalizing bs with
  | nil => exact h
  | cons op rest ih => exact ih (op.apply bs) (OrdersValid.apply_valid bs h op)

/-- C27, as stated, fails: `createOrder` on the fresh service accepts an order that lists
seat A01 twice and stores it with the duplicate. -/
theorem createOrder_stores_duplicate_seat_ids :
    (createOrder BookingService.init (Order.new 1 1 ["A01", "A01"] 0)).1 = true
    ∧ (createOrder BookingService.init (Order.new 1 1 ["A01", "A01"] 0)).2.orders.map
        Order.seat_ids = [["A01", "A01"]] :=
  ⟨by rfl, by rfl⟩

/-- C27, amended. After any sequence of public calls on the fresh service (createOrder,
updateOrder and exchangeTicket among them) every stored order has a non-empty seat id list
and a total amount that is not negative. -/
theorem stored_orders_nonempty_nonnegative (ops : List Op) :
    OrdersValid (run BookingService.init ops) :=
  OrdersValid.run_valid _ (by intro o ho; simp [BookingService.init, initializeSeatsForShowtime] at ho) ops

theorem stored_orders_nonempty_nonnegative_witness :
    OrdersValid (run BookingService.init
      [Op.createOrder (Order.new 1 1 ["A01", "A01"] 0), Op.exchangeTicket 1 1 ["B01"] 20]) :=
  stored_orders_nonempty_nonnegative
    [Op.createOrder (Order.new 1 1 ["A01", "A01"] 0), Op.exchangeTicket 1 1 ["B01"] 20]

/-! ## Tickets of an order -/

theorem issueLoop_by_order (orderId showtimeId now : Int) (rnd : Nat → Nat)
    (seatIds : List String) (i : Nat) (tickets : List Ticket) :
    ∃ issued, issueLoop orderId showtimeId now rnd seatIds i tickets = tickets ++ issued
      ∧ (∀ t ∈ issued, t.order_id = orderId)
      ∧ issued.map Ticket.seat_id = seatIds := by
  induction seatIds generalizing i tickets with
  | nil => exact ⟨[], by simp [issueLoop], by simp, rfl⟩
  | cons a rest ih =>
    obtain ⟨more, h1, h2, h3⟩ :=
      ih (i + 1) (tickets ++ [Ticket.issue orderId showtimeId a now (rnd i)])
    refine ⟨Ticket.issue orderId showtimeId a now (rnd i) :: more, ?_, ?_, ?_⟩
    · simp [issueLoop, h1]
    · intro t ht
      rcases List.mem_cons.1 ht with rfl | ht
      · rfl
      · exact h2 t ht
    · simp [h3, Ticket.issue]

theorem holdSeats_tickets (bs : BookingService) (showtimeId : Int) (seatIds : List String)
    (holdTimeMinutes now : Int) :
    (holdSeats bs showtimeId seatIds holdTimeMinutes now).2.tickets = bs.tickets := by
  cases hv : validateSeatSelection bs showtimeId seatIds with
  | false => rw [holdSeats_eq_of_invalid _ _ _ _ _ hv]
  | true => rw [holdSeats_eq_of_valid _ _ _ _ _ hv]

theorem exchangeTicket_tickets (bs : BookingService) (orderId : Int) (newShowtimeId : Int)
    (newSeatIds : List String) (now : Int) :
    (exchangeTicket bs orderId newShowtimeId newSeatIds now).2.tickets = bs.tickets := by
  unfold exchangeTicket
  cases ho : findOrderById bs.orders orderId with
  | none => rfl
  | some o =>
    have ht : (holdSeats (releaseHeldSeats bs o.showtime_id o.seat_ids).2 newShowtimeId
        newSeatIds 5 now).2.tickets = bs.tickets := by
      rw [holdSeats_tickets, (releaseHeldSeats_orders_tickets bs o.showtime_id o.seat_ids).2]
    dsimp only
    split_ifs
    · rfl
    · exact ht
    · exact ht

/-- C30, as stated, fails. Order 1 (seat A01) is paid; a second `confirmBooking(1)` leaves
it paid with two tickets for A01. And after `exchangeTicket(1, 1, {B01})` on the paid order
the order lists B01 while its only ticket is still the one for A01. -/
theorem repeated_confirm_duplicates_tickets :
    (findOrderById (confirmBooking confirmedA01 1 20 sampleRand).2.orders 1).map
        (fun o => (o.payment_status, o.seat_ids)) = some ("paid", ["A01"])
    ∧ (getTicketsByOrder (confirmBooking confirmedA01 1 20 sampleRand).2 1).map Ticket.seat_id
        = ["A01", "A01"]
    ∧ (findOrderById (exchangeTicket confirmedA01 1 1 ["B01"] 20).2.orders 1).map
        (fun o => (o.payment_status, o.seat_ids)) = some ("paid", ["B01"])
    ∧ (getTicketsByOrder (exchangeTicket confirmedA01 1 1 ["B01"] 20).2 1).map Ticket.seat_id
        = ["A01"] :=
  ⟨by rfl, by rfl, by rfl, by rfl⟩

/-- C30, amended. A successful `confirmBooking(orderId)` adds to the tickets returned by
`getTicketsByOrder(orderId)` one ticket per entry of the order's seat list, in list order,
behind the tickets the order already had, and changes the tickets of no other order;
`exchangeTicket` changes no ticket at all. -/
theorem confirmBooking_adds_ticket_per_listed_seat (bs : BookingService) (orderId now : Int)
    (rnd : Nat → Nat) (hok : (confirmBooking bs orderId now rnd).1 = true) :
    ∃ o, findOrderById bs.orders orderId = some o
      ∧ (getTicketsByOrder (confirmBooking bs orderId now rnd).2 orderId).map Ticket.seat_id
          = (getTicketsByOrder bs orderId).map Ticket.seat_id ++ o.seat_ids
      ∧ (∀ other, other ≠ orderId →
          getTicketsByOrder (confirmBooking bs orderId now rnd).2 other
            = getTicketsByOrder bs other)
      ∧ (∀ (j k : Int) (ids : List String) (t : Int),
          (exchangeTicket bs j k ids t).2.tickets = bs.tickets) := by
  cases ho : findOrderById bs.orders orderId with
  | none => simp [confirmBooking, ho] at hok
  | some o =>
    obtain ⟨issued, h1, h2, h3⟩ :=
      issueLoop_by_order orderId o.showtime_id now rnd o.seat_ids 0 bs.tickets
    refine ⟨o, rfl, ?_, ?_, fun j k ids t => exchangeTicket_tickets bs j k ids t⟩
    · have hf : issued.filter (fun ticket => ticket.order_id == orderId) = issued :=
        List.filter_eq_self.2 (fun t ht => by simp [h2 t ht])
      rw [confirmBooking_eq_of_found _ _ _ _ o ho]
      simp only [getTicketsByOrder]
      rw [h1, List.filter_append, List.map_append, hf, h3]
    · intro other hne
      have hf : issued.filter (fun ticket => ticket.order_id == other) = [] :=
        List.filter_eq_nil_iff.2 (fun t ht => by simp [h2 t ht, Ne.symm hne])
      rw [confirmBooking_eq_of_found _ _ _ _ o ho]
      simp only [getTicketsByOrder]
      rw [h1, List.filter_append, hf, List.append_nil]

theorem confirmBooking_adds_ticket_per_listed_seat_witness :
    (confirmBooking confirmedA01 1 20 sampleRand).1 = true
    ∧ ∃ o, findOrderById confirmedA01.orders 1 = some o
      ∧ (getTicketsByOrder (confirmBooking confirmedA01 1 20 sampleRand).2 1).map Ticket.seat_id
          = (getTicketsByOrder confirmedA01 1).map Ticket.seat_id ++ o.seat_ids
      ∧ (∀ other, other ≠ 1 →
          getTicketsByOrder (confirmBooking confirmedA01 1 20 sampleRand).2 other
            = getTicketsByOrder confirmedA01 other)
      ∧ (∀ (j k : Int) (ids : List String) (t : Int),
          (exchangeTicket confirmedA01 j k ids t).2.tickets = confirmedA01.tickets) :=
  ⟨by rfl, confirmBooking_adds_ticket_per_listed_seat confirmedA01 1 20 sampleRand (by rfl)⟩

/-! ## Limited update of a showtime -/

theorem modifyShowtime_eq_set (showtimes : List Showtime) (showtimeId : Int) (st : Showtime)
    (hfind : findShowtimeById showtimes showtimeId = some st) :
    ∃ i, showtimes[i]? = some st
      ∧ ∀ f : Showtime → Showtime, modifyShowtime f showtimes showtimeId = showtimes.set i (f st) := by
  induction showtimes with
  | nil => simp [findShowtimeById] at hfind
  | cons a rest ih =>
    by_cases ha : a.id = showtimeId
    · simp only [findShowtimeById, if_pos ha, Option.some.injEq] at hfind
      subst hfind
      exact ⟨0, by simp, fun f => by simp [modifyShowtime, ha]⟩
    · simp only [findShowtimeById, if_neg ha] at hfind
      obtain ⟨i, hi, hset⟩ := ih hfind
      exact ⟨i + 1, by simpa using hi, fun f => by simp [modifyShowtime, ha, hset f]⟩

theorem checkTimeConflictLoop_set (auditoriumId startTime endTime excludeShowtimeId : Int)
    (showtimes : List Showtime) (i : Nat) (st st' : Showtime) (hi : showtimes[i]? = some st)
    (hid : st'.id = st.id) (haud : st'.auditorium_id = st.auditorium_id)
    (hstatus : st'.status = st.status) (hstart : st'.start_time = st.start_time)
    (hend : st'.end_time = st.end_time) :
    checkTimeConflictLoop auditoriumId startTime endTime excludeShowtimeId (showtimes.set i st')
      = checkTimeConflictLoop auditoriumId startTime endTime excludeShowtimeId showtimes := by
  induction showtimes generalizing i with
  | nil => simp at hi
  | cons a rest ih =>
    cases i with
    | zero =>
      simp only [List.getElem?_cons_zero, Option.some.injEq] at hi
      subst hi
      simp only [List.set_cons_zero, checkTimeConflictLoop, Showtime.countsFor,
        Showtime.overlapsBuffered, hid, haud, hstatus, hstart, hend]
    | succ j =>
      simp only [List.getElem?_cons_succ] at hi
      simp only [List.set_cons_succ, checkTimeConflictLoop, ih j hi]

/-- C31. Limited update: when `updateShowtime` is called for a stored showtime that has
`seats_available < seats_total`, it returns true; the stored list changes only at the position
of that showtime, where base price and format become those of the update and every other
field stays; auditoriums and counters stay; and no conflict check changes its answer. -/
theorem updateShowtime_limited_frame (svc : ShowtimeService) (showtimeId : Int)
    (updatedShowtime : Showtime) (now : Int) (st : Showtime)
    (hfind : findShowtimeById svc.showtimes showtimeId = some st)
    (hsold : st.seats_available < st.seats_total) :
    ∃ i, svc.showtimes[i]? = some st
      ∧ updateShowtime svc showtimeId updatedShowtime now
          = (true, { svc with
              showtimes := svc.showtimes.set i
                { st with
                  base_price := updatedShowtime.base_price, format := updatedShowtime.format } })
      ∧ ∀ auditoriumId startTime endTime excludeShowtimeId : Int,
          checkTimeConflict (updateShowtime svc showtimeId updatedShowtime now).2 auditoriumId
              startTime endTime excludeShowtimeId
            = checkTimeConflict svc auditoriumId startTime endTime excludeShowtimeId := by
  obtain ⟨i, hi, hset⟩ := modifyShowtime_eq_set svc.showtimes showtimeId st hfind
  have heq : updateShowtime svc showtimeId updatedShowtime now
      = (true, { svc with
          showtimes := svc.showtimes.set i
            { st with
              base_price := updatedShowtime.base_price, format := updatedShowtime.format } }) := by
    unfold updateShowtime
    simp only [hfind, if_pos hsold]
    rw [hset]
  refine ⟨i, hi, heq, ?_⟩
  intro auditoriumId startTime endTime excludeShowtimeId
  rw [heq]
  exact checkTimeConflictLoop_set auditoriumId startTime endTime excludeShowtimeId svc.showtimes
    i st _ hi rfl rfl rfl rfl rfl

theorem updateShowtime_limited_frame_witness :
    ∃ i, (ShowtimeService.init 0).showtimes[i]?
        = some { Showtime.new 1 1 90000 91800 with
            id := 1, base_price := 12, seats_total := 100, seats_available := 85 }
      ∧ updateShowtime (ShowtimeService.init 0) 1 { lateShow with format := "3D" } 0
          = (true, { ShowtimeService.init 0 with
              showtimes := (ShowtimeService.init 0).showtimes.set i
                { Showtime.new 1 1 90000 91800 with
                  id := 1, seats_total := 100, seats_available := 85
                  base_price := ({ lateShow with format := "3D" } : Showtime).base_price
                  format := ({ lateShow with format := "3D" } : Showtime).format } })
      ∧ ∀ auditoriumId startTime endTime excludeShowtimeId : Int,
          checkTimeConflict
              (updateShowtime (ShowtimeService.init 0) 1 { lateShow with format := "3D" } 0).2
              auditoriumId startTime endTime excludeShowtimeId
            = checkTimeConflict (ShowtimeService.init 0) auditoriumId startTime endTime
                excludeShowtimeId :=
  updateShowtime_limited_frame (ShowtimeService.init 0) 1 { lateShow with format := "3D" } 0
    { Showtime.new 1 1 90000 91800 with
      id := 1, base_price := 12, seats_total := 100, seats_available := 85 }
    (by decide) (by decide)

/-! ## Conflict listing and conflict check -/

theorem Showtime.overlapsBuffered_of_overlapsWindow (startTime endTime : Int)
    (showtime : Showtime) (hwin : showtime.start_time ≤ showtime.end_time)
    (h : showtime.overlapsWindow startTime endTime = true) :
    showtime.overlapsBuffered startTime endTime = true := by
  simp only [Showtime.overlapsWindow, decide_eq_true_eq] at h
  simp only [Showtime.overlapsBuffered, decide_eq_true_eq]
  omega

/-- C36. A non-empty `getConflictingShowtimes` listing implies that `hasConflict` is true:
for every showtime list in which each showtime has start ≤ end and none has the id `-1` that
`hasConflict` passes for "no exclusion", and so, with no condition, in every state reached
from the initial service, where ids start at 1 and windows are not reversed. The converse
fails: a candidate starting 15 minutes after the only stored showtime is inside the buffer,
so the check is true, while the listing is empty. -/
theorem getConflictingShowtimes_nonempty_hasConflict (auditoriumId startTime endTime : Int) :
    (∀ svc : ShowtimeService,
        (∀ showtime ∈ svc.showtimes, showtime.start_time ≤ showtime.end_time) →
        (∀ showtime ∈ svc.showtimes, showtime.id ≠ -1) →
        getConflictingShowtimes svc auditoriumId startTime endTime ≠ [] →
        hasConflict svc auditoriumId startTime endTime = true)
    ∧ (∀ (now0 : Int) (ops : List ShowOp),
        getConflictingShowtimes (runShow (ShowtimeService.init now0) ops) auditoriumId
            startTime endTime ≠ [] →
        hasConflict (runShow (ShowtimeService.init now0) ops) auditoriumId startTime endTime
          = true)
    ∧ (hasConflict (ShowtimeService.withShowtimes [morningShow]) 1 44100 46800 = true
      ∧ getConflictingShowtimes (ShowtimeService.withShowtimes [morningShow]) 1 44100 46800
          = []) := by
  have key : ∀ svc : ShowtimeService,
      (∀ showtime ∈ svc.showtimes, showtime.start_time ≤ showtime.end_time) →
      (∀ showtime ∈ svc.showtimes, showtime.id ≠ -1) →
      getConflictingShowtimes svc auditoriumId startTime endTime ≠ [] →
      hasConflict svc auditoriumId startTime endTime = true := by
    intro svc hwin hids hne
    obtain ⟨st, hst⟩ := List.exists_mem_of_ne_nil _ hne
    simp only [getConflictingShowtimes, List.mem_filter, Bool.and_eq_true,
      decide_eq_true_eq] at hst
    obtain ⟨hmem, ⟨haud, hstatus⟩, hov⟩ := hst
    unfold hasConflict
    rw [checkTimeConflict_eq_true_iff]
    exact ⟨st, hmem, (st.countsFor_eq_true_iff _ _).2 ⟨haud, hids st hmem, hstatus⟩,
      st.overlapsBuffered_of_overlapsWindow _ _ (hwin st hmem) hov⟩
  refine ⟨key, ?_, by decide, by decide⟩
  intro now0 ops
  obtain ⟨hwin, _, hids, _, _⟩ := (SchedInv.init_sched now0).runShow_sched ops
  refine key _ (fun st hst => le_of_lt (hwin st hst)) (fun st hst => ?_)
  have := (hids st hst).1
  omega

theorem getConflictingShowtimes_nonempty_hasConflict_witness :
    getConflictingShowtimes
        (runShow (ShowtimeService.init 0) [ShowOp.createShowtime lateShow 0])
        1 (3 * 86400 + 600) (3 * 86400 + 1200) ≠ []
    ∧ hasConflict (runShow (ShowtimeService.init 0) [ShowOp.createShowtime lateShow 0])
        1 (3 * 86400 + 600) (3 * 86400 + 1200) = true :=
  ⟨by decide,
    (getConflictingShowtimes_nonempty_hasConflict 1 (3 * 86400 + 600) (3 * 86400 + 1200)).2.1
      0 [ShowOp.createShowtime lateShow 0] (by decide)⟩

/-! ## Ranking by occupancy -/

/-- On two elements the heap sort puts the element that `comp` orders first in front. -/
theorem sortHeap_makeHeap_pair {α : Type} (comp : α → α → Bool) (a b : α) :
    sortHeap comp (makeHeap comp [a, b]) = if comp a b then [a, b] else [b, a] := by
  cases h : comp a b <;>
    simp [makeHeap, sortHeap, siftDown, h, List.range, List.range.loop]

/-- C32 on the code: the two sample showtimes have occupancy 15 and 20 percent;
`getTopPerformingShowtimes(1)` returns showtime 1, the one with the lower occupancy, and
with limit 2 the lower one comes first. -/
theorem getTopPerformingShowtimes_returns_lowest :
    (ShowtimeService.init 0).showtimes.map (fun st => (st.id, st.getOccupancyRate))
      = [(1, 15), (2, 20)]
    ∧ (getTopPerformingShowtimes (ShowtimeService.init 0) 1).map
        (fun st => (st.id, st.getOccupancyRate)) = [(1, 15)]
    ∧ (getTopPerformingShowtimes (ShowtimeService.init 0) 2).map
        (fun st => (st.id, st.getOccupancyRate)) = [(1, 15), (2, 20)] := by
  have hrates : (ShowtimeService.init 0).showtimes.map (fun st => (st.id, st.getOccupancyRate))
      = [(1, 15), (2, 20)] := by
    simp only [ShowtimeService.init, Showtime.new, Showtime.getOccupancyRate, wrapInt32, List.map]
    norm_num
  have hsorted : heapSortShowtimes (ShowtimeService.init 0).showtimes false
      = (ShowtimeService.init 0).showtimes := by
    simp only [heapSortShowtimes, ShowtimeService.init, sortHeap_makeHeap_pair]
    simp only [Showtime.new, Showtime.getOccupancyRate, wrapInt32]
    norm_num
  refine ⟨hrates, ?_, ?_⟩
  · simp only [getTopPerformingShowtimes, hsorted]
    simp only [ShowtimeService.init, Showtime.new, Showtime.getOccupancyRate, wrapInt32]
    norm_num
  · simp only [getTopPerformingShowtimes, hsorted]
    simp only [ShowtimeService.init, Showtime.new, Showtime.getOccupancyRate, wrapInt32]
    norm_num

/-! ## Seat prices and seat types -/

/-- C33 on the code: in the fresh service seat I01 of showtime 1 is a VIP seat (multiplier
3/2) and seat A05 a Couple seat (multiplier 13/10), yet `calculateSeatPrice` charges both the
plain base price 10; seat C01 is Standard and is charged 13, the Couple rate. The order total
for I01 with 10 percent tax is 11. -/
theorem calculateSeatPrice_ignores_seat_type :
    (findSeat (seatsAt BookingService.init.showtimeSeats 1) "I01").map
        (fun s => (s.type, s.price_multiplier)) = some ("VIP", 3 / 2)
    ∧ calculateSeatPrice "I01" 10 = 10
    ∧ (findSeat (seatsAt BookingService.init.showtimeSeats 1) "A05").map
        (fun s => (s.type, s.price_multiplier)) = some ("Couple", 13 / 10)
    ∧ calculateSeatPrice "A05" 10 = 10
    ∧ (findSeat (seatsAt BookingService.init.showtimeSeats 1) "C01").map
        (fun s => (s.type, s.price_multiplier)) = some ("Standard", 1)
    ∧ calculateSeatPrice "C01" 10 = 13
    ∧ calculateOrderTotal 1 ["I01"] 10 (1 / 10) 0 = 11 := by
  refine ⟨by rfl, ?_, by rfl, ?_, by rfl, ?_, ?_⟩
  · rw [calculateSeatPrice, if_neg (by decide), if_neg (by decide)]
  · rw [calculateSeatPrice, if_neg (by decide), if_neg (by decide)]
  · rw [calculateSeatPrice, if_neg (by decide), if_pos (by decide)]
    norm_num
  · simp only [calculateOrderTotal, List.foldl]
    rw [calculateSeatPrice, if_neg (by decide), if_neg (by decide)]
    norm_num

/-! ## Exchange: the hold after the release -/

theorem findSeat_updateFirst_of_available (p : Seat → Bool) (f : Seat → Seat)
    (hp : ∀ t, p t = true → t.status = "held") (hf : ∀ t, (f t).seat_id = t.seat_id)
    (seats : List Seat) (x : String) (s : Seat) (hs : findSeat seats x = some s)
    (hav : s.isAvailable = true) : findSeat (updateFirst p f seats) x = some s := by
  induction seats with
  | nil => simp [findSeat] at hs
  | cons a rest ih =>
    by_cases ha : a.seat_id = x
    · simp only [findSeat, ha, beq_self_eq_true, if_true, Option.some.injEq] at hs
      subst hs
      have hnp : ¬ p a = true := by
        intro h
        have h1 := hp a h
        simp only [Seat.isAvailable, beq_iff_eq] at hav
        rw [h1] at hav
        exact absurd hav (by decide)
      simp [updateFirst, hnp, findSeat, ha]
    · have hne : (a.seat_id == x) = false := by simpa using ha
      simp only [findSeat, hne, Bool.false_eq_true, if_false] at hs
      by_cases hpa : p a = true
      · have hne2 : ((f a).seat_id == x) = false := by rw [hf]; exact hne
        simp [updateFirst, hpa, findSeat, hne2, hs]
      · simp [updateFirst, hpa, findSeat, hne, ih hs]

theorem findSeat_releaseLoop_of_available (seats : List Seat) (seatIds : List String)
    (x : String) (s : Seat) (hs : findSeat seats x = some s) (hav : s.isAvailable = true) :
    findSeat (releaseLoop seats seatIds) x = some s := by
  induction seatIds generalizing seats with
  | nil => exact hs
  | cons a rest ih =>
    simp only [releaseLoop]
    apply ih
    exact findSeat_updateFirst_of_available _ Seat.release
      (fun t ht => by
        simp only [Bool.and_eq_true, beq_iff_eq] at ht
        exact ht.2)
      (fun _ => rfl) seats x s hs hav

/-- A selection that validates still validates after any `releaseHeldSeats` call. -/
theorem validateSeatSelection_after_release (bs : BookingService) (oldShowtimeId : Int)
    (oldSeatIds : List String) (showtimeId : Int) (seatIds : List String)
    (hv : validateSeatSelection bs showtimeId seatIds = true) :
    validateSeatSelection (releaseHeldSeats bs oldShowtimeId oldSeatIds).2 showtimeId seatIds
      = true := by
  obtain ⟨hne, seats, hseats, hall⟩ := (validateSeatSelection_eq_true_iff _ _ _).1 hv
  rw [validateSeatSelection_eq_true_iff]
  refine ⟨hne, ?_⟩
  by_cases hk : showtimeId = oldShowtimeId
  · subst hk
    rw [releaseHeldSeats_eq_of_some _ _ _ seats hseats]
    refine ⟨releaseLoop seats oldSeatIds, setSeats_same _ _ _, ?_⟩
    intro x hx
    obtain ⟨s, hs, hav⟩ := hall x hx
    exact ⟨s, findSeat_releaseLoop_of_available seats oldSeatIds x s hs hav, hav⟩
  · refine ⟨seats, ?_, hall⟩
    rw [releaseHeldSeats_other _ _ _ _ hk]
    exact hseats

/-- C34. `exchangeTicket` returns false exactly when the order is unknown or the new seats
fail the initial validation, and then the state is unchanged; when the order exists and the
validation succeeds, the hold made after releasing the old seats succeeds too. -/
theorem exchangeTicket_fails_closed (bs : BookingService) (orderId newShowtimeId : Int)
    (newSeatIds : List String) (now : Int) :
    ((exchangeTicket bs orderId newShowtimeId newSeatIds now).1 = false ↔
        findOrderById bs.orders orderId = none
          ∨ validateSeatSelection bs newShowtimeId newSeatIds = false)
    ∧ ((exchangeTicket bs orderId newShowtimeId newSeatIds now).1 = false →
        (exchangeTicket bs orderId newShowtimeId newSeatIds now).2 = bs)
    ∧ (∀ o, findOrderById bs.orders orderId = some o →
        validateSeatSelection bs newShowtimeId newSeatIds = true →
        (holdSeats (releaseHeldSeats bs o.showtime_id o.seat_ids).2 newShowtimeId newSeatIds
          5 now).1 = true) := by
  have hhold : ∀ o : Order, validateSeatSelection bs newShowtimeId newSeatIds = true →
      (holdSeats (releaseHeldSeats bs o.showtime_id o.seat_ids).2 newShowtimeId newSeatIds
        5 now).1 = true := by
    intro o hv
    rw [holdSeats_fst]
    exact validateSeatSelection_after_release bs o.showtime_id o.seat_ids _ _ hv
  cases ho : findOrderById bs.orders orderId with
  | none =>
    have h : exchangeTicket bs orderId newShowtimeId newSeatIds now = (false, bs) := by
      simp [exchangeTicket, ho]
    rw [h]
    exact ⟨by simp, fun _ => rfl, fun o ho' => by cases ho'⟩
  | some o =>
    cases hv : validateSeatSelection bs newShowtimeId newSeatIds with
    | false =>
      have h : exchangeTicket bs orderId newShowtimeId newSeatIds now = (false, bs) := by
        simp [exchangeTicket, ho, hv]
      rw [h]
      exact ⟨by simp, fun _ => rfl, fun _ _ hv' => by cases hv'⟩
    | true =>
      have hh := hhold o hv
      have h : (exchangeTicket bs orderId newShowtimeId newSeatIds now).1 = true := by
        simp [exchangeTicket, ho, hv, hh]
      rw [h]
      exact ⟨by simp, fun hf => absurd hf (by decide), fun o' ho' _ => by cases ho'; exact hh⟩

theorem exchangeTicket_fails_closed_witness :
    validateSeatSelection confirmedA01 1 ["A01"] = false
    ∧ (exchangeTicket confirmedA01 1 1 ["A01"] 20).1 = false
    ∧ (exchangeTicket confirmedA01 1 1 ["A01"] 20).2 = confirmedA01 :=
  ⟨by rfl,
    (exchangeTicket_fails_closed confirmedA01 1 1 ["A01"] 20).1.2 (Or.inr (by rfl)),
    (exchangeTicket_fails_closed confirmedA01 1 1 ["A01"] 20).2.1
      ((exchangeTicket_fails_closed confirmedA01 1 1 ["A01"] 20).1.2 (Or.inr (by rfl)))⟩

/-! ## Order ids -/

theorem apply_keeps_order_ids (bs : BookingService) (op : Op) :
    (∃ order, op = Op.createOrder order)
    ∨ ((op.apply bs).orders.map Order.id = bs.orders.map Order.id
      ∧ (op.apply bs).nextOrderId = bs.nextOrderId) := by
  cases op with
  | createOrder order => exact Or.inl ⟨order, rfl⟩
  | updateOrder orderId updatedOrder =>
    right
    show (BookingCore.updateOrder bs orderId updatedOrder).2.orders.map Order.id = _
      ∧ (BookingCore.updateOrder bs orderId updatedOrder).2.nextOrderId = _
    unfold BookingCore.updateOrder
    cases findOrderById bs.orders orderId with
    | none => exact ⟨rfl, rfl⟩
    | some o =>
      cases hv : updatedOrder.isValid with
      | false => exact ⟨rfl, rfl⟩
      | true =>
        exact ⟨modifyOrder_map_id_of_eq (fun _ => { updatedOrder with id := orderId }) orderId
          (fun o ho => ho.symm) bs.orders, rfl⟩
  | holdSeats k seatIds holdTimeMinutes now =>
    right
    have h := holdSeats_orders bs k seatIds holdTimeMinutes now
    exact ⟨congrArg (List.map Order.id) h.1, h.2⟩
  | releaseHeldSeats k seatIds =>
    right
    exact ⟨congrArg (List.map Order.id) (releaseHeldSeats_orders_tickets bs k seatIds).1,
      releaseHeldSeats_nextOrderId bs k seatIds⟩
  | releaseExpiredHolds now => exact Or.inr ⟨rfl, rfl⟩
  | confirmBooking orderId now rnd =>
    right
    show (BookingCore.confirmBooking bs orderId now rnd).2.orders.map Order.id = _
      ∧ (BookingCore.confirmBooking bs orderId now rnd).2.nextOrderId = _
    cases ho : findOrderById bs.orders orderId with
    | none =>
      have : BookingCore.confirmBooking bs orderId now rnd = (false, bs) := by
        simp [BookingCore.confirmBooking, ho]
      rw [this]
      exact ⟨rfl, rfl⟩
    | some o =>
      rw [confirmBooking_eq_of_found _ _ _ _ o ho]
      exact ⟨modifyOrder_map_id (fun o => o.setPaymentStatus "paid" now) (fun _ => rfl) _ _, rfl⟩
  | cancelBooking orderId now =>
    right
    show (BookingCore.cancelBooking bs orderId now).2.orders.map Order.id = _
      ∧ (BookingCore.cancelBooking bs orderId now).2.nextOrderId = _
    cases ho : findOrderById bs.orders orderId with
    | none =>
      have : BookingCore.cancelBooking bs orderId now = (false, bs) := by
        simp [BookingCore.cancelBooking, ho]
      rw [this]
      exact ⟨rfl, rfl⟩
    | some o =>
      rw [cancelBooking_eq_of_found _ _ _ o ho]
      refine ⟨?_, releaseHeldSeats_nextOrderId bs _ _⟩
      show (modifyOrder _ (BookingCore.releaseHeldSeats bs o.showtime_id o.seat_ids).2.orders
        orderId).map Order.id = _
      rw [(releaseHeldSeats_orders_tickets bs o.showtime_id o.seat_ids).1]
      exact modifyOrder_map_id (fun o => o.setPaymentStatus "canceled" now) (fun _ => rfl) _ _
  | exchangeTicket orderId k seatIds now =>
    right
    show (BookingCore.exchangeTicket bs orderId k seatIds now).2.orders.map Order.id = _
      ∧ (BookingCore.exchangeTicket bs orderId k seatIds now).2.nextOrderId = _
    unfold BookingCore.exchangeTicket
    cases ho : findOrderById bs.orders orderId with
    | none => exact ⟨rfl, rfl⟩
    | some o =>
      have hord : (BookingCore.holdSeats (BookingCore.releaseHeldSeats bs o.showtime_id
          o.seat_ids).2 k seatIds 5 now).2.orders = bs.orders := by
        rw [(holdSeats_orders _ k seatIds 5 now).1,
          (releaseHeldSeats_orders_tickets bs o.showtime_id o.seat_ids).1]
      have hnext : (BookingCore.holdSeats (BookingCore.releaseHeldSeats bs o.showtime_id
          o.seat_ids).2 k seatIds 5 now).2.nextOrderId = bs.nextOrderId := by
        rw [(holdSeats_orders _ k seatIds 5 now).2, releaseHeldSeats_nextOrderId]
      dsimp only
      split_ifs
      · exact ⟨rfl, rfl⟩
      · exact ⟨congrArg (List.map Order.id) hord, hnext⟩
      · refine ⟨?_, hnext⟩
        show (modifyOrder _ _ orderId).map Order.id = _
        rw [hord]
        exact modifyOrder_map_id (fun o => { o with showtime_id := k, seat_ids := seatIds })
          (fun _ => rfl) _ _
  | refundTicket orderId now =>
    right
    show (BookingCore.refundTicket bs orderId now).2.orders.map Order.id = _
      ∧ (BookingCore.refundTicket bs orderId now).2.nextOrderId = _
    unfold BookingCore.refundTicket
    cases ho : findOrderById bs.orders orderId with
    | none => exact ⟨rfl, rfl⟩
    | some o =>
      refine ⟨?_, releaseHeldSeats_nextOrderId bs _ _⟩
      show (modifyOrder _ (BookingCore.releaseHeldSeats bs o.showtime_id o.seat_ids).2.orders
        orderId).map Order.id = _
      rw [(releaseHeldSeats_orders_tickets bs o.showtime_id o.seat_ids).1]
      exact modifyOrder_map_id (fun o => o.setPaymentStatus "refunded" now) (fun _ => rfl) _ _
  | issueTickets orderId now rnd =>
    right
    show (BookingCore.issueTickets bs orderId now rnd).2.orders.map Order.id = _
      ∧ (BookingCore.issueTickets bs orderId now rnd).2.nextOrderId = _
    unfold BookingCore.issueTickets
    cases findOrderById bs.orders orderId <;> exact ⟨rfl, rfl⟩
  | getSeatsForShowtime k =>
    right
    show (BookingCore.getSeatsForShowtime bs k).2.orders.map Order.id = _
      ∧ (BookingCore.getSeatsForShowtime bs k).2.nextOrderId = _
    unfold BookingCore.getSeatsForShowtime
    dsimp only
    split_ifs <;> exact ⟨rfl, rfl⟩

theorem createOrder_cases (bs : BookingService) (order : Order) :
    createOrder bs order = (false, bs)
    ∨ createOrder bs order
        = (true, { bs with
            orders := bs.orders ++ [{ order with id := bs.nextOrderId }]
            nextOrderId := bs.nextOrderId + 1 }) := by
  unfold createOrder
  split_ifs
  · exact Or.inl rfl
  · exact Or.inl rfl
  · exact Or.inr rfl

theorem OrderIdsInv.apply_order_ids (bs : BookingService) (h : OrderIdsInv bs) (op : Op) :
    OrderIdsInv (op.apply bs) := by
  rcases apply_keeps_order_ids bs op with ⟨order, rfl⟩ | ⟨hids, hnext⟩
  · show OrderIdsInv (createOrder bs order).2
    rcases createOrder_cases bs order with hc | hc
    · rw [hc]
      exact h
    · rw [hc]
      obtain ⟨h1, h2, h3⟩ := h
      refine ⟨by show 1 ≤ bs.nextOrderId + 1; omega, ?_, ?_⟩
      · intro x hx
        simp only [List.map_append, List.map_cons, List.map_nil, List.mem_append,
          List.mem_singleton] at hx
        show 1 ≤ x ∧ x < bs.nextOrderId + 1
        rcases hx with hx | rfl
        · have := h2 x hx
          omega
        · exact ⟨h1, by omega⟩
      · simp only [List.map_append, List.map_cons, List.map_nil]
        rw [List.pairwise_append]
        refine ⟨h3, List.pairwise_singleton _ _, ?_⟩
        intro a ha b hb
        rw [List.mem_singleton] at hb
        subst hb
        exact (h2 a ha).2
  · unfold OrderIdsInv
    rw [hids, hnext]
    exact h

theorem OrderIdsInv.run_order_ids (bs : BookingService) (h : OrderIdsInv bs) (ops : List Op) :
    OrderIdsInv (run bs ops) := by
  induction ops generalizing bs with
  | nil => exact h
  | cons op rest ih => exact ih (op.apply bs) (OrderIdsInv.apply_order_ids bs h op)

theorem OrderIdsInv.init_order_ids : OrderIdsInv BookingService.init := by
  refine ⟨?_, ?_, ?_⟩ <;> simp [BookingService.init, initializeSeatsForShowtime]

/-- C37. In every state reached from the fresh service by public calls (createOrder,
updateOrder, confirmBooking, cancelBooking, exchangeTicket and refundTicket among them) the
stored order ids increase strictly along the order vector, so they are pairwise distinct;
each id is at least 1 and below `nextOrderId`; a failed `createOrder` leaves the state, the
counter included, unchanged; a successful one appends the order under the id `nextOrderId`;
and `updateOrder` leaves the id at every position of the order vector unchanged. -/
theorem order_ids_unique_and_stable (ops : List Op) :
    ((run BookingService.init ops).orders.map Order.id).Pairwise (fun a b => a < b)
    ∧ ((run BookingService.init ops).orders.map Order.id).Nodup
    ∧ (∀ x ∈ (run BookingService.init ops).orders.map Order.id,
        1 ≤ x ∧ x < (run BookingService.init ops).nextOrderId)
    ∧ (∀ order, (createOrder (run BookingService.init ops) order).1 = false →
        (createOrder (run BookingService.init ops) order).2 = run BookingService.init ops)
    ∧ (∀ order, (createOrder (run BookingService.init ops) order).1 = true →
        (createOrder (run BookingService.init ops) order).2.orders
            = (run BookingService.init ops).orders
              ++ [{ order with id := (run BookingService.init ops).nextOrderId }]
          ∧ (createOrder (run BookingService.init ops) order).2.nextOrderId
            = (run BookingService.init ops).nextOrderId + 1)
    ∧ (∀ orderId updatedOrder,
        (updateOrder (run BookingService.init ops) orderId updatedOrder).2.orders.map Order.id
          = (run BookingService.init ops).orders.map Order.id) := by
  obtain ⟨_, h2, h3⟩ := OrderIdsInv.run_order_ids _ OrderIdsInv.init_order_ids ops
  refine ⟨h3, ?_, h2, ?_, ?_, ?_⟩
  · exact h3.imp (fun hab => ne_of_lt hab)
  · intro order hf
    rcases createOrder_cases (run BookingService.init ops) order with hc | hc
    · rw [hc]
    · rw [hc] at hf
      cases hf
  · intro order ht
    rcases createOrder_cases (run BookingService.init ops) order with hc | hc
    · rw [hc] at ht
      cases ht
    · rw [hc]
      exact ⟨rfl, rfl⟩
  · intro orderId updatedOrder
    rcases apply_keeps_order_ids (run BookingService.init ops) (Op.updateOrder orderId updatedOrder)
      with ⟨order, he⟩ | ⟨hids, _⟩
    · cases he
    · exact hids

theorem order_ids_unique_and_stable_witness :
    ((run BookingService.init
        [Op.createOrder (Order.new 1 1 ["A01"] 0), Op.createOrder (Order.new 0 1 ["A02"] 0),
          Op.createOrder (Order.new 2 1 ["A02"] 0),
          Op.updateOrder 1 (Order.new 5 2 ["B01"] 7)]).orders.map Order.id) = [1, 2]
    ∧ ((run BookingService.init
        [Op.createOrder (Order.new 1 1 ["A01"] 0), Op.createOrder (Order.new 0 1 ["A02"] 0),
          Op.createOrder (Order.new 2 1 ["A02"] 0),
          Op.updateOrder 1 (Order.new 5 2 ["B01"] 7)]).orders.map Order.id).Nodup :=
  ⟨by rfl,
    (order_ids_unique_and_stable
      [Op.createOrder (Order.new 1 1 ["A01"] 0), Op.createOrder (Order.new 0 1 ["A02"] 0),
        Op.createOrder (Order.new 2 1 ["A02"] 0),
        Op.updateOrder 1 (Order.new 5 2 ["B01"] 7)]).2.1⟩

/-! ## The generated seat layout -/

theorem initRow_closed_form (rows : Int) (total row : Nat) (fuel seatNum : Nat)
    (seats : List Seat) (hfuel : fuel + seatNum = 11) (hnum : 1 ≤ seatNum)
    (hlen : seats.length = 10 * row + (seatNum - 1)) :
    initRow rows (total : Int) row fuel seatNum seats
      = seats ++ (List.range' seats.length (min fuel (total - seats.length))).map
          (generatedSeat rows) := by
  induction fuel generalizing seatNum seats with
  | zero => simp [initRow]
  | succ n ih =>
    unfold initRow
    by_cases hc : seatNum ≤ 10 ∧ ((seats.length : Nat) : Int) < (total : Int)
    · rw [if_pos hc]
      dsimp only
      have hlt : seats.length < total := by exact_mod_cast hc.2
      have hdiv : seats.length / 10 = row := by omega
      have hmod : seats.length % 10 + 1 = seatNum := by omega
      have hnew : Seat.new
          (String.singleton (Char.ofNat ((65 + row) % 256)) ++ padZero 2 (toString seatNum))
          (if (row : Int) ≥ rows - 2 then "VIP"
            else if seatNum = 5 ∨ seatNum = 6 then "Couple" else "Standard")
          = generatedSeat rows seats.length := by
        unfold generatedSeat
        rw [hdiv, hmod]
      rw [hnew, ih (seatNum + 1) (seats ++ [generatedSeat rows seats.length]) (by omega)
        (by omega) (by simp; omega)]
      have hmin : min (n + 1) (total - seats.length)
          = min n (total - (seats.length + 1)) + 1 := by omega
      rw [hmin, List.range'_succ]
      simp
    · rw [if_neg hc]
      have hge : total ≤ seats.length := by
        by_contra hlt
        exact hc ⟨by omega, by exact_mod_cast Nat.lt_of_not_le hlt⟩
      have hzero : min (n + 1) (total - seats.length) = 0 := by omega
      rw [hzero]
      simp

theorem initRows_closed_form (rows : Int) (total nrows : Nat) (hrows : rows = (nrows : Int))
    (hn : nrows = (total + 9) / 10) (fuel row : Nat) (seats : List Seat)
    (hfuel : fuel + row = nrows) (hlen : seats.length = min (10 * row) total) :
    initRows rows (total : Int) fuel row seats
      = seats ++ (List.range' seats.length (total - seats.length)).map (generatedSeat rows) := by
  induction fuel generalizing row seats with
  | zero =>
    have : total - seats.length = 0 := by omega
    simp [initRows, this]
  | succ n ih =>
    unfold initRows
    have hc : (row : Int) < rows := by rw [hrows]; exact_mod_cast (by omega : row < nrows)
    rw [if_pos hc]
    have hlen10 : seats.length = 10 * row + (1 - 1) := by omega
    rw [initRow_closed_form rows total row 10 1 seats (by omega) (by omega) hlen10]
    rw [ih (row + 1) _ (by omega) (by simp; omega)]
    rw [List.append_assoc, ← List.map_append]
    congr 2
    have h1 : (seats ++ (List.range' seats.length (min 10 (total - seats.length))).map
        (generatedSeat rows)).length = seats.length + min 10 (total - seats.length) := by simp
    rw [h1]
    have h2 : total - seats.length
        = (total - (seats.length + min 10 (total - seats.length)))
          + min 10 (total - seats.length) := by omega
    conv_rhs => rw [h2]
    rw [← List.range'_append_1]

theorem initializeSeatsForShowtime_closed_form (bs : BookingService) (showtimeId : Int)
    (total : Nat) :
    (initializeSeatsForShowtime bs showtimeId (total : Int)).showtimeSeats showtimeId
      = some ((List.range total).map
          (generatedSeat (Int.tdiv ((total : Int) + 10 - 1) 10))) := by
  have hrows : Int.tdiv ((total : Int) + 10 - 1) 10 = (((total + 9) / 10 : Nat) : Int) := by
    rw [Int.tdiv_eq_ediv (by omega) (by omega)]
    omega
  unfold initializeSeatsForShowtime
  dsimp only
  rw [setSeats_same]
  congr 1
  rw [initRows_closed_form _ total ((total + 9) / 10) hrows rfl _ 0 [] (by rw [hrows]; omega)
    (by simp)]
  simp [List.range_eq_range']

theorem Seat.new_seat_id (seatId seatType : String) :
    (Seat.new seatId seatType).seat_id = seatId := by
  unfold Seat.new Seat.setSeatId
  dsimp only
  split_ifs <;> rfl

theorem Seat.new_hold_expires_at (seatId seatType : String) :
    (Seat.new seatId seatType).hold_expires_at = 0 := by
  unfold Seat.new Seat.setSeatId
  dsimp only
  split_ifs <;> rfl

theorem padZero_two_digits :
    ∀ k < 10, padZero 2 (toString (k + 1))
      = String.mk [Char.ofNat (48 + (k + 1) / 10), Char.ofNat (48 + (k + 1) % 10)] := by
  decide

theorem generatedSeat_seat_id (rows : Int) (i : Nat) (hi : i < 260) :
    (generatedSeat rows i).seat_id = layoutSeatId i := by
  unfold generatedSeat layoutSeatId
  rw [Seat.new_seat_id]
  have h1 : (65 + i / 10) % 256 = 65 + i / 10 := by omega
  rw [h1, padZero_two_digits (i % 10) (by omega)]
  rfl

theorem Char.toNat_ofNat_small : ∀ n < 128, (Char.ofNat n).toNat = n := by
  decide

theorem layoutSeatId_injective (i j : Nat) (hi : i < 260) (hj : j < 260)
    (h : layoutSeatId i = layoutSeatId j) : i = j := by
  have hl : [Char.ofNat (65 + i / 10), Char.ofNat (48 + (i % 10 + 1) / 10),
        Char.ofNat (48 + (i % 10 + 1) % 10)]
      = [Char.ofNat (65 + j / 10), Char.ofNat (48 + (j % 10 + 1) / 10),
        Char.ofNat (48 + (j % 10 + 1) % 10)] := congrArg String.data h
  simp only [List.cons.injEq, and_true] at hl
  obtain ⟨h1, h2, h3⟩ := hl
  have e1 := congrArg Char.toNat h1
  have e2 := congrArg Char.toNat h2
  have e3 := congrArg Char.toNat h3
  rw [Char.toNat_ofNat_small _ (by omega), Char.toNat_ofNat_small _ (by omega)] at e1 e2 e3
  omega

/-- C35. For `0 ≤ totalSeats ≤ 260`, `initializeSeatsForShowtime(showtimeId, totalSeats)`
stores for the showtime exactly `totalSeats` seats; the seat at position `i` has the id made
of the row letter `'A' + i / 10` and the two-digit number `i % 10 + 1` (01 to 10), so the
ids are pairwise distinct; every seat is available with hold expiry 0 and order id 0; the
inventory of every other showtime is unchanged. -/
theorem initializeSeatsForShowtime_layout (bs : BookingService) (showtimeId totalSeats : Int)
    (hmin : 0 ≤ totalSeats) (hmax : totalSeats ≤ 260) :
    ∃ seats, (initializeSeatsForShowtime bs showtimeId totalSeats).showtimeSeats showtimeId
        = some seats
      ∧ (seats.length : Int) = totalSeats
      ∧ seats.map Seat.seat_id = (List.range totalSeats.toNat).map layoutSeatId
      ∧ (seats.map Seat.seat_id).Nodup
      ∧ (∀ s ∈ seats, s.status = "available" ∧ s.hold_expires_at = 0 ∧ s.order_id = 0)
      ∧ (∀ k, k ≠ showtimeId →
          (initializeSeatsForShowtime bs showtimeId totalSeats).showtimeSeats k
            = bs.showtimeSeats k) := by
  obtain ⟨total, rfl⟩ := Int.eq_ofNat_of_zero_le hmin
  have htot : total ≤ 260 := by exact_mod_cast hmax
  have hids : ((List.range total).map
      (generatedSeat (Int.tdiv ((total : Int) + 10 - 1) 10))).map Seat.seat_id
        = (List.range total).map layoutSeatId := by
    rw [List.map_map]
    apply List.map_congr_left
    intro i hi
    rw [List.mem_range] at hi
    exact generatedSeat_seat_id _ i (by omega)
  refine ⟨_, initializeSeatsForShowtime_closed_form bs showtimeId total, by simp, ?_, ?_, ?_, ?_⟩
  · simpa using hids
  · rw [hids]
    apply List.Nodup.map_on _ (List.nodup_range total)
    intro i hi j hj h
    rw [List.mem_range] at hi hj
    exact layoutSeatId_injective i j (by omega) (by omega) h
  · intro s hs
    obtain ⟨i, _, rfl⟩ := List.mem_map.1 hs
    exact ⟨Seat.new_status _ _, Seat.new_hold_expires_at _ _, Seat.new_order_id _ _⟩
  · intro k hk
    unfold initializeSeatsForShowtime
    exact setSeats_other _ _ _ _ hk

theorem initializeSeatsForShowtime_layout_witness :
    ∃ seats, (initializeSeatsForShowtime BookingService.init 7 12).showtimeSeats 7 = some seats
      ∧ (seats.length : Int) = 12
      ∧ seats.map Seat.seat_id = (List.range (12 : Int).toNat).map layoutSeatId
      ∧ (seats.map Seat.seat_id).Nodup
      ∧ (∀ s ∈ seats, s.status = "available" ∧ s.hold_expires_at = 0 ∧ s.order_id = 0)
      ∧ (∀ k, k ≠ 7 →
          (initializeSeatsForShowtime BookingService.init 7 12).showtimeSeats k
            = BookingService.init.showtimeSeats k) :=
  initializeSeatsForShowtime_layout BookingService.init 7 12 (by decide) (by decide)

/-! ## Refunds of payments -/

theorem Payment.refundPayment_eq (p : Payment) (now : Int) :
    p.refundPayment now
      = if p.status ≠ "completed" then (false, p) else (true, p.setStatus "refunded" now) := by
  unfold Payment.refundPayment
  cases p.details <;> rfl

theorem Payment.refundPayment_id (p : Payment) (now : Int) :
    (p.refundPayment now).2.id = p.id := by
  rw [Payment.refundPayment_eq]
  split_ifs <;> rfl

theorem Payment.refundPayment_not_completed (p : Payment) (now : Int) :
    (p.refundPayment now).2.status ≠ "completed" := by
  rw [Payment.refundPayment_eq]
  split_ifs with h
  · exact h
  · simp [Payment.setStatus]

theorem Payment.refundPayment_of_not_completed (p : Payment) (now : Int)
    (h : p.status ≠ "completed") : p.refundPayment now = (false, p) := by
  rw [Payment.refundPayment_eq, if_pos h]

theorem findPaymentById_congr (objects objects' : Nat → Payment)
    (hid : ∀ a, (objects' a).id = (objects a).id) (payments : List Nat) (paymentId : Int) :
    findPaymentById objects' payments paymentId = findPaymentById objects payments paymentId := by
  induction payments with
  | nil => rfl
  | cons ptr rest ih => simp only [findPaymentById, hid, ih]

/-- What one `PaymentService::refundPayment` call keeps: the pointer vector, the id of every
object, and the fact that an object is not completed. -/
theorem PaymentService.refundPayment_keeps (objects : Nat → Payment) (svc : PaymentService)
    (paymentId now : Int) (date : String) :
    (PaymentService.refundPayment objects svc paymentId now date).2.2.payments = svc.payments
    ∧ (∀ a, ((PaymentService.refundPayment objects svc paymentId now date).2.1 a).id
        = (objects a).id)
    ∧ (∀ a, (objects a).status ≠ "completed" →
        ((PaymentService.refundPayment objects svc paymentId now date).2.1 a).status
          ≠ "completed") := by
  unfold PaymentService.refundPayment
  cases hf : findPaymentById objects svc.payments paymentId with
  | none => exact ⟨rfl, fun _ => rfl, fun _ h => h⟩
  | some ptr =>
    have hid : ∀ a, (Function.update objects ptr ((objects ptr).refundPayment now).2 a).id
        = (objects a).id := by
      intro a
      by_cases ha : a = ptr
      · subst ha
        rw [Function.update_same, Payment.refundPayment_id]
      · rw [Function.update_noteq ha]
    have hst : ∀ a, (objects a).status ≠ "completed" →
        (Function.update objects ptr ((objects ptr).refundPayment now).2 a).status
          ≠ "completed" := by
      intro a h
      by_cases ha : a = ptr
      · subst ha
        rw [Function.update_same]
        exact Payment.refundPayment_not_completed _ _
      · rw [Function.update_noteq ha]
        exact h
    dsimp only
    split_ifs
    · exact ⟨rfl, hid, hst⟩
    · exact ⟨rfl, hid, hst⟩

theorem refundCalls_keeps (objects : Nat → Payment) (svc : PaymentService)
    (calls : List (Int × Int × String)) :
    (refundCalls objects svc calls).2.payments = svc.payments
    ∧ (∀ a, ((refundCalls objects svc calls).1 a).id = (objects a).id)
    ∧ (∀ a, (objects a).status ≠ "completed" →
        ((refundCalls objects svc calls).1 a).status ≠ "completed") := by
  induction calls generalizing objects svc with
  | nil => exact ⟨rfl, fun _ => rfl, fun _ h => h⟩
  | cons call rest ih =>
    obtain ⟨paymentId, now, date⟩ := call
    obtain ⟨h1, h2, h3⟩ := PaymentService.refundPayment_keeps objects svc paymentId now date
    obtain ⟨k1, k2, k3⟩ := ih (PaymentService.refundPayment objects svc paymentId now date).2.1
      (PaymentService.refundPayment objects svc paymentId now date).2.2
    refine ⟨?_, ?_, ?_⟩
    · show (refundCalls _ _ rest).2.payments = _
      rw [k1, h1]
    · intro a
      show ((refundCalls _ _ rest).1 a).id = _
      rw [k2, h2]
    · intro a ha
      exact k3 a (h3 a ha)

/-- A refund call for an id whose object is not completed, or that is not stored, returns
false and changes neither the objects nor the service. -/
theorem PaymentService.refundPayment_false_of_not_completed (objects : Nat → Payment)
    (svc : PaymentService) (paymentId now : Int) (date : String)
    (h : ∀ ptr, findPaymentById objects svc.payments paymentId = some ptr →
      (objects ptr).status ≠ "completed") :
    PaymentService.refundPayment objects svc paymentId now date = (false, objects, svc) := by
  unfold PaymentService.refundPayment
  cases hf : findPaymentById objects svc.payments paymentId with
  | none => rfl
  | some ptr =>
    dsimp only
    rw [Payment.refundPayment_of_not_completed _ _ (h ptr hf)]
    simp

/-- C38. For a payment of any kind, `refundPayment` succeeds exactly when the status is
completed and then sets the status to refunded; on failure the object is unchanged; a second
refund of the same object fails. For the service: a successful `refundPayment(paymentId)`
subtracts the amount once from the total of the current date; after one call for a payment
id, whatever its result, and any further refund calls, another refund call for that id
returns false and changes neither the payments nor the daily totals. -/
theorem refundPayment_at_most_once (p : Payment) (objects : Nat → Payment)
    (svc : PaymentService) (paymentId now later : Int) (date laterDate : String)
    (calls : List (Int × Int × String)) :
    ((p.refundPayment now).1 = true ↔ p.status = "completed")
    ∧ ((p.refundPayment now).1 = true →
        (p.refundPayment now).2 = { p with status := "refunded", updated_at := now })
    ∧ ((p.refundPayment now).1 = false → (p.refundPayment now).2 = p)
    ∧ ((p.refundPayment now).2.refundPayment later).1 = false
    ∧ ((PaymentService.refundPayment objects svc paymentId now date).1 = true →
        ∃ ptr, findPaymentById objects svc.payments paymentId = some ptr
          ∧ (objects ptr).status = "completed"
          ∧ (PaymentService.refundPayment objects svc paymentId now date).2.2.dailyTotals date
              = some ((svc.dailyTotals date).getD 0 - (objects ptr).amount)
          ∧ ∀ d, d ≠ date →
              (PaymentService.refundPayment objects svc paymentId now date).2.2.dailyTotals d
                = svc.dailyTotals d)
    ∧ PaymentService.refundPayment
          (refundCalls (PaymentService.refundPayment objects svc paymentId now date).2.1
            (PaymentService.refundPayment objects svc paymentId now date).2.2 calls).1
          (refundCalls (PaymentService.refundPayment objects svc paymentId now date).2.1
            (PaymentService.refundPayment objects svc paymentId now date).2.2 calls).2
          paymentId later laterDate
        = (false,
            (refundCalls (PaymentService.refundPayment objects svc paymentId now date).2.1
              (PaymentService.refundPayment objects svc paymentId now date).2.2 calls).1,
            (refundCalls (PaymentService.refundPayment objects svc paymentId now date).2.1
              (PaymentService.refundPayment objects svc paymentId now date).2.2 calls).2) := by
  refine ⟨?_, ?_, ?_, ?_, ?_, ?_⟩
  · rw [Payment.refundPayment_eq]
    by_cases h : p.status = "completed" <;> simp [h]
  · rw [Payment.refundPayment_eq]
    by_cases h : p.status = "completed" <;> simp [h, Payment.setStatus]
  · rw [Payment.refundPayment_eq]
    by_cases h : p.status = "completed" <;> simp [h]
  · rw [Payment.refundPayment_of_not_completed _ _ (Payment.refundPayment_not_completed p now)]
  · intro hok
    unfold PaymentService.refundPayment at hok ⊢
    cases hf : findPaymentById objects svc.payments paymentId with
    | none => simp [hf] at hok
    | some ptr =>
      simp only [hf] at hok ⊢
      by_cases hc : (objects ptr).status = "completed"
      · refine ⟨ptr, rfl, hc, ?_, ?_⟩
        · simp [Payment.refundPayment_eq, hc, Payment.setStatus]
        · intro d hd
          simp [Payment.refundPayment_eq, hc, hd]
      · rw [Payment.refundPayment_of_not_completed _ _ hc] at hok
        simp at hok
  · obtain ⟨h1, h2, h3⟩ := PaymentService.refundPayment_keeps objects svc paymentId now date
    obtain ⟨k1, k2, k3⟩ :=
      refundCalls_keeps (PaymentService.refundPayment objects svc paymentId now date).2.1
        (PaymentService.refundPayment objects svc paymentId now date).2.2 calls
    apply PaymentService.refundPayment_false_of_not_completed
    intro ptr hptr
    rw [k1, h1, findPaymentById_congr objects _ (fun a => (k2 a).trans (h2 a))] at hptr
    apply k3
    unfold PaymentService.refundPayment
    simp only [hptr]
    split_ifs
    · show (Function.update objects ptr ((objects ptr).refundPayment now).2 ptr).status ≠ _
      rw [Function.update_same]
      exact Payment.refundPayment_not_completed _ _
    · show (Function.update objects ptr ((objects ptr).refundPayment now).2 ptr).status ≠ _
      rw [Function.update_same]
      exact Payment.refundPayment_not_completed _ _

theorem refundPayment_at_most_once_witness :
    (PaymentService.refundPayment (fun _ => samplePayment) samplePaymentService 1 100
        "2025-01-02").1 = true
    ∧ ∃ ptr, findPaymentById (fun _ => samplePayment) samplePaymentService.payments 1 = some ptr
      ∧ ((fun _ => samplePayment) ptr).status = "completed"
      ∧ (PaymentService.refundPayment (fun _ => samplePayment) samplePaymentService 1 100
          "2025-01-02").2.2.dailyTotals "2025-01-02"
          = some ((samplePaymentService.dailyTotals "2025-01-02").getD 0
              - ((fun _ => samplePayment) ptr).amount)
      ∧ ∀ d, d ≠ "2025-01-02" →
          (PaymentService.refundPayment (fun _ => samplePayment) samplePaymentService 1 100
            "2025-01-02").2.2.dailyTotals d = samplePaymentService.dailyTotals d :=
  ⟨by decide,
    (refundPayment_at_most_once samplePayment (fun _ => samplePayment) samplePaymentService
      1 100 200 "2025-01-02" "2025-01-03" []).2.2.2.2.1 (by decide)⟩

/-! ## Movie search -/

theorem hasSubstring_nil (hay : List Char) : hasSubstring hay [] = true := by
  cases hay <;> simp [hasSubstring]

theorem searchScore_isSome (movieTitle query : String) :
    ∃ score, searchScore movieTitle query = some score := by
  unfold searchScore
  dsimp only
  split_ifs with h1 h2 h3
  · exact ⟨_, rfl⟩
  · exact ⟨_, rfl⟩
  · exfalso
    rw [List.length_eq_zero.1 h3, hasSubstring_nil] at h2
    exact h2 rfl
  · exact ⟨_, rfl⟩

theorem searchScore_empty_query (movieTitle : String) :
    searchScore movieTitle "" = some 100 ∨ searchScore movieTitle "" = some 80 := by
  have hq : lowerChars "" = [] := rfl
  unfold searchScore
  dsimp only
  rw [hq, hasSubstring_nil]
  by_cases h : lowerChars movieTitle = []
  · exact Or.inl (by rw [if_pos h])
  · exact Or.inr (by rw [if_neg h, if_pos rfl])

theorem scoreLoop_spec (query : String) (movies : List Movie) (acc : List (Movie × Int))
    (hacc : ∀ x ∈ acc, searchScore x.1.title query = some x.2 ∧ x.2 > 30) :
    ∃ out, scoreLoop query movies acc = some out
      ∧ ∀ x ∈ out, searchScore x.1.title query = some x.2 ∧ x.2 > 30 := by
  induction movies generalizing acc with
  | nil => exact ⟨acc, rfl, hacc⟩
  | cons movie rest ih =>
    obtain ⟨score, hs⟩ := searchScore_isSome movie.title query
    simp only [scoreLoop, hs]
    apply ih
    intro x hx
    by_cases h30 : score > 30
    · rw [if_pos h30] at hx
      rcases List.mem_append.1 hx with h | h
      · exact hacc x h
      · rw [List.mem_singleton] at h
        subst h
        exact ⟨hs, h30⟩
    · rw [if_neg h30] at hx
      exact hacc x hx

theorem sortByScoreStable_perm (l : List (Movie × Int)) : (sortByScoreStable l).Perm l :=
  List.perm_insertionSort _ l

theorem sortByScoreStable_sorted (l : List (Movie × Int)) :
    (sortByScoreStable l).Pairwise (fun a b => ¬ b.2 > a.2) := by
  haveI : IsTotal (Movie × Int) (fun a b => a.2 ≥ b.2) := ⟨fun a b => le_total b.2 a.2⟩
  haveI : IsTrans (Movie × Int) (fun a b => a.2 ≥ b.2) :=
    ⟨fun a b c hab hbc => le_trans hbc hab⟩
  have h : (sortByScoreStable l).Pairwise (fun a b => a.2 ≥ b.2) :=
    List.sorted_insertionSort (fun a b : Movie × Int => a.2 ≥ b.2) l
  exact h.imp (fun hab => not_lt.2 hab)

/-- C39. `searchMovies` never divides by zero: every title gets a score for every query, and
for the empty query the score is 100 or 80, so the division by the query length is not
reached. For every `std::sort` that returns a permutation of its input ordered by the
comparison `a.second > b.second`, the search returns a result with at most 10 movies, each
with a score above 30, in non-increasing order of score. -/
theorem searchMovies_total_and_ranked
    (sortByScore : List (Movie × Int) → List (Movie × Int))
    (hperm : ∀ l, (sortByScore l).Perm l)
    (hsorted : ∀ l, (sortByScore l).Pairwise (fun a b => ¬ b.2 > a.2))
    (movies : List Movie) (query : String) :
    (∀ movieTitle, ∃ score, searchScore movieTitle query = some score)
    ∧ (∀ movieTitle,
        searchScore movieTitle "" = some 100 ∨ searchScore movieTitle "" = some 80)
    ∧ ∃ results, searchMoviesWith sortByScore movies query = some results
        ∧ results.length ≤ 10
        ∧ (∀ m ∈ results, ∃ score, searchScore m.title query = some score ∧ score > 30)
        ∧ (results.map (fun m => (searchScore m.title query).getD 0)).Pairwise
            (fun a b => a ≥ b) := by
  refine ⟨fun t => searchScore_isSome t query, searchScore_empty_query, ?_⟩
  obtain ⟨out, hout, hall⟩ := scoreLoop_spec query movies [] (by simp)
  have hmem : ∀ x ∈ (sortByScore out).take 10,
      searchScore x.1.title query = some x.2 ∧ x.2 > 30 :=
    fun x hx => hall x ((hperm out).mem_iff.1 (List.mem_of_mem_take hx))
  refine ⟨((sortByScore out).take 10).map Prod.fst, ?_, ?_, ?_, ?_⟩
  · simp [searchMoviesWith, hout]
  · rw [List.length_map, List.length_take]
    exact Nat.min_le_left _ _
  · intro m hm
    obtain ⟨x, hx, rfl⟩ := List.mem_map.1 hm
    exact ⟨x.2, hmem x hx⟩
  · rw [List.map_map]
    have hscores : ((sortByScore out).take 10).map
        ((fun m => (searchScore m.title query).getD 0) ∘ Prod.fst)
          = ((sortByScore out).take 10).map Prod.snd := by
      apply List.map_congr_left
      intro x hx
      simp [(hmem x hx).1]
    rw [hscores, List.pairwise_map]
    exact ((hsorted out).sublist (List.take_sublist 10 _)).imp (fun hab => not_lt.1 hab)

theorem searchMovies_total_and_ranked_witness :
    (searchMovies (sampleMovies 0) "spidr").map (List.map Movie.title) = some ["Spider-Man"]
    ∧ (searchMovies (sampleMovies 0) "").map (List.map Movie.title)
        = some ["Aquaman", "Spider-Man", "The Batman"]
    ∧ ∃ results, searchMoviesWith sortByScoreStable (sampleMovies 0) "spidr" = some results
      ∧ results.length ≤ 10
      ∧ (∀ m ∈ results, ∃ score, searchScore m.title "spidr" = some score ∧ score > 30)
      ∧ (results.map (fun m => (searchScore m.title "spidr").getD 0)).Pairwise
          (fun a b => a ≥ b) :=
  ⟨by decide, by decide,
    (searchMovies_total_and_ranked sortByScoreStable sortByScoreStable_perm
      sortByScoreStable_sorted (sampleMovies 0) "spidr").2.2⟩

end BookingCore
